import Mathlib

/-!
Stream access subsystem of the PDF engine (`source/pdf/pdf-stream.c`)

A shallow embedding of the stream opening code: the compression-parameter
resolver, the filter-chain builder, raw framing, the stream predicate, the
entry points that open a stream by number or inline, and the buffer loader
with its cached-buffer shortcut, followed by theorems about them.

Conventions of the embedding

* A C pointer that may be `NULL` is an `Option`; `none` is `NULL`.
* A byte source (`fz_stream *`) is the symbolic pipeline of stages that were
  stacked to build it; the decoders themselves are external.
* An out-parameter is an `Option` argument (`none` when the caller passed
  `NULL`, `some v` when it passed a struct holding `v`) and is handed back
  next to the returned value with the contents the call left in it.
* Code that can throw runs in `FzM`, which threads the context (item store and
  warning log) and yields either a value or the error thrown.
* `pdf_load_stream` is called from `pdf_load_jbig2_globals`, which it is built
  on. The call goes through the field `load_globals_stream` of the document,
  and `pdf_bind_loader` binds that field to `pdf_load_stream`, to a given
  depth of nesting.

The date parser of the form-field helpers (`source/pdf/js/util.js.h`) is
embedded as well: its values are `js_value`, a function that returns `null`
returns `none`, and the host clock is the argument `clk`.
-/

namespace MuPDF

/-! ## PDF objects -/

/-- Modelled from the spec: the PDF object type (`pdf_obj`), whose declaration
is outside the stream code. A real number object carries the `int` that
`pdf_to_int` converts it to; an indirect reference carries the object it
resolves to (`none` when it cannot be resolved). -/
inductive pdf_obj where
  | null : pdf_obj
  | bool (b : Bool) : pdf_obj
  | int (i : Int) : pdf_obj
  | real (rounded : Int) : pdf_obj
  | name (n : String) : pdf_obj
  | string (s : String) : pdf_obj
  | array (items : List pdf_obj) : pdf_obj
  | dict (items : List (String × pdf_obj)) : pdf_obj
  | indirect (num gen : Int) (target : Option pdf_obj) : pdf_obj

/-- Modelled from the spec: `RESOLVE(obj)`, following indirect references to
the object they denote. -/
def pdf_resolve : pdf_obj → Option pdf_obj
  | .indirect _ _ none => none
  | .indirect _ _ (some t) => pdf_resolve t
  | .null => some .null
  | .bool b => some (.bool b)
  | .int i => some (.int i)
  | .real r => some (.real r)
  | .name n => some (.name n)
  | .string s => some (.string s)
  | .array xs => some (.array xs)
  | .dict kv => some (.dict kv)

/-- Modelled from the spec: the macro `RESOLVE` applied to a pointer that may
be `NULL`. -/
def RESOLVE (obj : Option pdf_obj) : Option pdf_obj :=
  obj.bind pdf_resolve

/-- Modelled from the spec: linear search of a dictionary's entries for a key
(`pdf_dict_finds`). -/
def pdf_dict_finds : List (String × pdf_obj) → String → Option pdf_obj
  | [], _ => none
  | (k, v) :: rest, key => if k = key then some v else pdf_dict_finds rest key

/-- Modelled from the spec: `pdf_dict_get(ctx, obj, key)` for a name key;
`NULL` when `obj` is not a dictionary or has no such key. -/
def pdf_dict_get (obj : Option pdf_obj) (key : String) : Option pdf_obj :=
  match RESOLVE obj with
  | some (.dict kv) => pdf_dict_finds kv key
  | _ => none

/-- Modelled from the spec: `pdf_dict_geta(ctx, obj, key, abbrev)`
(`dict_get_either`): the entry under `key`, else the entry under `abbrev`. -/
def pdf_dict_geta (obj : Option pdf_obj) (key abbr : String) : Option pdf_obj :=
  match pdf_dict_get obj key with
  | some v => some v
  | none => pdf_dict_get obj abbr

/-- Modelled from the spec: `pdf_to_int`, 0 for anything that is no number. -/
def pdf_to_int (obj : Option pdf_obj) : Int :=
  match RESOLVE obj with
  | some (.int i) => i
  | some (.real r) => r
  | _ => 0

/-- Modelled from the spec: `pdf_to_bool`, true only for the object `true`. -/
def pdf_to_bool (obj : Option pdf_obj) : Bool :=
  match RESOLVE obj with
  | some (.bool b) => b
  | _ => false

/-- Modelled from the spec: `pdf_to_name`, the empty string for a non-name. -/
def pdf_to_name (obj : Option pdf_obj) : String :=
  match RESOLVE obj with
  | some (.name n) => n
  | _ => ""

/-- Modelled from the spec: `pdf_is_name`. -/
def pdf_is_name (obj : Option pdf_obj) : Bool :=
  match RESOLVE obj with
  | some (.name _) => true
  | _ => false

/-- Modelled from the spec: `pdf_is_null`; the null object, not `NULL`. -/
def pdf_is_null (obj : Option pdf_obj) : Bool :=
  match RESOLVE obj with
  | some .null => true
  | _ => false

/-- Modelled from the spec: `pdf_is_array`. -/
def pdf_is_array (obj : Option pdf_obj) : Bool :=
  match RESOLVE obj with
  | some (.array _) => true
  | _ => false

/-- Modelled from the spec: `pdf_is_indirect`; does not resolve. -/
def pdf_is_indirect (obj : Option pdf_obj) : Bool :=
  match obj with
  | some (.indirect _ _ _) => true
  | _ => false

/-- Modelled from the spec: `pdf_array_len`, 0 for a non-array. -/
def pdf_array_len (obj : Option pdf_obj) : Int :=
  match RESOLVE obj with
  | some (.array xs) => (xs.length : Int)
  | _ => 0

/-- Modelled from the spec: `pdf_array_get`, `NULL` for a non-array or an
index out of bounds. -/
def pdf_array_get (obj : Option pdf_obj) (i : Int) : Option pdf_obj :=
  match RESOLVE obj with
  | some (.array xs) => if i < 0 then none else xs.get? i.toNat
  | _ => none

/-- Modelled from the spec: `pdf_name_eq(ctx, a, PDF_NAME_x)`, true when `a`
resolves to the name `x`. -/
def pdf_name_eq (a : Option pdf_obj) (b : String) : Bool :=
  match RESOLVE a with
  | some (.name n) => n == b
  | _ => false

/-! ## Compression descriptors -/

/-- Modelled from the spec: the struct `fz_compression_params`, a tagged
variant: the `type` tag with the member of the union `u` that belongs to it,
holding the fields the resolver writes. `FZ_IMAGE_UNKNOWN` (0) is the kind of
a zero-filled struct. -/
inductive fz_compression_params where
  | FZ_IMAGE_UNKNOWN
  | FZ_IMAGE_RAW
  | FZ_IMAGE_FAX (k : Int) (end_of_line encoded_byte_align : Bool) (columns rows : Int)
      (end_of_block black_is_1 : Bool)
  | FZ_IMAGE_JPEG (color_transform : Int)
  | FZ_IMAGE_RLD
  | FZ_IMAGE_FLATE (predictor columns colors bpc : Int)
  | FZ_IMAGE_LZW (predictor columns colors bpc early_change : Int)
  deriving DecidableEq, Repr

/-- Modelled from the spec: the values of the `type` field. -/
inductive fz_image_type where
  | UNKNOWN | RAW | FAX | JPEG | RLD | FLATE | LZW
  deriving DecidableEq, Repr

/-- The field read `params->type`. -/
def fz_compression_params.type : fz_compression_params → fz_image_type
  | .FZ_IMAGE_UNKNOWN => .UNKNOWN
  | .FZ_IMAGE_RAW => .RAW
  | .FZ_IMAGE_FAX .. => .FAX
  | .FZ_IMAGE_JPEG .. => .JPEG
  | .FZ_IMAGE_RLD => .RLD
  | .FZ_IMAGE_FLATE .. => .FLATE
  | .FZ_IMAGE_LZW .. => .LZW

/-- The function `build_compression_params`: the descriptor for filter `f` with
parameter dictionary `p`. -/
def build_compression_params (f p : Option pdf_obj) : fz_compression_params :=
  let predictor := pdf_to_int (pdf_dict_get p "Predictor")
  let columns_obj := pdf_dict_get p "Columns"
  let columns := pdf_to_int columns_obj
  let colors := pdf_to_int (pdf_dict_get p "Colors")
  let bpc := pdf_to_int (pdf_dict_get p "BitsPerComponent")
  if pdf_name_eq f "CCITTFaxDecode" || pdf_name_eq f "CCF" then
    let k := pdf_dict_get p "K"
    let eol := pdf_dict_get p "EndOfLine"
    let eba := pdf_dict_get p "EncodedByteAlign"
    let rows := pdf_dict_get p "Rows"
    let eob := pdf_dict_get p "EndOfBlock"
    let bi1 := pdf_dict_get p "BlackIs1"
    .FZ_IMAGE_FAX
      (if k.isSome then pdf_to_int k else 0)
      (if eol.isSome then pdf_to_bool eol else false)
      (if eba.isSome then pdf_to_bool eba else false)
      (if columns_obj.isSome then columns else 1728)
      (if rows.isSome then pdf_to_int rows else 0)
      (if eob.isSome then pdf_to_bool eob else true)
      (if bi1.isSome then pdf_to_bool bi1 else false)
  else if pdf_name_eq f "DCTDecode" || pdf_name_eq f "DCT" then
    let ct := pdf_dict_get p "ColorTransform"
    .FZ_IMAGE_JPEG (if ct.isSome then pdf_to_int ct else -1)
  else if pdf_name_eq f "RunLengthDecode" || pdf_name_eq f "RL" then
    .FZ_IMAGE_RLD
  else if pdf_name_eq f "FlateDecode" || pdf_name_eq f "Fl" then
    .FZ_IMAGE_FLATE predictor columns colors bpc
  else if pdf_name_eq f "LZWDecode" || pdf_name_eq f "LZW" then
    let ec := pdf_dict_get p "EarlyChange"
    .FZ_IMAGE_LZW predictor columns colors bpc (if ec.isSome then pdf_to_int ec else 1)
  else
    .FZ_IMAGE_RAW

/-! ## Context, errors and byte sources -/

/-- Modelled from the spec: the error kinds the stream code tells apart. -/
inductive fz_error_code where
  | FZ_ERROR_GENERIC
  | FZ_ERROR_TRYLATER
  | FZ_ERROR_OTHER (code : Nat)
  deriving DecidableEq, Repr

/-- Modelled from the spec: an error in flight, its kind and message. -/
structure fz_error where
  code : fz_error_code
  message : String
  deriving DecidableEq, Repr

/-- Modelled from the spec: a byte buffer (`fz_buffer`), its bytes in order. -/
structure fz_buffer where
  data : List Nat
  deriving DecidableEq, Repr

/-- Modelled from the spec: `fz_buffer_storage(ctx, buf, NULL)`, the number of
bytes the buffer holds. -/
def fz_buffer_storage (buf : fz_buffer) : Nat :=
  buf.data.length

/-- Modelled from the spec: a parsed JBIG2 globals object. `id` tells
instances apart; `data` is the buffer it was parsed from. -/
structure fz_jbig2_globals where
  id : Nat
  data : fz_buffer
  deriving DecidableEq, Repr

/-- Modelled from the spec: the encryption handler `doc->crypt`. -/
structure pdf_crypt where
  id : Nat
  deriving DecidableEq, Repr

/-- Modelled from the spec: a byte source, as the stack of stages it was built
from. Each constructor stands for the external stage constructor named in its
comment; `source` is a stream opened elsewhere (the document file, or the
content stream an inline image sits in). -/
inductive fz_stream where
  /-- A stream that was not built here. -/
  | source (id : Nat) : fz_stream
  /-- Stage `fz_open_buffer(ctx, buf)`. -/
  | buffer (buf : fz_buffer) : fz_stream
  /-- Stage `fz_open_null(ctx, chain, len, offset)`: `len` bytes at `offset`. -/
  | null (chain : fz_stream) (len : Int) (offset : Int) : fz_stream
  /-- Stage `pdf_open_crypt(ctx, chain, crypt, num, gen)`. -/
  | crypt (chain : fz_stream) (crypt : pdf_crypt) (num gen : Int) : fz_stream
  /-- Stage `pdf_open_crypt_with_filter(ctx, chain, crypt, name, num, gen)`. -/
  | crypt_with_filter (chain : fz_stream) (crypt : pdf_crypt) (name : String)
      (num gen : Int) : fz_stream
  /-- Stage `fz_open_image_decomp_stream(ctx, chain, params, NULL)`. -/
  | image_decomp (chain : fz_stream) (params : fz_compression_params) : fz_stream
  /-- Stage `fz_open_ahxd(ctx, chain)`. -/
  | ahxd (chain : fz_stream) : fz_stream
  /-- Stage `fz_open_a85d(ctx, chain)`. -/
  | a85d (chain : fz_stream) : fz_stream
  /-- Stage `fz_open_jbig2d(ctx, chain, globals)`. -/
  | jbig2d (chain : fz_stream) (globals : Option fz_jbig2_globals) : fz_stream
  /-- Stage `fz_open_concat` with the streams pushed onto it, in order. -/
  | concat (parts : List fz_stream) : fz_stream

/-- Modelled from the spec: the state reached through `fz_context`: the item
store (identity of the key's document, key, item, weight), the warnings issued
so far (oldest first), the number of globals objects created so far, and the
streams on which `fz_keep_stream` and `fz_drop_stream` were called (oldest
first). -/
structure fz_context where
  store : List (Nat × pdf_obj × fz_jbig2_globals × Nat)
  warnings : List String
  next_id : Nat
  kept : List fz_stream
  dropped : List fz_stream

/-- Code that may throw: from a context to the value returned or the error
thrown, and the context it leaves. -/
def FzM (α : Type) : Type :=
  fz_context → Except fz_error α × fz_context

/-- Return a value, leaving the context alone. -/
def FzM.pure {α : Type} (a : α) : FzM α :=
  fun c => (.ok a, c)

/-- Sequence two steps; an error thrown by the first skips the second. -/
def FzM.bind {α β : Type} (m : FzM α) (k : α → FzM β) : FzM β :=
  fun c =>
    match m c with
    | (.ok a, c1) => k a c1
    | (.error e, c1) => (.error e, c1)

instance : Monad FzM where
  pure := FzM.pure
  bind := FzM.bind

/-- Modelled from the spec: the call `fz_throw(ctx, code, message)`. -/
def fz_throw {α : Type} (code : fz_error_code) (message : String) : FzM α :=
  fun c => (.error ⟨code, message⟩, c)

/-- Modelled from the spec: the call `fz_rethrow(ctx)` inside a handler that
caught `e`. -/
def fz_rethrow {α : Type} (e : fz_error) : FzM α :=
  fun c => (.error e, c)

/-- Modelled from the spec: the blocks `fz_try(ctx) body fz_catch(ctx) handler`. -/
def fz_try_catch {α : Type} (body : FzM α) (handler : fz_error → FzM α) : FzM α :=
  fun c =>
    match body c with
    | (.ok a, c1) => (.ok a, c1)
    | (.error e, c1) => handler e c1

/-- Modelled from the spec: the call `fz_warn(ctx, message)`, log and carry on. -/
def fz_warn (message : String) : FzM Unit :=
  fun c => (.ok (), { c with warnings := c.warnings ++ [message] })

/-- Modelled from the spec: the call `fz_keep_stream(ctx, stm)`, one more
owner; gives `stm` back. -/
def fz_keep_stream (stm : fz_stream) : FzM fz_stream :=
  fun c => (.ok stm, { c with kept := c.kept ++ [stm] })

/-- Modelled from the spec: the call `fz_drop_stream(ctx, stm)`, one owner
fewer; nothing for `NULL`. -/
def fz_drop_stream (stm : Option fz_stream) : FzM Unit :=
  fun c =>
    match stm with
    | some s => (.ok (), { c with dropped := c.dropped ++ [s] })
    | none => (.ok (), c)

/-- Modelled from the spec: the struct `pdf_xref_entry`, the fields the stream
code reads. -/
structure pdf_xref_entry where
  num : Int
  gen : Int
  stm_ofs : Int
  stm_buf : Option fz_buffer
  obj : Option pdf_obj

/-- Modelled from the spec: the document. `id` is its identity (which
document an object bound to it belongs to); `xref` is `pdf_get_xref_entry`,
the table as it stands; `cache_object` is `pdf_cache_object`, which loads the
object if need be and gives its entry or throws. `load_globals_stream` stands
for the call `pdf_load_stream(ctx, dict)` that `pdf_load_jbig2_globals` makes
while a stream is being opened: `pdf_load_stream` is defined further down from
the functions that make this call, and `pdf_bind_loader` binds the field to
it. -/
structure pdf_document where
  id : Nat
  xref_len : Int
  xref : Int → pdf_xref_entry
  cache_object : Int → Except fz_error pdf_xref_entry
  crypt : Option pdf_crypt
  file : fz_stream
  load_globals_stream : pdf_obj → FzM fz_buffer

/-- Modelled from the spec: the call `pdf_xref_len(ctx, doc)`. -/
def pdf_xref_len (doc : pdf_document) : Int :=
  doc.xref_len

/-- Modelled from the spec: the call `pdf_get_xref_entry(ctx, doc, num)`. -/
def pdf_get_xref_entry (doc : pdf_document) (num : Int) : pdf_xref_entry :=
  doc.xref num

/-- Modelled from the spec: the call `pdf_cache_object(ctx, doc, num)`; it
throws when the object cannot be loaded. -/
def pdf_cache_object (doc : pdf_document) (num : Int) : FzM pdf_xref_entry :=
  fun c => (doc.cache_object num, c)

/-! ## The stream predicate -/

/-- The function `pdf_obj_num_is_stream`. -/
def pdf_obj_num_is_stream (doc : pdf_document) (num : Int) : FzM Bool :=
  if num ≤ 0 ∨ num ≥ pdf_xref_len doc then
    pure false
  else do
    let entry ← pdf_cache_object doc num
    pure (entry.stm_ofs != 0 || entry.stm_buf.isSome)

/-- Modelled from the spec: `pdf_obj_parent_num`, the number of the object a
reference points to. Direct objects are taken as built in memory, with no
parent (0). -/
def pdf_obj_parent_num (obj : Option pdf_obj) : Int :=
  match obj with
  | some (.indirect num _ _) => num
  | _ => 0

/-- The function `pdf_is_stream`; `doc` is the document `obj` is bound to. -/
def pdf_is_stream (doc : pdf_document) (obj : Option pdf_obj) : FzM Bool :=
  let num := pdf_obj_parent_num obj
  pdf_obj_num_is_stream doc num

/-! ## Explicit crypt filters and JBIG2 globals -/

/-- The loop of `pdf_stream_has_crypt`: `k` more elements of the filter array
from index `i`. -/
def pdf_stream_has_crypt_loop (filters : Option pdf_obj) : Nat → Int → Bool
  | 0, _ => false
  | k + 1, i =>
    let obj := pdf_array_get filters i
    if pdf_name_eq obj "Crypt" then true
    else pdf_stream_has_crypt_loop filters k (i + 1)

/-- The function `pdf_stream_has_crypt`. -/
def pdf_stream_has_crypt (stm : Option pdf_obj) : Bool :=
  let filters := pdf_dict_geta stm "Filter" "F"
  if filters.isSome then
    if pdf_name_eq filters "Crypt" then true
    else if pdf_is_array filters then
      let n := pdf_array_len filters
      pdf_stream_has_crypt_loop filters n.toNat 0
    else false
  else false

/-- Modelled from the spec: when two store keys are the same object: they are
bound to the same document and both are references to the same object number
and generation. `d0` and `d1` are the identities of the documents the keys
are bound to. -/
def pdf_cmp_key (d0 : Nat) (k0 : pdf_obj) (d1 : Nat) (k1 : pdf_obj) : Bool :=
  match k0, k1 with
  | .indirect n0 g0 _, .indirect n1 g1 _ => d0 == d1 && n0 == n1 && g0 == g1
  | _, _ => false

/-- Modelled from the spec: identity-keyed lookup in the store entries, for
the key `key` bound to the document of identity `d`. -/
def pdf_find_item_in : List (Nat × pdf_obj × fz_jbig2_globals × Nat) → Nat → pdf_obj →
    Option fz_jbig2_globals
  | [], _, _ => none
  | (d0, k, v, _) :: rest, d, key =>
    if pdf_cmp_key d0 k d key then some v else pdf_find_item_in rest d key

/-- Modelled from the spec: `pdf_find_item(ctx, drop, key)`; `doc` is the
document `key` is bound to. -/
def pdf_find_item (doc : pdf_document) (key : pdf_obj) : FzM (Option fz_jbig2_globals) :=
  fun c => (.ok (pdf_find_item_in c.store doc.id key), c)

/-- Modelled from the spec: `pdf_store_item(ctx, key, val, itemsize)`; an item
already stored under the key stays. `doc` is the document `key` is bound
to. -/
def pdf_store_item (doc : pdf_document) (key : pdf_obj) (val : fz_jbig2_globals)
    (itemsize : Nat) : FzM Unit :=
  fun c =>
    match pdf_find_item_in c.store doc.id key with
    | some _ => (.ok (), c)
    | none => (.ok (), { c with store := c.store ++ [(doc.id, key, val, itemsize)] })

/-- Modelled from the spec: `fz_load_jbig2_globals(ctx, buf)`, parsing a buffer
into a new globals object. -/
def fz_load_jbig2_globals (buf : fz_buffer) : FzM fz_jbig2_globals :=
  fun c => (.ok ⟨c.next_id, buf⟩, { c with next_id := c.next_id + 1 })

/-- The function `pdf_load_jbig2_globals`; `dict` is bound to `doc`. The call
`pdf_load_stream(ctx, dict)` goes through `doc.load_globals_stream`, because
`pdf_load_stream` itself is built on this function; in a document made by
`pdf_bind_loader` the field is `pdf_load_stream`. -/
def pdf_load_jbig2_globals (doc : pdf_document) (dict : pdf_obj) : FzM fz_jbig2_globals := do
  match ← pdf_find_item doc dict with
  | some globals => pure globals
  | none =>
    let buf ← doc.load_globals_stream dict
    let globals ← fz_load_jbig2_globals buf
    pdf_store_item doc dict globals (fz_buffer_storage buf)
    pure globals

/-! ## The filter-chain builder -/

/-- The body of the `fz_try` block of `build_filter`: the value `chain` holds
at its end. `shortstop` says whether the caller passed its own `params`
(`params != &local_params`). -/
def build_filter_try (chain : fz_stream) (doc : pdf_document) (f p : Option pdf_obj)
    (num gen : Int) (shortstop : Bool) : FzM fz_stream :=
  let params := build_compression_params f p
  if shortstop && params.type != .RAW then
    pure chain
  else if params.type != .RAW then
    pure (.image_decomp chain params)
  else if pdf_name_eq f "ASCIIHexDecode" || pdf_name_eq f "AHx" then
    pure (.ahxd chain)
  else if pdf_name_eq f "ASCII85Decode" || pdf_name_eq f "A85" then
    pure (.a85d chain)
  else if pdf_name_eq f "JBIG2Decode" then do
    let obj := pdf_dict_get p "JBIG2Globals"
    let globals ←
      if pdf_is_indirect obj then
        match obj with
        | some o => (fun g => some g) <$> pdf_load_jbig2_globals doc o
        | none => pure none
      else pure none
    pure (.jbig2d chain globals)
  else if pdf_name_eq f "JPXDecode" then
    pure chain
  else if pdf_name_eq f "Crypt" then
    match doc.crypt with
    | none => do
      fz_warn "crypt filter in unencrypted document"
      pure chain
    | some crypt =>
      let name := pdf_dict_get p "Name"
      if pdf_is_name name then
        pure (.crypt_with_filter chain crypt (pdf_to_name name) num gen)
      else
        pure chain
  else do
    fz_warn ("unknown filter name (" ++ pdf_to_name f ++ ")")
    pure chain

/-- The function `build_filter`. `params` is the out-parameter: the result
pairs the stream with what the caller's struct holds on return, which is the
resolver's descriptor whenever a struct was passed. Whatever throws in the
body does so while `chain` still holds the upstream, which the handler
drops. -/
def build_filter (chain : fz_stream) (doc : pdf_document) (f p : Option pdf_obj)
    (num gen : Int) (params : Option fz_compression_params) :
    FzM (fz_stream × Option fz_compression_params) :=
  fz_try_catch
    (do
      let chain2 ← build_filter_try chain doc f p num gen params.isSome
      pure (chain2, params.map (fun _ => build_compression_params f p)))
    (fun e => do
      fz_drop_stream (some chain)
      fz_rethrow e)

/-- The loop of `build_filter_chain`: `k` iterations from index `i`, carrying
the chain built so far and the contents of the out-parameter. -/
def build_filter_chain_loop (doc : pdf_document) (fs ps : Option pdf_obj) (num gen : Int)
    (n : Int) : Nat → Int → fz_stream × Option fz_compression_params →
    FzM (fz_stream × Option fz_compression_params)
  | 0, _, acc => pure acc
  | k + 1, i, (chain, params) => do
    let f := pdf_array_get fs i
    let p := pdf_array_get ps i
    let (chain2, out) ← build_filter chain doc f p num gen (if i = n - 1 then params else none)
    build_filter_chain_loop doc fs ps num gen n k (i + 1)
      (chain2, if i = n - 1 then out else params)

/-- The function `build_filter_chain`. When `build_filter` throws, `chain` is
`NULL`, so the handler drops nothing. -/
def build_filter_chain (chain : fz_stream) (doc : pdf_document) (fs ps : Option pdf_obj)
    (num gen : Int) (params : Option fz_compression_params) :
    FzM (fz_stream × Option fz_compression_params) :=
  fz_try_catch
    (let n := pdf_array_len fs
     build_filter_chain_loop doc fs ps num gen n n.toNat 0 (chain, params))
    (fun e => do
      fz_drop_stream none
      fz_rethrow e)

/-! ## Raw framing -/

/-- The function `pdf_open_raw_filter`; the result holds the stream and the
values left in `*orig_num` and `*orig_gen`. -/
def pdf_open_raw_filter (chain : fz_stream) (doc : pdf_document) (stmobj : Option pdf_obj)
    (num : Int) (offset : Int) : FzM (fz_stream × Int × Int) :=
  let x : Option pdf_xref_entry :=
    if num > 0 ∧ num < pdf_xref_len doc then some (pdf_get_xref_entry doc num) else none
  let orig_num := match x with
    | some x => x.num
    | none => num
  let orig_gen := match x with
    | some x => x.gen
    | none => 0
  match x.bind (fun x => x.stm_buf) with
  | some stm_buf => pure (.buffer stm_buf, orig_num, orig_gen)
  | none => do
    let len := pdf_to_int (pdf_dict_get stmobj "Length")
    let chain2 ← fz_keep_stream chain
    let chain := fz_stream.null chain2 len offset
    let hascrypt := pdf_stream_has_crypt stmobj
    match doc.crypt with
    | some crypt =>
      if !hascrypt then
        pure (.crypt chain crypt orig_num orig_gen, orig_num, orig_gen)
      else
        pure (chain, orig_num, orig_gen)
    | none => pure (chain, orig_num, orig_gen)

/-! ## Opening streams -/

/-- Modelled from the spec: the file-source primitives that look at bytes:
`tell` is `fz_tell(ctx, stm)`, `read_all` is `fz_read_all(ctx, stm, initial)`
and `read_best` is `fz_read_best(ctx, stm, initial, &truncated)`, giving the
buffer and the value left in `truncated`. -/
structure fz_reader where
  tell : fz_stream → FzM Int
  read_all : fz_stream → Int → FzM fz_buffer
  read_best : fz_stream → Int → FzM (fz_buffer × Bool)

/-- The function `pdf_open_filter`; the result pairs the stream with the
contents of `*imparams` on return. When the builder throws, `chain` is `NULL`,
so the handler drops nothing. -/
def pdf_open_filter (doc : pdf_document) (chain : fz_stream) (stmobj : Option pdf_obj)
    (num : Int) (offset : Int) (imparams : Option fz_compression_params) :
    FzM (fz_stream × Option fz_compression_params) := do
  let filters := pdf_dict_geta stmobj "Filter" "F"
  let params := pdf_dict_geta stmobj "DecodeParms" "DP"
  let (chain, orig_num, orig_gen) ← pdf_open_raw_filter chain doc stmobj num offset
  fz_try_catch
    (if pdf_is_name filters then
      build_filter chain doc filters params orig_num orig_gen imparams
    else if pdf_array_len filters > 0 then
      build_filter_chain chain doc filters params orig_num orig_gen imparams
    else
      pure (chain, imparams))
    (fun e => do
      fz_drop_stream none
      fz_rethrow e)

/-- The function `pdf_open_inline_stream`. -/
def pdf_open_inline_stream (rd : fz_reader) (doc : pdf_document) (stmobj : Option pdf_obj)
    (length : Int) (chain : fz_stream) (imparams : Option fz_compression_params) :
    FzM (fz_stream × Option fz_compression_params) := do
  let filters := pdf_dict_geta stmobj "Filter" "F"
  let params := pdf_dict_geta stmobj "DecodeParms" "DP"
  let chain ← fz_keep_stream chain
  if pdf_is_name filters then
    build_filter chain doc filters params 0 0 imparams
  else if pdf_array_len filters > 0 then
    build_filter_chain chain doc filters params 0 0 imparams
  else do
    let imparams := imparams.map (fun _ => fz_compression_params.FZ_IMAGE_RAW)
    let offset ← fz_try_catch (rd.tell chain)
      (fun e => do
        fz_drop_stream (some chain)
        fz_rethrow e)
    pure (.null chain length offset, imparams)

/-- The function `pdf_open_raw_stream_number`. -/
def pdf_open_raw_stream_number (doc : pdf_document) (num : Int) : FzM fz_stream :=
  if num ≤ 0 ∨ num ≥ pdf_xref_len doc then
    fz_throw .FZ_ERROR_GENERIC ("object id out of range (" ++ toString num ++ " 0 R)")
  else do
    let x ← pdf_cache_object doc num
    if x.stm_ofs = 0 then
      fz_throw .FZ_ERROR_GENERIC "object is not a stream"
    else do
      let (chain, _, _) ← pdf_open_raw_filter doc.file doc x.obj num x.stm_ofs
      pure chain

/-- The function `pdf_open_image_stream`. -/
def pdf_open_image_stream (doc : pdf_document) (num : Int)
    (params : Option fz_compression_params) :
    FzM (fz_stream × Option fz_compression_params) :=
  if num ≤ 0 ∨ num ≥ pdf_xref_len doc then
    fz_throw .FZ_ERROR_GENERIC ("object id out of range (" ++ toString num ++ " 0 R)")
  else do
    let x ← pdf_cache_object doc num
    if x.stm_ofs = 0 ∧ x.stm_buf = none then
      fz_throw .FZ_ERROR_GENERIC "object is not a stream"
    else
      pdf_open_filter doc doc.file x.obj num x.stm_ofs params

/-- The function `pdf_open_stream_number`. -/
def pdf_open_stream_number (doc : pdf_document) (num : Int) : FzM fz_stream := do
  let (chain, _) ← pdf_open_image_stream doc num none
  pure chain

/-- The function `pdf_open_stream_with_offset`. -/
def pdf_open_stream_with_offset (doc : pdf_document) (num : Int) (dict : Option pdf_obj)
    (stm_ofs : Int) : FzM fz_stream :=
  if stm_ofs = 0 then
    fz_throw .FZ_ERROR_GENERIC "object is not a stream"
  else do
    let (chain, _) ← pdf_open_filter doc doc.file dict num stm_ofs none
    pure chain

/-- Modelled from the spec: `pdf_to_num`, the object number of a reference and
0 for anything else. -/
def pdf_to_num (obj : Option pdf_obj) : Int :=
  match obj with
  | some (.indirect num _ _) => num
  | _ => 0

/-- The function `pdf_open_raw_stream`; `doc` is the document `ref` belongs
to (`pdf_get_indirect_document`). -/
def pdf_open_raw_stream (doc : pdf_document) (ref : Option pdf_obj) : FzM fz_stream := do
  if ← pdf_is_stream doc ref then
    pdf_open_raw_stream_number doc (pdf_to_num ref)
  else
    fz_throw .FZ_ERROR_GENERIC "object is not a stream"

/-- The function `pdf_open_stream`; `doc` is the document `ref` belongs to
(`pdf_get_indirect_document`). -/
def pdf_open_stream (doc : pdf_document) (ref : Option pdf_obj) : FzM fz_stream := do
  if ← pdf_is_stream doc ref then
    pdf_open_stream_number doc (pdf_to_num ref)
  else
    fz_throw .FZ_ERROR_GENERIC "object is not a stream"

/-! ## Loading buffers -/

/-- Modelled from the spec: the blocks `fz_try(ctx) body fz_always(ctx) fin
fz_catch(ctx) fz_rethrow(ctx)`: `fin` runs either way, then an error thrown
by `body` goes on. -/
def fz_try_always {α : Type} (body : FzM α) (fin : FzM Unit) : FzM α :=
  fun c =>
    match body c with
    | (r, c1) =>
      match fin c1 with
      | (.ok _, c2) => (r, c2)
      | (.error e, c2) => (.error e, c2)

/-- Modelled from the spec: `pdf_load_object(ctx, doc, num)`, the object of
the entry `pdf_cache_object` gives. -/
def pdf_load_object (doc : pdf_document) (num : Int) : FzM (Option pdf_obj) := do
  let entry ← pdf_cache_object doc num
  pure entry.obj

/-- A C `int` result: the value wrapped to 32 bits, two's complement. -/
def c_int (x : Int) : Int :=
  (x + 2147483648) % 4294967296 - 2147483648

/-- The function `pdf_guess_filter_length`; `/` truncates towards zero. -/
def pdf_guess_filter_length (len : Int) (filter : String) : Int :=
  if filter = "ASCIIHexDecode" then
    Int.tdiv len 2
  else if filter = "ASCII85Decode" then
    Int.tdiv (c_int (len * 4)) 5
  else if filter = "FlateDecode" then
    c_int (len * 3)
  else if filter = "RunLengthDecode" then
    c_int (len * 3)
  else if filter = "LZWDecode" then
    c_int (len * 2)
  else
    len

/-- The part of `can_reuse_buffer` after the array test, with the `p` that
test leaves. -/
def can_reuse_buffer_name (f p : Option pdf_obj) (params : Option fz_compression_params) :
    Bool × Option fz_compression_params :=
  if pdf_is_null f then
    (true, params)
  else if !pdf_is_name f then
    (false, params)
  else
    match params with
    | none => (false, none)
    | some _ =>
      let params := build_compression_params f p
      (params.type != .RAW, some params)

/-- The function `can_reuse_buffer`: the value returned and the contents of
`*params` on return. -/
def can_reuse_buffer (entry : Option pdf_xref_entry) (params : Option fz_compression_params) :
    Bool × Option fz_compression_params :=
  match entry with
  | none => (false, params)
  | some entry =>
    if entry.obj.isNone || entry.stm_buf.isNone then
      (false, params)
    else
      let params := params.map (fun _ => fz_compression_params.FZ_IMAGE_RAW)
      let f := pdf_dict_geta entry.obj "Filter" "F"
      if f.isNone then
        (true, params)
      else
        let p := pdf_dict_geta entry.obj "DecodeParms" "DP"
        if pdf_is_array f then
          let len := pdf_array_len f
          if len = 0 then
            (true, params)
          else if len ≠ 1 then
            (false, params)
          else
            can_reuse_buffer_name f (pdf_array_get p 0) params
        else
          can_reuse_buffer_name f p params

/-- The loop of `pdf_load_image_stream` that refines the length guess: `k`
more elements of the filter array from index `i`. -/
def pdf_guess_loop (obj : Option pdf_obj) : Nat → Int → Int → Int
  | 0, _, len => len
  | k + 1, i, len =>
    pdf_guess_loop obj k (i + 1)
      (pdf_guess_filter_length len (pdf_to_name (pdf_array_get obj i)))

/-- The part of `pdf_load_image_stream` after the reuse shortcut; the result
holds the buffer and the contents of `*params` and `*truncated` on return. -/
def pdf_load_image_stream_read (rd : fz_reader) (doc : pdf_document) (num : Int)
    (params : Option fz_compression_params) (truncated : Option Bool) :
    FzM (fz_buffer × Option fz_compression_params × Option Bool) := do
  let dict ← pdf_load_object doc num
  let len := pdf_to_int (pdf_dict_get dict "Length")
  let obj := pdf_dict_get dict "Filter"
  let len := pdf_guess_filter_length len (pdf_to_name obj)
  let n := pdf_array_len obj
  let len := pdf_guess_loop obj n.toNat 0 len
  let (stm, params) ← pdf_open_image_stream doc num params
  fz_try_always
    (match truncated with
      | some _ => do
        let (buf, t) ← rd.read_best stm len
        pure (buf, params, some t)
      | none => do
        let buf ← rd.read_all stm len
        pure (buf, params, none))
    (fz_drop_stream (some stm))

/-- The function `pdf_load_image_stream`; the result holds the buffer and the
contents of `*params` and `*truncated` on return. -/
def pdf_load_image_stream (rd : fz_reader) (doc : pdf_document) (num : Int)
    (params : Option fz_compression_params) (truncated : Option Bool) :
    FzM (fz_buffer × Option fz_compression_params × Option Bool) :=
  if num > 0 ∧ num < pdf_xref_len doc then
    let entry := pdf_get_xref_entry doc num
    match can_reuse_buffer (some entry) params, entry.stm_buf with
    | (true, out), some stm_buf => pure (stm_buf, out, truncated)
    | (_, out), _ => pdf_load_image_stream_read rd doc num out truncated
  else
    pdf_load_image_stream_read rd doc num params truncated

/-- The function `pdf_load_stream_number`. -/
def pdf_load_stream_number (rd : fz_reader) (doc : pdf_document) (num : Int) :
    FzM fz_buffer := do
  let (buf, _, _) ← pdf_load_image_stream rd doc num none none
  pure buf

/-- The part of `pdf_load_raw_stream_number` after the cached-buffer test. -/
def pdf_load_raw_stream_number_read (rd : fz_reader) (doc : pdf_document) (num : Int) :
    FzM fz_buffer := do
  let dict ← pdf_load_object doc num
  let len := pdf_to_int (pdf_dict_get dict "Length")
  let stm ← pdf_open_raw_stream_number doc num
  fz_try_always (rd.read_all stm len) (fz_drop_stream (some stm))

/-- The function `pdf_load_raw_stream_number`. -/
def pdf_load_raw_stream_number (rd : fz_reader) (doc : pdf_document) (num : Int) :
    FzM fz_buffer :=
  if num > 0 ∧ num < pdf_xref_len doc then
    let x := pdf_get_xref_entry doc num
    match x.stm_buf with
    | some stm_buf => pure stm_buf
    | none => pdf_load_raw_stream_number_read rd doc num
  else
    pdf_load_raw_stream_number_read rd doc num

/-- Modelled from the spec: the struct `fz_compressed_buffer`, a buffer with
the descriptor of the compression that remains on its bytes. -/
structure fz_compressed_buffer where
  buffer : fz_buffer
  params : fz_compression_params

/-- The function `pdf_load_compressed_stream`. The struct comes zero-filled
from `fz_malloc_struct`, so its descriptor starts as `FZ_IMAGE_UNKNOWN`. -/
def pdf_load_compressed_stream (rd : fz_reader) (doc : pdf_document) (num : Int) :
    FzM fz_compressed_buffer := do
  let (buffer, params, _) ←
    pdf_load_image_stream rd doc num (some fz_compression_params.FZ_IMAGE_UNKNOWN) none
  pure { buffer := buffer, params := params.getD fz_compression_params.FZ_IMAGE_UNKNOWN }

/-- The function `pdf_load_stream`; `doc` is the document `ref` belongs to
(`pdf_get_indirect_document`). -/
def pdf_load_stream (rd : fz_reader) (doc : pdf_document) (ref : Option pdf_obj) :
    FzM fz_buffer := do
  if ← pdf_is_stream doc ref then
    pdf_load_stream_number rd doc (pdf_to_num ref)
  else
    fz_throw .FZ_ERROR_GENERIC "object is not a stream"

/-- The document `doc` with the call `pdf_load_stream(ctx, dict)` of
`pdf_load_jbig2_globals` bound to `pdf_load_stream` itself, for loads nested
up to `depth` deep: at depth `k + 1` the call made while a stream is opened
is `pdf_load_stream` on the document at depth `k`, read with `rd`; at depth 0
the document is as given. -/
def pdf_bind_loader (rd : fz_reader) (doc : pdf_document) : Nat → pdf_document
  | 0 => doc
  | k + 1 =>
    { doc with
      load_globals_stream := fun o => pdf_load_stream rd (pdf_bind_loader rd doc k) (some o) }

/-! ## Content-stream arrays -/

/-- The loop of `pdf_open_object_array`: `k` more elements from index `i`,
carrying the streams pushed onto the concatenation stage so far. -/
def pdf_open_object_array_loop (doc : pdf_document) (list : Option pdf_obj) (n : Int) :
    Nat → Int → List fz_stream → FzM (List fz_stream)
  | 0, _, parts => pure parts
  | k + 1, i, parts => do
    let obj := pdf_array_get list i
    let parts ← fz_try_catch
      (do
        let stm ← pdf_open_stream doc obj
        pure (parts ++ [stm]))
      (fun e =>
        if e.code = .FZ_ERROR_TRYLATER then do
          fz_drop_stream (some (.concat parts))
          fz_rethrow e
        else do
          fz_warn ("cannot load content stream part " ++ toString (i + 1) ++ "/" ++ toString n)
          pure parts)
    pdf_open_object_array_loop doc list n k (i + 1) parts

/-- The function `pdf_open_object_array`; `doc` is the document the elements
of `list` belong to. -/
def pdf_open_object_array (doc : pdf_document) (list : Option pdf_obj) : FzM fz_stream := do
  let n := pdf_array_len list
  let parts ← pdf_open_object_array_loop doc list n n.toNat 0 []
  pure (.concat parts)

/-! ## Form-field date parsing -/

/-- Modelled from the spec: a value of the scripting language of the form-field
helpers, as far as the date parser meets them: `undefined`, `null`, a number,
`NaN`, or a string. Numbers are exact integers. -/
inductive js_value where
  | undefined : js_value
  | null : js_value
  | number (n : Int) : js_value
  | nan : js_value
  | string (s : String) : js_value
  deriving DecidableEq, Repr

/-- Modelled from the spec: the characters the language counts as white space
or line terminators. -/
def js_is_space (c : Char) : Bool :=
  let n := c.toNat
  n = 9 || n = 10 || n = 11 || n = 12 || n = 13 || n = 32 || n = 160 || n = 5760 ||
    (8192 ≤ n && n ≤ 8202) || n = 8232 || n = 8233 || n = 8239 || n = 8287 ||
    n = 12288 || n = 65279

/-- The number a run of decimal digits denotes. -/
def js_digits_value (cs : List Char) : Int :=
  cs.foldl (fun n c => n * 10 + ((c.toNat : Int) - 48)) 0

/-- The value of a hexadecimal digit. -/
def js_hex_digit (c : Char) : Option Int :=
  let n := c.toNat
  if 48 ≤ n ∧ n ≤ 57 then some ((n : Int) - 48)
  else if 97 ≤ n ∧ n ≤ 102 then some ((n : Int) - 87)
  else if 65 ≤ n ∧ n ≤ 70 then some ((n : Int) - 55)
  else none

/-- The number a run of hexadecimal digits denotes; `none` when a character is
no hexadecimal digit. -/
def js_hex_value (cs : List Char) : Option Int :=
  cs.foldl
    (fun acc c =>
      match acc, js_hex_digit c with
      | some n, some d => some (n * 16 + d)
      | _, _ => none)
    (some 0)

/-- Modelled from the spec: the exponent part of a decimal literal, `e` or `E`
with an optionally signed run of digits; the empty text is exponent 0. -/
def js_exponent_part (cs : List Char) : Option Int :=
  match cs with
  | [] => some 0
  | e :: r =>
    if e = 'e' ∨ e = 'E' then
      match r with
      | [] => none
      | c :: ds =>
        if c = '-' then
          if !ds.isEmpty && ds.all Char.isDigit then some (-(js_digits_value ds)) else none
        else if c = '+' then
          if !ds.isEmpty && ds.all Char.isDigit then some (js_digits_value ds) else none
        else if (c :: ds).all Char.isDigit then some (js_digits_value (c :: ds))
        else none
    else none

/-- Modelled from the spec: the value of an unsigned decimal literal (digits
with an optional fraction and an optional exponent), when that value is an
integer within the range of a number; `none` otherwise. `limit` is
2 ^ 1024 - 2 ^ 970, from which on a value is infinite. -/
def js_decimal_literal (cs : List Char) : Option Int :=
  let d1 := cs.takeWhile Char.isDigit
  let r1 := cs.dropWhile Char.isDigit
  let d2 :=
    match r1 with
    | [] => []
    | c :: r => if c = '.' then r.takeWhile Char.isDigit else []
  let r2 :=
    match r1 with
    | [] => []
    | c :: r => if c = '.' then r.dropWhile Char.isDigit else r1
  if d1.isEmpty && d2.isEmpty then none
  else
    match js_exponent_part r2 with
    | none => none
    | some e =>
      let m : Nat := (js_digits_value (d1 ++ d2)).toNat
      let s := e - (d2.length : Int)
      let limit : Nat :=
        179769313486231580793728971405303415079934132710037826936173778980444968292764750946649017977587207096330286416692887910946555547851940402630657488671505820681908902000708383676273854845817711531764475730270069855571366959622842914819860834936475292719074168444365510704342711559699508093042880177904174497792
      if m = 0 then some 0
      else if 0 ≤ s then
        if 400 < s then none
        else if m * 10 ^ s.toNat < limit then some ((m * 10 ^ s.toNat : Nat) : Int)
        else none
      else if ((d1 ++ d2).length : Int) < -s then none
      else if m % 10 ^ (-s).toNat = 0 then
        if m / 10 ^ (-s).toNat < limit then some ((m / 10 ^ (-s).toNat : Nat) : Int) else none
      else none

/-- Modelled from the spec: the conversion of a string to a number; `none` is
`NaN`. White space around the text is dropped; the empty text is 0; a
hexadecimal literal and an optionally signed decimal literal, with or without
a fraction and an exponent, give their value. Numbers are exact integers
here: a text whose value is not an integer, or is beyond the range of a
number (`Infinity` included), counts as `NaN`, and values beyond 2 ^ 53 are
not rounded. Digit groups are covered exactly. -/
def js_string_to_number (s : String) : Option Int :=
  let cs := ((s.toList.dropWhile js_is_space).reverse.dropWhile js_is_space).reverse
  match cs with
  | [] => some 0
  | c :: ds =>
    if c = '0' ∧ (ds.head? = some 'x' ∨ ds.head? = some 'X') then
      if (ds.drop 1).isEmpty then none else js_hex_value (ds.drop 1)
    else if c = '-' then (js_decimal_literal ds).map (fun n => -n)
    else if c = '+' then js_decimal_literal ds
    else js_decimal_literal (c :: ds)

/-- Modelled from the spec: the conversion `ToNumber`; `none` is `NaN`. -/
def js_ToNumber : js_value → Option Int
  | .undefined => none
  | .null => some 0
  | .number n => some n
  | .nan => none
  | .string s => js_string_to_number s

/-- Modelled from the spec: the conversion `ToString`. -/
def js_ToString : js_value → String
  | .undefined => "undefined"
  | .null => "null"
  | .number n => toString n
  | .nan => "NaN"
  | .string s => s

/-- A number result as a value. -/
def js_number (x : Option Int) : js_value :=
  match x with
  | some n => .number n
  | none => .nan

/-- Modelled from the spec: the operator `+` (and `+=`): concatenation when
either operand is a string, addition of numbers otherwise. -/
def js_add (a b : js_value) : js_value :=
  match a, b with
  | .string s, _ => .string (s ++ js_ToString b)
  | _, .string t => .string (js_ToString a ++ t)
  | _, _ =>
    match js_ToNumber a, js_ToNumber b with
    | some x, some y => .number (x + y)
    | _, _ => .nan

/-- Modelled from the spec: the operator `-` (and `-=`): both operands are
converted to numbers. -/
def js_sub (a b : js_value) : js_value :=
  match js_ToNumber a, js_ToNumber b with
  | some x, some y => .number (x - y)
  | _, _ => .nan

/-- Modelled from the spec: the operator `<`: two strings are compared as
strings, anything else as numbers, and a comparison with `NaN` is false. -/
def js_lt (a b : js_value) : Bool :=
  match a, b with
  | .string s, .string t => decide (s < t)
  | _, _ =>
    match js_ToNumber a, js_ToNumber b with
    | some x, some y => decide (x < y)
    | _, _ => false

/-- Modelled from the spec: the operator `>=`. -/
def js_ge (a b : js_value) : Bool :=
  match a, b with
  | .string s, .string t => !decide (s < t)
  | _, _ =>
    match js_ToNumber a, js_ToNumber b with
    | some x, some y => decide (y ≤ x)
    | _, _ => false

/-- Modelled from the spec: the operator `==`: a number and a string are
compared as numbers. -/
def js_eq (a b : js_value) : Bool :=
  match a, b with
  | .undefined, .undefined => true
  | .undefined, .null => true
  | .null, .undefined => true
  | .null, .null => true
  | .number x, .number y => x == y
  | .string s, .string t => s == t
  | .number x, .string t => js_string_to_number t == some x
  | .string s, .number y => js_string_to_number s == some y
  | _, _ => false

/-- Modelled from the spec: the operator `!=`. -/
def js_ne (a b : js_value) : Bool :=
  !js_eq a b

/-- Modelled from the spec: whether a value counts as true in a condition. -/
def js_truthy : js_value → Bool
  | .undefined => false
  | .null => false
  | .number n => n != 0
  | .nan => false
  | .string s => s != ""

/-- Modelled from the spec: `array[i]` on an array of strings; `undefined`
outside the array. -/
def js_index (xs : List String) (i : Int) : js_value :=
  if i < 0 then .undefined
  else
    match xs.get? i.toNat with
    | some s => .string s
    | none => .undefined

/-- Modelled from the spec: `string.indexOf(c)` for a single character, -1
when it does not occur. -/
def js_indexOf (s : String) (c : Char) : Int :=
  let i := s.toList.indexOf c
  if i < s.toList.length then (i : Int) else -1

/-- Modelled from the spec: the host clock: the time value `new Date()` gives
(milliseconds since the epoch, UTC) and the offset of local time from UTC in
milliseconds. -/
structure js_clock where
  now : Int
  tza : Int

/-- Modelled from the spec: a `Date` object, its time value in milliseconds
since the epoch (UTC); `none` is `NaN`, the invalid date. -/
structure js_date where
  t : Option Int
  deriving DecidableEq, Repr

/-- Modelled from the spec: `Day(t)`, the day number of a time value. -/
def js_Day (t : Int) : Int :=
  t / 86400000

/-- Modelled from the spec: `TimeWithinDay(t)`. -/
def js_TimeWithinDay (t : Int) : Int :=
  t % 86400000

/-- Modelled from the spec: the day number of the first day of month `m`
(0 to 11) of year `y` in the proleptic Gregorian calendar. -/
def js_days_from_civil (y m : Int) : Int :=
  let y1 := if m + 1 ≤ 2 then y - 1 else y
  let era := y1 / 400
  let yoe := y1 % 400
  let mp := if m + 1 > 2 then m - 2 else m + 10
  let doy := (153 * mp + 2) / 5
  let doe := yoe * 365 + yoe / 4 - yoe / 100 + doy
  era * 146097 + doe - 719468

/-- Modelled from the spec: the year, the month (0 to 11) and the day of the
month (1 to 31) of a day number in the proleptic Gregorian calendar. -/
def js_civil_from_days (z : Int) : Int × Int × Int :=
  let z1 := z + 719468
  let era := z1 / 146097
  let doe := z1 % 146097
  let yoe := (doe - doe / 1460 + doe / 36524 - doe / 146096) / 365
  let y := yoe + era * 400
  let doy := doe - (365 * yoe + yoe / 4 - yoe / 100)
  let mp := (5 * doy + 2) / 153
  let d := doy - (153 * mp + 2) / 5 + 1
  let m1 := if mp < 10 then mp + 3 else mp - 9
  (if m1 ≤ 2 then y + 1 else y, m1 - 1, d)

/-- Modelled from the spec: `MakeDay(year, month, date)`; months beyond 0 to
11 carry into the year and days beyond the month carry on. -/
def js_MakeDay (year month date : Option Int) : Option Int :=
  match year, month, date with
  | some y, some m, some dt => some (js_days_from_civil (y + m / 12) (m % 12) + dt - 1)
  | _, _, _ => none

/-- Modelled from the spec: `MakeTime(hour, min, sec, ms)`. -/
def js_MakeTime (hour min sec : Option Int) (ms : Int) : Option Int :=
  match hour, min, sec with
  | some h, some m, some s => some (h * 3600000 + m * 60000 + s * 1000 + ms)
  | _, _, _ => none

/-- Modelled from the spec: `MakeDate(day, time)`. -/
def js_MakeDate (day time : Option Int) : Option Int :=
  match day, time with
  | some d, some t => some (d * 86400000 + t)
  | _, _ => none

/-- Modelled from the spec: `TimeClip(UTC(t))` for a local time `t`: the time
value a `Date` takes, `NaN` beyond 8.64e15 milliseconds from the epoch. -/
def js_TimeClip (clk : js_clock) (t : Option Int) : Option Int :=
  match t with
  | some t =>
    if 8640000000000000 < t - clk.tza ∨ t - clk.tza < -8640000000000000 then none
    else some (t - clk.tza)
  | none => none

/-- Modelled from the spec: `new Date()`. -/
def js_date_now (clk : js_clock) : js_date :=
  { t := some clk.now }

/-- Modelled from the spec: `date.getFullYear()`, in local time. -/
def js_getFullYear (clk : js_clock) (d : js_date) : js_value :=
  js_number (d.t.map (fun t => (js_civil_from_days (js_Day (t + clk.tza))).1))

/-- Modelled from the spec: `date.getMonth()`, 0 to 11. -/
def js_getMonth (clk : js_clock) (d : js_date) : js_value :=
  js_number (d.t.map (fun t => (js_civil_from_days (js_Day (t + clk.tza))).2.1))

/-- Modelled from the spec: `date.getDate()`, 1 to 31. -/
def js_getDate (clk : js_clock) (d : js_date) : js_value :=
  js_number (d.t.map (fun t => (js_civil_from_days (js_Day (t + clk.tza))).2.2))

/-- Modelled from the spec: `date.getHours()`. -/
def js_getHours (clk : js_clock) (d : js_date) : js_value :=
  js_number (d.t.map (fun t => js_TimeWithinDay (t + clk.tza) / 3600000))

/-- Modelled from the spec: `date.getMinutes()`. -/
def js_getMinutes (clk : js_clock) (d : js_date) : js_value :=
  js_number (d.t.map (fun t => js_TimeWithinDay (t + clk.tza) / 60000 % 60))

/-- Modelled from the spec: `date.getSeconds()`. -/
def js_getSeconds (clk : js_clock) (d : js_date) : js_value :=
  js_number (d.t.map (fun t => js_TimeWithinDay (t + clk.tza) / 1000 % 60))

/-- Modelled from the spec: `date.setFullYear(year, month, date)`; the time
within the day stays, and an invalid date counts as time 0. -/
def js_setFullYear (clk : js_clock) (d : js_date) (year month date : js_value) : js_date :=
  let t := match d.t with
    | some t => t + clk.tza
    | none => 0
  { t := js_TimeClip clk
      (js_MakeDate (js_MakeDay (js_ToNumber year) (js_ToNumber month) (js_ToNumber date))
        (some (js_TimeWithinDay t))) }

/-- Modelled from the spec: `date.setHours(hour, min, sec)`; the day and the
milliseconds stay. -/
def js_setHours (clk : js_clock) (d : js_date) (hour min sec : js_value) : js_date :=
  match d.t with
  | some t =>
    { t := js_TimeClip clk
        (js_MakeDate (some (js_Day (t + clk.tza)))
          (js_MakeTime (js_ToNumber hour) (js_ToNumber min) (js_ToNumber sec)
            (js_TimeWithinDay (t + clk.tza) % 1000))) }
  | none => { t := none }

/-- Modelled from the spec: the matches of `/\d+/g`: the maximal runs of
decimal digits, in order. `cur` holds the run being read, reversed. -/
def js_digit_runs : List Char → List Char → List String
  | [], cur => if cur.isEmpty then [] else [String.mk cur.reverse]
  | c :: cs, cur =>
    if c.isDigit then js_digit_runs cs (c :: cur)
    else if cur.isEmpty then js_digit_runs cs []
    else String.mk cur.reverse :: js_digit_runs cs []

/-- Modelled from the spec: the length of the match of the pattern
`\d\d?:\d\d?(:\d\d?)?\s*(am|pm)?`, letters in either case, at the head of the
text. -/
def js_time_match_at (cs : List Char) : Option Nat :=
  let digits (cs : List Char) : Option (Nat × List Char) :=
    match cs with
    | a :: b :: rest =>
      if a.isDigit then (if b.isDigit then some (2, rest) else some (1, b :: rest)) else none
    | [a] => if a.isDigit then some (1, []) else none
    | [] => none
  match digits cs with
  | none => none
  | some (n1, r1) =>
    match r1 with
    | c :: r2 =>
      if c = ':' then
        match digits r2 with
        | none => none
        | some (n2, r3) =>
          let (n3, r4) :=
            match r3 with
            | c3 :: r5 =>
              if c3 = ':' then
                match digits r5 with
                | some (k, r6) => (k + 1, r6)
                | none => (0, r3)
              else (0, r3)
            | [] => (0, r3)
          let sp := (r4.takeWhile js_is_space).length
          let r7 := r4.dropWhile js_is_space
          let n4 :=
            match r7 with
            | a :: m :: _ =>
              if (a.toLower = 'a' || a.toLower = 'p') && m.toLower = 'm' then 2 else 0
            | _ => 0
          some (n1 + 1 + n2 + n3 + sp + n4)
      else none
    | [] => none

/-- Modelled from the spec: `pattern.exec(string)` for the time pattern: the
text before the leftmost match, the match, and the text after it. `pre` holds
the text passed over, reversed. -/
def js_time_search : List Char → List Char → Option (List Char × List Char × List Char)
  | _, [] => none
  | pre, c :: cs =>
    match js_time_match_at (c :: cs) with
    | some n => some (pre.reverse, (c :: cs).take n, (c :: cs).drop n)
    | none => js_time_search (c :: pre) cs

/-- Modelled from the spec: `(/word/i).test(string)` for a word of lower-case
letters: whether the word occurs in the text, letters in either case. -/
def js_test_ci (word : List Char) : List Char → Bool
  | [] => word.isEmpty
  | c :: cs =>
    word.isPrefixOf ((c :: cs).map Char.toLower) || js_test_ci word cs

/-- Modelled from the spec: the index into `names` of the leftmost match of
`/Jan|Feb|...|Dec/i` in the text, or `none`. -/
def js_month_search (names : List (List Char)) : List Char → Option Nat
  | [] => none
  | c :: cs =>
    let i := names.indexOf (((c :: cs).take 3).map Char.toLower)
    if i < names.length then some i else js_month_search names cs

/-- The function `AFExtractNums`; `none` is `null`. -/
def AFExtractNums (string : String) : Option (List String) :=
  let string :=
    if string.toList.head? = some '.' ∨ string.toList.head? = some ',' then "0" ++ string
    else string
  match js_digit_runs string.toList [] with
  | [] => none
  | nums => some nums

/-- The function `AFExtractTime`: the text without the time, and the time. -/
def AFExtractTime (string : String) : Option (String × String) :=
  match js_time_search [] string.toList with
  | some (pre, m, suf) => some (String.mk (pre ++ suf), String.mk m)
  | none => none

/-- The function `AFParseDateOrder`. -/
def AFParseDateOrder (fmt : String) : String :=
  (fmt ++ "mdy").toList.foldl
    (fun order c =>
      if (c = 'y' ∨ c = 'm' ∨ c = 'd') ∧ js_indexOf order c < 0 then order.push c else order)
    ""

/-- The function `AFMatchMonth`: a number from 1 to 12, or `null`. -/
def AFMatchMonth (date : String) : js_value :=
  match js_month_search
      (["jan", "feb", "mar", "apr", "may", "jun", "jul", "aug", "sep", "oct", "nov",
        "dec"].map String.toList) date.toList with
  | some i => .number ((i : Int) + 1)
  | none => .null

/-- The function `AFParseTime`; `none` is `null`. -/
def AFParseTime (clk : js_clock) (string : String) (date : Option js_date) : Option js_date :=
  let date :=
    match date with
    | some d => d
    | none => js_date_now clk
  if string = "" then some date
  else
    match AFExtractNums string with
    | none => none
    | some nums =>
      if nums.length < 2 ∨ nums.length > 3 then none
      else
        let hour := js_index nums 0
        let min := js_index nums 1
        let sec := if nums.length = 3 then js_index nums 2 else .number 0
        let hour :=
          if js_lt hour (.number 12) && js_test_ci "pm".toList string.toList then
            js_add hour (.number 12)
          else hour
        let hour :=
          if js_ge hour (.number 12) && js_test_ci "am".toList string.toList then
            js_sub hour (.number 12)
          else hour
        let date := js_setHours clk date hour min sec
        if js_ne (js_getHours clk date) hour || js_ne (js_getMinutes clk date) min ||
            js_ne (js_getSeconds clk date) sec then none
        else some date

/-- The first two statements of `AFMakeDate`: the value of `year` after the
two-digit window. -/
def AFMakeDate_year (year : js_value) : js_value :=
  let year := if js_lt year (.number 50) then js_add year (.number 2000) else year
  if js_lt year (.number 100) then js_add year (.number 1900) else year

/-- The function `AFMakeDate`; `none` is `null`. -/
def AFMakeDate (clk : js_clock) (out : js_date) (year month date : js_value)
    (time : Option String) : Option js_date :=
  let year := AFMakeDate_year year
  let out := js_setFullYear clk out year month date
  if js_ne (js_getFullYear clk out) year || js_ne (js_getMonth clk out) month ||
      js_ne (js_getDate clk out) date then none
  else
    match time with
    | some time =>
      if time != "" then AFParseTime clk time (some out)
      else some (js_setHours clk out (.number 0) (.number 0) (.number 0))
    | none => some (js_setHours clk out (.number 0) (.number 0) (.number 0))

/-- The loop of the last case of `AFParseDateEx`: one step over the character
of the format and the character of the text at the same index; `skip` says
that the index was stepped over after a backslash. -/
def AFParseDateEx_step (acc : Bool × String × String × String) (x : Char × Char) :
    Bool × String × String × String :=
  match acc with
  | (skip, year, month, date) =>
    if skip then (false, year, month, date)
    else if x.1 = Char.ofNat 92 then (true, year, month, date)
    else if x.1 = 'y' then (false, year.push x.2, month, date)
    else if x.1 = 'm' then (false, year, month.push x.2, date)
    else if x.1 = 'd' then (false, year, month, date.push x.2)
    else (false, year, month, date)

/-- The function `AFParseDateEx`; `none` is `null`. -/
def AFParseDateEx (clk : js_clock) (string fmt : String) : Option js_date :=
  let out := js_date_now clk
  let year := js_getFullYear clk out
  let out := js_setHours clk out (.number 12) (.number 0) (.number 0)
  let order := AFParseDateOrder fmt
  let iy := js_indexOf order 'y'
  let im := js_indexOf order 'm'
  let idd := js_indexOf order 'd'
  let (string, time) :=
    match AFExtractTime string with
    | some (rest, t) => (rest, some t)
    | none => (string, none)
  match AFExtractNums string with
  | none => none
  | some nums =>
    if nums.length = 3 then
      let year := js_index nums iy
      let month := js_index nums im
      let date := js_index nums idd
      AFMakeDate clk out year (js_sub month (.number 1)) date time
    else
      let month := AFMatchMonth string
      if nums.length = 2 then
        let (year, month, date) :=
          if js_truthy month then
            if iy < idd then (js_index nums 0, month, js_index nums 1)
            else (js_index nums 1, month, js_index nums 0)
          else if iy < idd then
            if iy < im then (js_index nums 0, js_index nums 1, js_value.undefined)
            else (js_index nums 1, js_index nums 0, js_value.undefined)
          else
            if idd < im then (year, js_index nums 1, js_index nums 0)
            else (year, js_index nums 0, js_index nums 1)
        AFMakeDate clk out year (js_sub month (.number 1)) date time
      else if nums.length = 1 then
        if js_truthy month then
          let (year, date) :=
            if iy < idd then (js_index nums 0, js_value.number 1)
            else (year, js_index nums 0)
          AFMakeDate clk out year (js_sub month (.number 1)) date time
        else if string.length = fmt.length then
          match (fmt.toList.zip string.toList).foldl AFParseDateEx_step (false, "", "", "") with
          | (_, year, month, date) =>
            AFMakeDate clk out (.string year) (js_sub (.string month) (.number 1))
              (.string date) time
        else none
      else none

/-! ## Sample inputs -/

/-- A context with an empty store and empty logs. -/
def ctx_empty : fz_context :=
  { store := [], warnings := [], next_id := 0, kept := [], dropped := [] }

/-- The error a failed object load throws. -/
def err_cannot_load : fz_error :=
  { code := .FZ_ERROR_GENERIC, message := "cannot load object" }

/-- An unencrypted document with objects 1..4: object 1 is a stream of five
bytes at offset 100, object 2 is no stream, object 3 cannot be loaded, object
4 has a cached buffer and no offset. -/
def doc_plain : pdf_document :=
  { id := 1
    xref_len := 5
    xref := fun n =>
      if n = 1 then ⟨1, 0, 100, none, some (.dict [("Length", .int 5)])⟩
      else if n = 4 then ⟨4, 0, 0, some ⟨[104, 105]⟩, some (.dict [("Length", .int 2)])⟩
      else ⟨n, 0, 0, none, none⟩
    cache_object := fun n =>
      if n = 1 then .ok ⟨1, 0, 100, none, some (.dict [("Length", .int 5)])⟩
      else if n = 3 then .error err_cannot_load
      else if n = 4 then .ok ⟨4, 0, 0, some ⟨[104, 105]⟩, some (.dict [("Length", .int 2)])⟩
      else .ok ⟨n, 0, 0, none, some .null⟩
    crypt := none
    file := .source 0
    load_globals_stream := fun _ => fz_throw .FZ_ERROR_GENERIC "object is not a stream" }

/-- The document `doc_plain` with an encryption handler. -/
def doc_encrypted : pdf_document :=
  { doc_plain with id := 8, crypt := some ⟨1⟩ }

/-- The stream dictionary of scenario S4: `Filter [/Crypt /FlateDecode]` with
`DecodeParms [<</Name /Identity>> null]`. -/
def stm_crypt_flate : pdf_obj :=
  .dict [("Length", .int 5),
    ("Filter", .array [.name "Crypt", .name "FlateDecode"]),
    ("DecodeParms", .array [.dict [("Name", .name "Identity")], .null])]

/-- An xref entry with a cached three-byte buffer, no offset, and the given
stream dictionary. -/
def entry_cached (dict : pdf_obj) : pdf_xref_entry :=
  { num := 6, gen := 0, stm_ofs := 0, stm_buf := some ⟨[1, 2, 3]⟩, obj := some dict }

/-- An unencrypted document with filtered streams read from the file: object
1 is `Filter /ASCIIHexDecode` (11 bytes at offset 50), object 2 is
`Filter [/FlateDecode]` with `DecodeParms [<</Predictor 12>>]` (20 bytes at
offset 70), object 3 has a cached buffer and `Filter [/ASCII85Decode
/FlateDecode]`. -/
def doc_filtered : pdf_document :=
  { id := 2
    xref_len := 4
    xref := fun n =>
      if n = 1 then
        ⟨1, 0, 50, none, some (.dict [("Length", .int 11), ("Filter", .name "ASCIIHexDecode")])⟩
      else if n = 2 then
        ⟨2, 0, 70, none, some (.dict [("Length", .int 20),
          ("Filter", .array [.name "FlateDecode"]),
          ("DecodeParms", .array [.dict [("Predictor", .int 12)]])])⟩
      else
        ⟨3, 0, 0, some ⟨[1, 2, 3]⟩, some (.dict [("Length", .int 3),
          ("Filter", .array [.name "ASCII85Decode", .name "FlateDecode"])])⟩
    cache_object := fun n =>
      if n = 1 then
        .ok ⟨1, 0, 50, none,
          some (.dict [("Length", .int 11), ("Filter", .name "ASCIIHexDecode")])⟩
      else if n = 2 then
        .ok ⟨2, 0, 70, none, some (.dict [("Length", .int 20),
          ("Filter", .array [.name "FlateDecode"]),
          ("DecodeParms", .array [.dict [("Predictor", .int 12)]])])⟩
      else
        .ok ⟨3, 0, 0, some ⟨[1, 2, 3]⟩, some (.dict [("Length", .int 3),
          ("Filter", .array [.name "ASCII85Decode", .name "FlateDecode"])])⟩
    crypt := none
    file := .source 0
    load_globals_stream := fun _ => fz_throw .FZ_ERROR_GENERIC "object is not a stream" }

/-- Modelled from the spec: reading over a file with the given bytes. A
length-bounded view over the file reads `len` bytes at `offset`, a buffer
source reads the buffer, the file stands at position `pos`; decoder stages
are not interpreted. -/
def reader_file (bytes : List Nat) (pos : Int) : fz_reader :=
  { tell := fun stm =>
      match stm with
      | .source _ => pure pos
      | _ => fz_throw .FZ_ERROR_GENERIC "cannot tell"
    read_all := fun stm _ =>
      match stm with
      | .null (.source _) len offset => pure ⟨(bytes.drop offset.toNat).take len.toNat⟩
      | .buffer buf => pure buf
      | _ => fz_throw .FZ_ERROR_GENERIC "cannot read"
    read_best := fun stm _ =>
      match stm with
      | .null (.source _) len offset =>
        pure (⟨(bytes.drop offset.toNat).take len.toNat⟩, false)
      | .buffer buf => pure (buf, false)
      | _ => fz_throw .FZ_ERROR_GENERIC "cannot read" }

/-- A reader whose `fz_tell` fails. -/
def reader_broken : fz_reader :=
  { tell := fun _ => fz_throw .FZ_ERROR_GENERIC "cannot tell"
    read_all := fun _ _ => fz_throw .FZ_ERROR_GENERIC "cannot read"
    read_best := fun _ _ => fz_throw .FZ_ERROR_GENERIC "cannot read" }

/-- A document for scenario S5: objects 10 and 12 are unfiltered streams (3
bytes at offset 100, 4 bytes at offset 200) and loading object 11 throws an
error of the given kind. -/
def doc_contents (code : fz_error_code) : pdf_document :=
  { id := 3
    xref_len := 13
    xref := fun n =>
      if n = 10 then ⟨10, 0, 100, none, some (.dict [("Length", .int 3)])⟩
      else if n = 12 then ⟨12, 0, 200, none, some (.dict [("Length", .int 4)])⟩
      else ⟨n, 0, 0, none, none⟩
    cache_object := fun n =>
      if n = 10 then .ok ⟨10, 0, 100, none, some (.dict [("Length", .int 3)])⟩
      else if n = 12 then .ok ⟨12, 0, 200, none, some (.dict [("Length", .int 4)])⟩
      else .error ⟨code, "cannot load object"⟩
    crypt := none
    file := .source 0
    load_globals_stream := fun _ => fz_throw .FZ_ERROR_GENERIC "object is not a stream" }

/-- The page contents of scenario S5: `[10 0 R, 11 0 R, 12 0 R]`. -/
def contents_array : pdf_obj :=
  .array [.indirect 10 0 none, .indirect 11 0 none, .indirect 12 0 none]

/-- A document whose object 1 is a stream at offset 60 with `Length
1073741824` and `Filter /FlateDecode`. -/
def doc_huge : pdf_document :=
  { id := 5
    xref_len := 2
    xref := fun n =>
      ⟨n, 0, 60, none, some (.dict [("Length", .int 1073741824),
        ("Filter", .name "FlateDecode")])⟩
    cache_object := fun n =>
      .ok ⟨n, 0, 60, none, some (.dict [("Length", .int 1073741824),
        ("Filter", .name "FlateDecode")])⟩
    crypt := none
    file := .source 0
    load_globals_stream := fun _ => fz_throw .FZ_ERROR_GENERIC "object is not a stream" }

/-- A reader that refuses every read, naming the initial size it was asked
for. -/
def reader_hint : fz_reader :=
  { tell := fun _ => pure 0
    read_all := fun _ len => fz_throw .FZ_ERROR_GENERIC ("initial size " ++ toString len)
    read_best := fun _ len => fz_throw .FZ_ERROR_GENERIC ("initial size " ++ toString len) }

/-- A stream dictionary with `Filter [/FlateDecode]` and a single
`DecodeParms` dictionary `<</Predictor 12>>`. -/
def stm_flate_single_parms : pdf_obj :=
  .dict [("Length", .int 20),
    ("Filter", .array [.name "FlateDecode"]),
    ("DecodeParms", .dict [("Predictor", .int 12)])]

/-- An unencrypted document whose object 1 has a cached two-byte buffer, no
offset, and `Filter /DCTDecode`. -/
def doc_cached_jpeg : pdf_document :=
  { id := 6
    xref_len := 2
    xref := fun n =>
      ⟨n, 0, 0, some ⟨[255, 216]⟩,
        some (.dict [("Length", .int 2), ("Filter", .name "DCTDecode")])⟩
    cache_object := fun n =>
      .ok ⟨n, 0, 0, some ⟨[255, 216]⟩,
        some (.dict [("Length", .int 2), ("Filter", .name "DCTDecode")])⟩
    crypt := none
    file := .source 0
    load_globals_stream := fun _ => fz_throw .FZ_ERROR_GENERIC "object is not a stream" }

/-- The objects of a document with JBIG2 streams: object 1 is a stream of 8
bytes at offset 10 with `Filter /JBIG2Decode` and `DecodeParms <</JBIG2Globals
2 0 R>>`, object 2 is a globals stream with a cached three-byte buffer, object
3 is a stream of 8 bytes at offset 30 with `Filter /JBIG2Decode` and
`DecodeParms <</JBIG2Globals 4 0 R>>`, object 4 is a dictionary and no
stream. -/
def jbig2_entry (n : Int) : pdf_xref_entry :=
  if n = 1 then
    ⟨1, 0, 10, none, some (.dict [("Length", .int 8), ("Filter", .name "JBIG2Decode"),
      ("DecodeParms", .dict [("JBIG2Globals", .indirect 2 0 none)])])⟩
  else if n = 2 then
    ⟨2, 0, 0, some ⟨[1, 2, 3]⟩, some (.dict [("Length", .int 3)])⟩
  else if n = 3 then
    ⟨3, 0, 30, none, some (.dict [("Length", .int 8), ("Filter", .name "JBIG2Decode"),
      ("DecodeParms", .dict [("JBIG2Globals", .indirect 4 0 none)])])⟩
  else
    ⟨n, 0, 0, none, some (.dict [])⟩

/-- The document of `jbig2_entry` before its nested loads are bound. -/
def doc_jbig2_base : pdf_document :=
  { id := 7
    xref_len := 5
    xref := jbig2_entry
    cache_object := fun n => .ok (jbig2_entry n)
    crypt := none
    file := .source 0
    load_globals_stream := fun _ => fz_throw .FZ_ERROR_GENERIC "object is not a stream" }

/-- The document of `jbig2_entry` with its globals streams loaded by
`pdf_load_stream`, one level deep. -/
def doc_jbig2 : pdf_document :=
  pdf_bind_loader (reader_file [] 0) doc_jbig2_base 1

/-- A host clock: 12 October 2012, 00:00:00 UTC, local time one hour ahead of
UTC. -/
def clock_2012 : js_clock :=
  { now := 1350000000000, tza := 3600000 }

/-! ## Evaluation lemmas for `FzM` -/

@[simp] theorem run_pure {α : Type} (a : α) (c : fz_context) :
    (pure a : FzM α) c = (.ok a, c) := rfl

@[simp] theorem run_bind {α β : Type} (m : FzM α) (k : α → FzM β) (c : fz_context) :
    (m >>= k) c = match m c with
      | (.ok a, c1) => k a c1
      | (.error e, c1) => (.error e, c1) := rfl

@[simp] theorem run_map {α β : Type} (g : α → β) (m : FzM α) (c : fz_context) :
    (g <$> m) c = match m c with
      | (.ok a, c1) => (.ok (g a), c1)
      | (.error e, c1) => (.error e, c1) := rfl

/-! ## The resolver -/

theorem pdf_name_eq_name (n b : String) :
    pdf_name_eq (some (.name n)) b = (n == b) := rfl


theorem build_compression_params_type (n : String) (p : Option pdf_obj) :
    (build_compression_params (some (.name n)) p).type =
      if n = "CCITTFaxDecode" ∨ n = "CCF" then .FAX
      else if n = "DCTDecode" ∨ n = "DCT" then .JPEG
      else if n = "RunLengthDecode" ∨ n = "RL" then .RLD
      else if n = "FlateDecode" ∨ n = "Fl" then .FLATE
      else if n = "LZWDecode" ∨ n = "LZW" then .LZW
      else .RAW := by
  simp only [build_compression_params, pdf_name_eq_name, Bool.or_eq_true, beq_iff_eq]
  split_ifs <;> rfl

/-- C5. Resolver kinds: for a filter name `n` and any parameters `p` the
descriptor kind is Fax exactly for CCITTFaxDecode/CCF, Jpeg exactly for
DCTDecode/DCT, RunLength exactly for RunLengthDecode/RL, Flate exactly for
FlateDecode/Fl, Lzw exactly for LZWDecode/LZW and Raw exactly for every other
name (so for ASCIIHexDecode, AHx, ASCII85Decode, A85, JBIG2Decode, JPXDecode,
Crypt); the long and the short name of a filter give the same descriptor. -/
theorem resolver_kinds (n : String) (p : Option pdf_obj) :
    ((build_compression_params (some (.name n)) p).type = .FAX ↔
        n = "CCITTFaxDecode" ∨ n = "CCF") ∧
    ((build_compression_params (some (.name n)) p).type = .JPEG ↔
        n = "DCTDecode" ∨ n = "DCT") ∧
    ((build_compression_params (some (.name n)) p).type = .RLD ↔
        n = "RunLengthDecode" ∨ n = "RL") ∧
    ((build_compression_params (some (.name n)) p).type = .FLATE ↔
        n = "FlateDecode" ∨ n = "Fl") ∧
    ((build_compression_params (some (.name n)) p).type = .LZW ↔
        n = "LZWDecode" ∨ n = "LZW") ∧
    ((build_compression_params (some (.name n)) p).type = .RAW ↔
        n ∉ ["CCITTFaxDecode", "CCF", "DCTDecode", "DCT", "RunLengthDecode", "RL",
          "FlateDecode", "Fl", "LZWDecode", "LZW"]) ∧
    (∀ m ∈ ["ASCIIHexDecode", "AHx", "ASCII85Decode", "A85", "JBIG2Decode", "JPXDecode",
        "Crypt"], build_compression_params (some (.name m)) p = .FZ_IMAGE_RAW) ∧
    build_compression_params (some (.name "CCITTFaxDecode")) p =
      build_compression_params (some (.name "CCF")) p ∧
    build_compression_params (some (.name "DCTDecode")) p =
      build_compression_params (some (.name "DCT")) p ∧
    build_compression_params (some (.name "RunLengthDecode")) p =
      build_compression_params (some (.name "RL")) p ∧
    build_compression_params (some (.name "FlateDecode")) p =
      build_compression_params (some (.name "Fl")) p ∧
    build_compression_params (some (.name "LZWDecode")) p =
      build_compression_params (some (.name "LZW")) p := by
  refine ⟨?_, ?_, ?_, ?_, ?_, ?_, ?_, ?_, ?_, ?_, ?_, ?_⟩
  · rw [build_compression_params_type]
    split_ifs with h1 <;> simp [h1]
  · rw [build_compression_params_type]
    split_ifs with h1 h2 <;> first | simp [h2] | (rcases h1 with rfl | rfl <;> simp)
  · rw [build_compression_params_type]
    split_ifs with h1 h2 h3 <;>
      first
      | simp [h3]
      | (rcases h1 with rfl | rfl <;> simp)
      | (rcases h2 with rfl | rfl <;> simp)
  · rw [build_compression_params_type]
    split_ifs with h1 h2 h3 h4 <;>
      first
      | simp [h4]
      | (rcases h1 with rfl | rfl <;> simp)
      | (rcases h2 with rfl | rfl <;> simp)
      | (rcases h3 with rfl | rfl <;> simp)
  · rw [build_compression_params_type]
    split_ifs with h1 h2 h3 h4 h5 <;>
      first
      | simp [h5]
      | (rcases h1 with rfl | rfl <;> simp)
      | (rcases h2 with rfl | rfl <;> simp)
      | (rcases h3 with rfl | rfl <;> simp)
      | (rcases h4 with rfl | rfl <;> simp)
  · rw [build_compression_params_type]
    simp only [List.mem_cons, List.mem_singleton, List.not_mem_nil, or_false, not_or]
    split_ifs with h1 h2 h3 h4 h5
    · rcases h1 with rfl | rfl <;> simp
    · rcases h2 with rfl | rfl <;> simp
    · rcases h3 with rfl | rfl <;> simp
    · rcases h4 with rfl | rfl <;> simp
    · rcases h5 with rfl | rfl <;> simp
    · simp only [not_or] at h1 h2 h3 h4 h5
      simp [h1, h2, h3, h4, h5]
  · intro m hm
    simp only [List.mem_cons, List.mem_singleton, List.not_mem_nil, or_false] at hm
    rcases hm with rfl | rfl | rfl | rfl | rfl | rfl | rfl <;> rfl
  all_goals rfl

/-- Witness of C5: `Fl` with a Predictor of 12 resolves to a Flate descriptor,
the same as for `FlateDecode`, and `JPXDecode` resolves to Raw. -/
theorem resolver_kinds_witness :
    (build_compression_params (some (.name "Fl"))
        (some (.dict [("Predictor", .int 12)]))).type = .FLATE ∧
    build_compression_params (some (.name "JPXDecode"))
        (some (.dict [("Predictor", .int 12)])) = .FZ_IMAGE_RAW ∧
    build_compression_params (some (.name "FlateDecode"))
        (some (.dict [("Predictor", .int 12)])) =
      build_compression_params (some (.name "Fl")) (some (.dict [("Predictor", .int 12)])) :=
  ⟨(resolver_kinds "Fl" (some (.dict [("Predictor", .int 12)]))).2.2.2.1.2 (Or.inr rfl),
   (resolver_kinds "Fl" (some (.dict [("Predictor", .int 12)]))).2.2.2.2.2.2.1 "JPXDecode"
     (by decide),
   (resolver_kinds "Fl" (some (.dict [("Predictor", .int 12)]))).2.2.2.2.2.2.2.2.2.2.1⟩

theorem isSome_ite_int (o : Option pdf_obj) (d : Int) :
    (if o.isSome then pdf_to_int o else d) =
      match o with
      | some v => pdf_to_int (some v)
      | none => d := by
  cases o <;> rfl

theorem isSome_ite_bool (o : Option pdf_obj) (d : Bool) :
    (if o.isSome then pdf_to_bool o else d) =
      match o with
      | some v => pdf_to_bool (some v)
      | none => d := by
  cases o <;> rfl

theorem pdf_to_int_absent (o : Option pdf_obj) :
    pdf_to_int o =
      match o with
      | some v => pdf_to_int (some v)
      | none => 0 := by
  cases o <;> rfl

/-- C6, as the code has it. Flate and LZW predictor fields: for FlateDecode/Fl
and LZWDecode/LZW each of predictor, columns, colors and bits-per-component is
the integer value of its key (Predictor, Columns, Colors, BitsPerComponent)
when the key is present and 0 when it is absent, also when there is no
parameter dictionary at all. -/
theorem flate_lzw_predictor_fields (p : Option pdf_obj) :
    (∀ n ∈ ["FlateDecode", "Fl"],
      build_compression_params (some (.name n)) p =
        .FZ_IMAGE_FLATE
          (match pdf_dict_get p "Predictor" with
            | some v => pdf_to_int (some v)
            | none => 0)
          (match pdf_dict_get p "Columns" with
            | some v => pdf_to_int (some v)
            | none => 0)
          (match pdf_dict_get p "Colors" with
            | some v => pdf_to_int (some v)
            | none => 0)
          (match pdf_dict_get p "BitsPerComponent" with
            | some v => pdf_to_int (some v)
            | none => 0)) ∧
    (∀ n ∈ ["LZWDecode", "LZW"], ∃ early_change,
      build_compression_params (some (.name n)) p =
        .FZ_IMAGE_LZW
          (match pdf_dict_get p "Predictor" with
            | some v => pdf_to_int (some v)
            | none => 0)
          (match pdf_dict_get p "Columns" with
            | some v => pdf_to_int (some v)
            | none => 0)
          (match pdf_dict_get p "Colors" with
            | some v => pdf_to_int (some v)
            | none => 0)
          (match pdf_dict_get p "BitsPerComponent" with
            | some v => pdf_to_int (some v)
            | none => 0)
          early_change) := by
  constructor
  · intro n hn
    simp only [List.mem_cons, List.mem_singleton, List.not_mem_nil, or_false] at hn
    rcases hn with rfl | rfl <;>
      simp only [← pdf_to_int_absent] <;> rfl
  · intro n hn
    simp only [List.mem_cons, List.mem_singleton, List.not_mem_nil, or_false] at hn
    rcases hn with rfl | rfl <;>
      exact ⟨_, by simp only [← pdf_to_int_absent]; rfl⟩

/-- Witness of C6 as amended: a Predictor of 12 and Columns of 4 are taken
over, the absent Colors and BitsPerComponent give 0. -/
theorem flate_lzw_predictor_fields_witness :
    "Fl" ∈ ["FlateDecode", "Fl"] ∧
    build_compression_params (some (.name "Fl"))
        (some (.dict [("Predictor", .int 12), ("Columns", .int 4)])) =
      .FZ_IMAGE_FLATE 12 4 0 0 :=
  ⟨by decide,
   (flate_lzw_predictor_fields (some (.dict [("Predictor", .int 12), ("Columns", .int 4)]))).1
     "Fl" (by decide)⟩

/-- C6, refuted as stated. With an empty parameter dictionary (Predictor,
Columns, Colors and BitsPerComponent all absent) the FlateDecode descriptor
holds 0, 0, 0, 0 and not the defaults 1, 1, 1, 8, and so does the LZWDecode
descriptor. -/
theorem flate_lzw_defaults_counterexample :
    pdf_dict_get (some (.dict [])) "Predictor" = none ∧
    pdf_dict_get (some (.dict [])) "Columns" = none ∧
    pdf_dict_get (some (.dict [])) "Colors" = none ∧
    pdf_dict_get (some (.dict [])) "BitsPerComponent" = none ∧
    build_compression_params (some (.name "FlateDecode")) (some (.dict [])) =
      .FZ_IMAGE_FLATE 0 0 0 0 ∧
    build_compression_params (some (.name "FlateDecode")) (some (.dict [])) ≠
      .FZ_IMAGE_FLATE 1 1 1 8 ∧
    build_compression_params (some (.name "LZWDecode")) (some (.dict [])) =
      .FZ_IMAGE_LZW 0 0 0 0 1 ∧
    build_compression_params (some (.name "LZWDecode")) (some (.dict [])) ≠
      .FZ_IMAGE_LZW 1 1 1 8 1 := by
  refine ⟨rfl, rfl, rfl, rfl, rfl, ?_, rfl, ?_⟩
  · intro h
    have h2 : build_compression_params (some (.name "FlateDecode")) (some (.dict [])) =
        .FZ_IMAGE_FLATE 0 0 0 0 := rfl
    rw [h2] at h
    exact absurd h (by decide)
  · intro h
    have h2 : build_compression_params (some (.name "LZWDecode")) (some (.dict [])) =
        .FZ_IMAGE_LZW 0 0 0 0 1 := rfl
    rw [h2] at h
    exact absurd h (by decide)

/-- C7. Fax defaults: for CCITTFaxDecode/CCF and every parameter dictionary,
each field of the Fax descriptor is the value of its own key when the key is
present and otherwise its default: K 0, EndOfLine false, EncodedByteAlign
false, Columns 1728, Rows 0, EndOfBlock true, BlackIs1 false. -/
theorem fax_defaults (p : Option pdf_obj) :
    ∀ n ∈ ["CCITTFaxDecode", "CCF"],
      build_compression_params (some (.name n)) p =
        .FZ_IMAGE_FAX
          (match pdf_dict_get p "K" with
            | some v => pdf_to_int (some v)
            | none => 0)
          (match pdf_dict_get p "EndOfLine" with
            | some v => pdf_to_bool (some v)
            | none => false)
          (match pdf_dict_get p "EncodedByteAlign" with
            | some v => pdf_to_bool (some v)
            | none => false)
          (match pdf_dict_get p "Columns" with
            | some v => pdf_to_int (some v)
            | none => 1728)
          (match pdf_dict_get p "Rows" with
            | some v => pdf_to_int (some v)
            | none => 0)
          (match pdf_dict_get p "EndOfBlock" with
            | some v => pdf_to_bool (some v)
            | none => true)
          (match pdf_dict_get p "BlackIs1" with
            | some v => pdf_to_bool (some v)
            | none => false) := by
  intro n hn
  simp only [List.mem_cons, List.mem_singleton, List.not_mem_nil, or_false] at hn
  rcases hn with rfl | rfl <;>
    simp only [← isSome_ite_int, ← isSome_ite_bool] <;> rfl

/-- Witness of C7: with only K and EndOfBlock given, the other Fax fields take
their defaults. -/
theorem fax_defaults_witness :
    "CCF" ∈ ["CCITTFaxDecode", "CCF"] ∧
    build_compression_params (some (.name "CCF"))
        (some (.dict [("K", .int (-1)), ("EndOfBlock", .bool false)])) =
      .FZ_IMAGE_FAX (-1) false false 1728 0 false false :=
  ⟨by decide,
   fax_defaults (some (.dict [("K", .int (-1)), ("EndOfBlock", .bool false)])) "CCF"
     (by decide)⟩

/-- C8. Jpeg and Lzw specific defaults: for DCTDecode/DCT the descriptor is
Jpeg with color_transform the integer value of ColorTransform when present
and -1 when absent; for LZWDecode/LZW the descriptor is Lzw with early_change
the integer value of EarlyChange when present and 1 when absent. -/
theorem jpeg_lzw_defaults (p : Option pdf_obj) :
    (∀ n ∈ ["DCTDecode", "DCT"],
      build_compression_params (some (.name n)) p =
        .FZ_IMAGE_JPEG
          (match pdf_dict_get p "ColorTransform" with
            | some v => pdf_to_int (some v)
            | none => -1)) ∧
    (∀ n ∈ ["LZWDecode", "LZW"], ∃ predictor columns colors bpc,
      build_compression_params (some (.name n)) p =
        .FZ_IMAGE_LZW predictor columns colors bpc
          (match pdf_dict_get p "EarlyChange" with
            | some v => pdf_to_int (some v)
            | none => 1)) := by
  constructor
  · intro n hn
    simp only [List.mem_cons, List.mem_singleton, List.not_mem_nil, or_false] at hn
    rcases hn with rfl | rfl <;>
      simp only [← isSome_ite_int] <;> rfl
  · intro n hn
    simp only [List.mem_cons, List.mem_singleton, List.not_mem_nil, or_false] at hn
    rcases hn with rfl | rfl <;>
      exact ⟨_, _, _, _, by simp only [← isSome_ite_int]; rfl⟩

/-- Witness of C8: no parameters give color_transform -1; a ColorTransform of
0 is taken over. -/
theorem jpeg_lzw_defaults_witness :
    "DCT" ∈ ["DCTDecode", "DCT"] ∧
    build_compression_params (some (.name "DCT")) none = .FZ_IMAGE_JPEG (-1) ∧
    build_compression_params (some (.name "DCT")) (some (.dict [("ColorTransform", .int 0)])) =
      .FZ_IMAGE_JPEG 0 :=
  ⟨by decide,
   (jpeg_lzw_defaults none).1 "DCT" (by decide),
   (jpeg_lzw_defaults (some (.dict [("ColorTransform", .int 0)]))).1 "DCT" (by decide)⟩

/-! ## The stream predicate -/

theorem pdf_obj_num_is_stream_out_of_range (doc : pdf_document) (num : Int) (c : fz_context)
    (h : num ≤ 0 ∨ num ≥ pdf_xref_len doc) :
    pdf_obj_num_is_stream doc num c = (.ok false, c) := by
  simp [pdf_obj_num_is_stream, h]

theorem pdf_obj_num_is_stream_ok (doc : pdf_document) (num : Int) (c : fz_context)
    (e : pdf_xref_entry) (h0 : 0 < num) (h1 : num < pdf_xref_len doc)
    (he : doc.cache_object num = .ok e) :
    pdf_obj_num_is_stream doc num c = (.ok (e.stm_ofs != 0 || e.stm_buf.isSome), c) := by
  have h : ¬ (num ≤ 0 ∨ num ≥ pdf_xref_len doc) := by omega
  simp [pdf_obj_num_is_stream, h, pdf_cache_object, he]

theorem pdf_obj_num_is_stream_error (doc : pdf_document) (num : Int) (c : fz_context)
    (err : fz_error) (h0 : 0 < num) (h1 : num < pdf_xref_len doc)
    (he : doc.cache_object num = .error err) :
    pdf_obj_num_is_stream doc num c = (.error err, c) := by
  have h : ¬ (num ≤ 0 ∨ num ≥ pdf_xref_len doc) := by omega
  simp [pdf_obj_num_is_stream, h, pdf_cache_object, he]

/-- C9. Stream predicate: `pdf_obj_num_is_stream` returns true if and only if
`0 < num < xref_len` and the entry `pdf_cache_object` gives for the object has
`stm_ofs != 0` or a cached `stm_buf`; it returns true for every in-range
object with `stm_ofs != 0`, false for every in-range object with
`stm_ofs = 0` and no `stm_buf`, and false for `num <= 0` and
`num >= xref_len`; the context is left as it was. -/
theorem stream_predicate (doc : pdf_document) (num : Int) (c : fz_context) :
    ((pdf_obj_num_is_stream doc num c).1 = .ok true ↔
      0 < num ∧ num < pdf_xref_len doc ∧
        ∃ e, doc.cache_object num = .ok e ∧ (e.stm_ofs ≠ 0 ∨ e.stm_buf.isSome)) ∧
    (∀ e, 0 < num → num < pdf_xref_len doc → doc.cache_object num = .ok e →
      e.stm_ofs ≠ 0 → pdf_obj_num_is_stream doc num c = (.ok true, c)) ∧
    (∀ e, 0 < num → num < pdf_xref_len doc → doc.cache_object num = .ok e →
      e.stm_ofs = 0 → e.stm_buf = none → pdf_obj_num_is_stream doc num c = (.ok false, c)) ∧
    (num ≤ 0 ∨ num ≥ pdf_xref_len doc → pdf_obj_num_is_stream doc num c = (.ok false, c)) := by
  refine ⟨?_, ?_, ?_, ?_⟩
  · by_cases h : num ≤ 0 ∨ num ≥ pdf_xref_len doc
    · rw [pdf_obj_num_is_stream_out_of_range doc num c h]
      constructor
      · intro h2
        simp at h2
      · rintro ⟨h0, h1, -⟩
        omega
    · have h0 : 0 < num := by omega
      have h1 : num < pdf_xref_len doc := by omega
      cases he : doc.cache_object num with
      | error err =>
        rw [pdf_obj_num_is_stream_error doc num c err h0 h1 he]
        simp
      | ok e =>
        rw [pdf_obj_num_is_stream_ok doc num c e h0 h1 he]
        simp [h0, h1]
  · intro e h0 h1 he hofs
    rw [pdf_obj_num_is_stream_ok doc num c e h0 h1 he]
    simp [hofs]
  · intro e h0 h1 he hofs hbuf
    rw [pdf_obj_num_is_stream_ok doc num c e h0 h1 he]
    simp [hofs, hbuf]
  · exact pdf_obj_num_is_stream_out_of_range doc num c

/-- Witness of C9 on `doc_plain`: object 1 (offset 100) is a stream, object 2
(no offset, no buffer) is not, object 4 (buffer only) is, number 7 is out of
range. -/
theorem stream_predicate_witness :
    pdf_obj_num_is_stream doc_plain 1 ctx_empty = (.ok true, ctx_empty) ∧
    pdf_obj_num_is_stream doc_plain 2 ctx_empty = (.ok false, ctx_empty) ∧
    (pdf_obj_num_is_stream doc_plain 4 ctx_empty).1 = .ok true ∧
    pdf_obj_num_is_stream doc_plain 7 ctx_empty = (.ok false, ctx_empty) :=
  ⟨(stream_predicate doc_plain 1 ctx_empty).2.1 _ (by decide) (by decide) rfl (by decide),
   (stream_predicate doc_plain 2 ctx_empty).2.2.1 _ (by decide) (by decide) rfl rfl rfl,
   (stream_predicate doc_plain 4 ctx_empty).1.2
     ⟨by decide, by decide, _, rfl, Or.inr rfl⟩,
   (stream_predicate doc_plain 7 ctx_empty).2.2.2 (Or.inr (by decide))⟩

/-- C10, as the code has it. The stream predicate raises nothing of its own:
`pdf_obj_num_is_stream` and `pdf_is_stream` return a boolean and leave the
context alone whenever the number is out of range or `pdf_cache_object`
succeeds for it; when `pdf_cache_object` throws for an in-range number, they
throw that same error. -/
theorem stream_predicate_errors (doc : pdf_document) (num : Int) (obj : Option pdf_obj)
    (c : fz_context) :
    ((num ≤ 0 ∨ num ≥ pdf_xref_len doc ∨ ∃ e, doc.cache_object num = .ok e) →
      ∃ b, pdf_obj_num_is_stream doc num c = (.ok b, c)) ∧
    (∀ err, 0 < num → num < pdf_xref_len doc → doc.cache_object num = .error err →
      pdf_obj_num_is_stream doc num c = (.error err, c)) ∧
    ((pdf_obj_parent_num obj ≤ 0 ∨ pdf_obj_parent_num obj ≥ pdf_xref_len doc ∨
        ∃ e, doc.cache_object (pdf_obj_parent_num obj) = .ok e) →
      ∃ b, pdf_is_stream doc obj c = (.ok b, c)) ∧
    (∀ err, 0 < pdf_obj_parent_num obj → pdf_obj_parent_num obj < pdf_xref_len doc →
      doc.cache_object (pdf_obj_parent_num obj) = .error err →
      pdf_is_stream doc obj c = (.error err, c)) := by
  have key : ∀ n : Int, (n ≤ 0 ∨ n ≥ pdf_xref_len doc ∨ ∃ e, doc.cache_object n = .ok e) →
      ∃ b, pdf_obj_num_is_stream doc n c = (.ok b, c) := by
    intro n h
    by_cases hr : n ≤ 0 ∨ n ≥ pdf_xref_len doc
    · exact ⟨false, pdf_obj_num_is_stream_out_of_range doc n c hr⟩
    · rcases h with h | h | ⟨e, he⟩
      · exact absurd (Or.inl h) hr
      · exact absurd (Or.inr h) hr
      · exact ⟨_, pdf_obj_num_is_stream_ok doc n c e (by omega) (by omega) he⟩
  exact ⟨key num, fun err h0 h1 he => pdf_obj_num_is_stream_error doc num c err h0 h1 he,
    key (pdf_obj_parent_num obj),
    fun err h0 h1 he => pdf_obj_num_is_stream_error doc _ c err h0 h1 he⟩

/-- Witness of C10 as amended on `doc_plain`: the predicate answers for
object 1, and throws the loader's error for object 3. -/
theorem stream_predicate_errors_witness :
    (∃ b, pdf_obj_num_is_stream doc_plain 1 ctx_empty = (.ok b, ctx_empty)) ∧
    pdf_obj_num_is_stream doc_plain 3 ctx_empty = (.error err_cannot_load, ctx_empty) ∧
    (∃ b, pdf_is_stream doc_plain (some (.indirect 1 0 none)) ctx_empty = (.ok b, ctx_empty)) ∧
    pdf_is_stream doc_plain (some (.indirect 3 0 none)) ctx_empty =
      (.error err_cannot_load, ctx_empty) :=
  ⟨(stream_predicate_errors doc_plain 1 none ctx_empty).1 (Or.inr (Or.inr ⟨_, rfl⟩)),
   (stream_predicate_errors doc_plain 3 none ctx_empty).2.1 _ (by decide) (by decide) rfl,
   (stream_predicate_errors doc_plain 0 (some (.indirect 1 0 none)) ctx_empty).2.2.1
     (Or.inr (Or.inr ⟨_, rfl⟩)),
   (stream_predicate_errors doc_plain 0 (some (.indirect 3 0 none)) ctx_empty).2.2.2 _
     (by decide) (by decide) rfl⟩

/-- C10, refuted as stated. Object 3 of `doc_plain` is in range and
`pdf_cache_object` fails for it: `pdf_obj_num_is_stream` and `pdf_is_stream`
then throw instead of returning a boolean. -/
theorem stream_predicate_never_throws_counterexample :
    (0 < (3 : Int) ∧ (3 : Int) < pdf_xref_len doc_plain) ∧
    doc_plain.cache_object 3 = .error err_cannot_load ∧
    (pdf_obj_num_is_stream doc_plain 3 ctx_empty).1 = .error err_cannot_load ∧
    (¬ ∃ b, (pdf_obj_num_is_stream doc_plain 3 ctx_empty).1 = .ok b) ∧
    (¬ ∃ b, (pdf_is_stream doc_plain (some (.indirect 3 0 none)) ctx_empty).1 = .ok b) := by
  refine ⟨by decide, rfl, rfl, ?_, ?_⟩
  · rintro ⟨b, hb⟩
    have h : (pdf_obj_num_is_stream doc_plain 3 ctx_empty).1 = .error err_cannot_load := rfl
    rw [h] at hb
    cases hb
  · rintro ⟨b, hb⟩
    have h : (pdf_is_stream doc_plain (some (.indirect 3 0 none)) ctx_empty).1 =
        .error err_cannot_load := rfl
    rw [h] at hb
    cases hb

/-! ## Raw framing -/

theorem pdf_array_get_nat (filters : Option pdf_obj) (xs : List pdf_obj)
    (h : RESOLVE filters = some (.array xs)) (i : Nat) :
    pdf_array_get filters (i : Int) = xs.get? i := by
  simp [pdf_array_get, h]

theorem pdf_stream_has_crypt_loop_eq (filters : Option pdf_obj) (xs : List pdf_obj)
    (h : RESOLVE filters = some (.array xs)) (k i : Nat) :
    pdf_stream_has_crypt_loop filters k (i : Int) =
      ((xs.drop i).take k).any (fun x => pdf_name_eq (some x) "Crypt") := by
  induction k generalizing i with
  | zero => simp [pdf_stream_has_crypt_loop]
  | succ k ih =>
    have hstep : ((i : Int) + 1) = ((i + 1 : Nat) : Int) := by push_cast; rfl
    rw [pdf_stream_has_crypt_loop, pdf_array_get_nat filters xs h, hstep, ih]
    by_cases hi : i < xs.length
    · rw [List.drop_eq_getElem_cons hi]
      simp only [List.get?_eq_getElem?, List.getElem?_eq_getElem hi, List.take_succ_cons,
        List.any_cons, List.drop_drop]
      by_cases hc : pdf_name_eq (some xs[i]) "Crypt" = true
      · simp [hc]
      · have hc2 : pdf_name_eq (some xs[i]) "Crypt" = false := by simpa using hc
        simp [hc2, Nat.add_comm]
    · have hlen : xs.length ≤ i := Nat.le_of_not_lt hi
      have hnone : xs.get? i = none := List.get?_eq_none.mpr hlen
      rw [hnone, List.drop_of_length_le hlen, List.drop_of_length_le (by omega)]
      simp [pdf_name_eq, RESOLVE]

theorem pdf_stream_has_crypt_iff (stm : Option pdf_obj) :
    pdf_stream_has_crypt stm = true ↔
      pdf_name_eq (pdf_dict_geta stm "Filter" "F") "Crypt" = true ∨
      ∃ xs, RESOLVE (pdf_dict_geta stm "Filter" "F") = some (.array xs) ∧
        ∃ x ∈ xs, pdf_name_eq (some x) "Crypt" = true := by
  unfold pdf_stream_has_crypt
  generalize pdf_dict_geta stm "Filter" "F" = filters
  cases filters with
  | none => simp [pdf_name_eq, RESOLVE]
  | some f =>
    by_cases hn : pdf_name_eq (some f) "Crypt" = true
    · simp [hn]
    · have hn2 : pdf_name_eq (some f) "Crypt" = false := by simpa using hn
      cases hr : RESOLVE (some f) with
      | none => simp [pdf_is_array, hr, hn2]
      | some r =>
        cases r with
        | array xs =>
          have hloop := pdf_stream_has_crypt_loop_eq (some f) xs hr xs.length 0
          simp only [Nat.cast_zero, List.drop_zero, List.take_length] at hloop
          simp [pdf_is_array, pdf_array_len, hr, hn2, hloop]
        | _ => simp [pdf_is_array, hr, hn2]

/-- C4. Raw framing without a cached buffer: when the number is out of range
or its xref entry has no `stm_buf`, `pdf_open_raw_filter` keeps the stream it
was given and returns the length-bounded view of `Length` bytes at `offset`
over it, wrapped in the per-object decryption stage (keyed by the returned
`orig_num`, `orig_gen`) exactly when the document has an encryption handler
and `pdf_stream_has_crypt` is false; and `pdf_stream_has_crypt` is true
exactly when the Filter/F entry is the name Crypt or an array with an element
that is the name Crypt. -/
theorem raw_framing (chain : fz_stream) (doc : pdf_document) (stmobj : Option pdf_obj)
    (num offset : Int) (c : fz_context)
    (h : ¬ (0 < num ∧ num < pdf_xref_len doc) ∨ (pdf_get_xref_entry doc num).stm_buf = none) :
    (∃ orig_num orig_gen,
      pdf_open_raw_filter chain doc stmobj num offset c =
        (.ok
          (match doc.crypt with
            | some crypt =>
              if pdf_stream_has_crypt stmobj = false then
                fz_stream.crypt
                  (.null chain (pdf_to_int (pdf_dict_get stmobj "Length")) offset)
                  crypt orig_num orig_gen
              else
                fz_stream.null chain (pdf_to_int (pdf_dict_get stmobj "Length")) offset
            | none => fz_stream.null chain (pdf_to_int (pdf_dict_get stmobj "Length")) offset,
           orig_num, orig_gen),
         { c with kept := c.kept ++ [chain] })) ∧
    (pdf_stream_has_crypt stmobj = true ↔
      pdf_name_eq (pdf_dict_geta stmobj "Filter" "F") "Crypt" = true ∨
      ∃ xs, RESOLVE (pdf_dict_geta stmobj "Filter" "F") = some (.array xs) ∧
        ∃ x ∈ xs, pdf_name_eq (some x) "Crypt" = true) := by
  refine ⟨?_, pdf_stream_has_crypt_iff stmobj⟩
  by_cases hr : 0 < num ∧ num < pdf_xref_len doc
  · have hbuf : (pdf_get_xref_entry doc num).stm_buf = none := by
      rcases h with h | h
      · exact absurd hr h
      · exact h
    have hr2 : num > 0 ∧ num < pdf_xref_len doc := hr
    refine ⟨(pdf_get_xref_entry doc num).num, (pdf_get_xref_entry doc num).gen, ?_⟩
    cases hc : doc.crypt with
    | none => simp [pdf_open_raw_filter, hr2, hbuf, hc, fz_keep_stream]
    | some crypt =>
      cases hh : pdf_stream_has_crypt stmobj <;>
        simp [pdf_open_raw_filter, hr2, hbuf, hc, hh, fz_keep_stream]
  · have hr2 : ¬ (num > 0 ∧ num < pdf_xref_len doc) := hr
    refine ⟨num, 0, ?_⟩
    cases hc : doc.crypt with
    | none => simp [pdf_open_raw_filter, hr2, hc, fz_keep_stream]
    | some crypt =>
      cases hh : pdf_stream_has_crypt stmobj <;>
        simp [pdf_open_raw_filter, hr2, hc, hh, fz_keep_stream]

/-- Witness of C4 on the encrypted document: object 1 with `Length 5` at
offset 100 gives the five-byte view under the decryption stage keyed (1, 0);
with `Filter [/Crypt /FlateDecode]` it gives the bare view. -/
theorem raw_framing_witness :
    (¬ (0 < (1 : Int) ∧ (1 : Int) < pdf_xref_len doc_encrypted) ∨
      (pdf_get_xref_entry doc_encrypted 1).stm_buf = none) ∧
    (∃ orig_num orig_gen,
      pdf_open_raw_filter (.source 0) doc_encrypted (some (.dict [("Length", .int 5)])) 1 100
          ctx_empty =
        (.ok (.crypt (.null (.source 0) 5 100) ⟨1⟩ orig_num orig_gen, orig_num, orig_gen),
         { ctx_empty with kept := [.source 0] })) ∧
    (∃ orig_num orig_gen,
      pdf_open_raw_filter (.source 0) doc_encrypted
          (some (.dict [("Length", .int 5),
            ("Filter", .array [.name "Crypt", .name "FlateDecode"])])) 1 100 ctx_empty =
        (.ok (.null (.source 0) 5 100, orig_num, orig_gen),
         { ctx_empty with kept := [.source 0] })) :=
  ⟨Or.inr rfl,
   (raw_framing (.source 0) doc_encrypted (some (.dict [("Length", .int 5)])) 1 100 ctx_empty
     (Or.inr rfl)).1,
   (raw_framing (.source 0) doc_encrypted
     (some (.dict [("Length", .int 5),
       ("Filter", .array [.name "Crypt", .name "FlateDecode"])])) 1 100 ctx_empty
     (Or.inr rfl)).1⟩

/-! ## The filter-chain builder -/

theorem fz_try_catch_rethrow_none {α : Type} (m : FzM α) :
    fz_try_catch m (fun e => do
      fz_drop_stream none
      fz_rethrow e) = m := by
  funext c
  simp only [fz_try_catch]
  rcases h : m c with ⟨r, c1⟩
  cases r <;> simp [fz_drop_stream, fz_rethrow]

theorem build_filter_shortstop (chain : fz_stream) (doc : pdf_document) (f p : Option pdf_obj)
    (num gen : Int) (prior : fz_compression_params)
    (h : (build_compression_params f p).type ≠ .RAW) :
    build_filter chain doc f p num gen (some prior) =
      pure (chain, some (build_compression_params f p)) := by
  funext c
  simp [build_filter, build_filter_try, fz_try_catch, h]

theorem build_filter_decomp (chain : fz_stream) (doc : pdf_document) (f p : Option pdf_obj)
    (num gen : Int) (h : (build_compression_params f p).type ≠ .RAW) :
    build_filter chain doc f p num gen none =
      pure (.image_decomp chain (build_compression_params f p), none) := by
  funext c
  simp [build_filter, build_filter_try, fz_try_catch, h]

theorem build_filter_none (chain : fz_stream) (doc : pdf_document) (f p : Option pdf_obj)
    (num gen : Int) (c : fz_context) :
    build_filter chain doc f p num gen none c =
      match build_filter chain doc f p num gen none c with
      | (.ok r, c1) => (.ok (r.1, none), c1)
      | (.error e, c1) => (.error e, c1) := by
  simp only [build_filter, fz_try_catch, run_bind, run_pure, Option.map_none']
  rcases h : build_filter_try chain doc f p num gen (none : Option fz_compression_params).isSome c
    with ⟨r, c1⟩
  cases r <;> simp [fz_drop_stream, fz_rethrow]

theorem loop_succ_other (doc : pdf_document) (fs ps : Option pdf_obj) (num gen n : Int)
    (k : Nat) (i : Int) (chain : fz_stream) (params : Option fz_compression_params)
    (hi : i ≠ n - 1) :
    build_filter_chain_loop doc fs ps num gen n (k + 1) i (chain, params) =
      build_filter chain doc (pdf_array_get fs i) (pdf_array_get ps i) num gen none >>=
        fun r => build_filter_chain_loop doc fs ps num gen n k (i + 1) (r.1, params) := by
  funext c
  simp only [build_filter_chain_loop, if_neg hi, run_bind]

theorem loop_succ_last (doc : pdf_document) (fs ps : Option pdf_obj) (num gen n : Int)
    (k : Nat) (i : Int) (chain : fz_stream) (params : Option fz_compression_params)
    (hi : i = n - 1) :
    build_filter_chain_loop doc fs ps num gen n (k + 1) i (chain, params) =
      build_filter chain doc (pdf_array_get fs i) (pdf_array_get ps i) num gen params >>=
        fun r => build_filter_chain_loop doc fs ps num gen n k (i + 1) r := by
  funext c
  simp only [build_filter_chain_loop, if_pos hi, run_bind]

theorem loop_succ_none (doc : pdf_document) (fs ps : Option pdf_obj) (num gen n : Int)
    (k : Nat) (i : Int) (chain : fz_stream) :
    build_filter_chain_loop doc fs ps num gen n (k + 1) i (chain, none) =
      build_filter chain doc (pdf_array_get fs i) (pdf_array_get ps i) num gen none >>=
        fun r => build_filter_chain_loop doc fs ps num gen n k (i + 1) (r.1, none) := by
  funext c
  have hn := build_filter_none chain doc (pdf_array_get fs i) (pdf_array_get ps i) num gen c
  simp only [build_filter_chain_loop, ite_self, run_bind]
  rcases h : build_filter chain doc (pdf_array_get fs i) (pdf_array_get ps i) num gen none c
    with ⟨r, c1⟩
  rw [h] at hn
  cases r with
  | error e => rfl
  | ok r =>
    simp only at hn
    rcases r with ⟨s, o⟩
    have ho : o = none := by
      have := congrArg (fun x => x.1) hn
      simp at this
      exact this
    subst ho
    simp

theorem loop_add (doc : pdf_document) (fs ps : Option pdf_obj) (num gen n : Int)
    (a b : Nat) (i : Int) (acc : fz_stream × Option fz_compression_params) :
    build_filter_chain_loop doc fs ps num gen n (a + b) i acc =
      build_filter_chain_loop doc fs ps num gen n a i acc >>=
        fun r => build_filter_chain_loop doc fs ps num gen n b (i + a) r := by
  induction a generalizing i acc with
  | zero =>
    funext c
    simp [build_filter_chain_loop]
  | succ a ih =>
    rcases acc with ⟨chain, params⟩
    have hab : a + 1 + b = (a + b) + 1 := by omega
    have hia : ∀ j : Int, j + 1 + (a : Int) = j + ((a + 1 : Nat) : Int) := by
      intro j
      push_cast
      ring
    funext c
    rw [hab]
    simp only [build_filter_chain_loop, run_bind]
    rcases build_filter chain doc (pdf_array_get fs i) (pdf_array_get ps i) num gen
      (if i = n - 1 then params else none) c with ⟨r, c1⟩
    cases r with
    | error e => rfl
    | ok r =>
      simp only [ih, run_bind, hia]

theorem loop_prefix_carry (doc : pdf_document) (fs ps : Option pdf_obj) (num gen n : Int)
    (params : Option fz_compression_params) (k : Nat) (i : Int) (chain : fz_stream)
    (h : i + (k : Int) ≤ n - 1) :
    build_filter_chain_loop doc fs ps num gen n k i (chain, params) =
      (fun r => (r.1, params)) <$>
        build_filter_chain_loop doc fs ps num gen n k i (chain, none) := by
  induction k generalizing i chain with
  | zero =>
    funext c
    simp [build_filter_chain_loop]
  | succ k ih =>
    have hi : i ≠ n - 1 := by push_cast at h; omega
    have hk : i + 1 + (k : Int) ≤ n - 1 := by push_cast at h; omega
    funext c
    rw [loop_succ_other doc fs ps num gen n k i chain params hi, loop_succ_none]
    simp only [run_bind, run_map]
    rcases build_filter chain doc (pdf_array_get fs i) (pdf_array_get ps i) num gen none c
      with ⟨r, c1⟩
    cases r with
    | error e => rfl
    | ok r =>
      simp only [ih (i + 1) r.1 hk, run_map]

theorem pdf_array_get_append (fs : Option pdf_obj) (pre rest : List pdf_obj) (x : pdf_obj)
    (h : RESOLVE fs = some (.array (pre ++ x :: rest))) :
    pdf_array_get fs (pre.length : Int) = some x := by
  rw [pdf_array_get_nat fs _ h, List.get?_eq_getElem?,
    List.getElem?_append_right (Nat.le_refl _)]
  simp

theorem loop_eq_foldlM (doc : pdf_document) (fs ps : Option pdf_obj) (num gen n : Int)
    (suf pre rest : List pdf_obj) (chain : fz_stream)
    (h : RESOLVE fs = some (.array (pre ++ suf ++ rest))) :
    build_filter_chain_loop doc fs ps num gen n suf.length (pre.length : Int) (chain, none) =
      (suf.enumFrom pre.length).foldlM
          (fun s x => Prod.fst <$>
            build_filter s doc (some x.2) (pdf_array_get ps (x.1 : Int)) num gen none) chain >>=
        fun s => pure (s, none) := by
  induction suf generalizing pre chain with
  | nil =>
    funext c
    simp [build_filter_chain_loop]
  | cons x suf ih =>
    have hx : pdf_array_get fs (pre.length : Int) = some x :=
      pdf_array_get_append fs pre (suf ++ rest) x (by simpa using h)
    have h2 : RESOLVE fs = some (.array ((pre ++ [x]) ++ suf ++ rest)) := by simpa using h
    have hlen : ((pre.length : Int) + 1) = ((pre ++ [x]).length : Int) := by simp
    have ih2 := ih (pre ++ [x]) (h := h2)
    rw [← hlen] at ih2
    funext c
    rw [List.length_cons, loop_succ_none, hx]
    simp only [List.enumFrom_cons, List.foldlM_cons, run_bind, run_map]
    rcases build_filter chain doc (some x) (pdf_array_get ps (pre.length : Int)) num gen none c
      with ⟨r, c1⟩
    cases r with
    | error e => rfl
    | ok r =>
      have ih3 := congrFun (ih2 r.1) c1
      simp only [List.length_append, List.length_singleton, run_bind] at ih3
      simp only [ih3]

theorem build_filter_chain_eq_loop (chain : fz_stream) (doc : pdf_document)
    (fs ps : Option pdf_obj) (num gen : Int) (params : Option fz_compression_params)
    (l : List pdf_obj) (h : RESOLVE fs = some (.array l)) :
    build_filter_chain chain doc fs ps num gen params =
      build_filter_chain_loop doc fs ps num gen (l.length : Int) l.length 0 (chain, params) := by
  have hn : pdf_array_len fs = (l.length : Int) := by simp [pdf_array_len, h]
  rw [build_filter_chain, fz_try_catch_rethrow_none]
  simp only [hn, Int.toNat_ofNat]

/-- C3. Declared order: with no out-parameter, `build_filter_chain` over the
filter array `[f0, ..., f(n-1)]` is the left fold of `build_filter` over the
filters in array order, filter `i` taking element `i` of the parameter array
and the stream built so far as its upstream, starting from `U`; so the stage
of the leftmost filter is the one next to `U` and the stage of the last
filter is outermost. -/
theorem declared_order (U : fz_stream) (doc : pdf_document) (fs ps : Option pdf_obj)
    (num gen : Int) (l : List pdf_obj) (h : RESOLVE fs = some (.array l)) :
    build_filter_chain U doc fs ps num gen none =
      l.enum.foldlM
          (fun s x => Prod.fst <$>
            build_filter s doc (some x.2) (pdf_array_get ps (x.1 : Int)) num gen none) U >>=
        fun s => pure (s, none) := by
  rw [build_filter_chain_eq_loop U doc fs ps num gen none l h]
  have := loop_eq_foldlM doc fs ps num gen (l.length : Int) l [] [] U (by simpa using h)
  simpa [List.enum] using this

/-- Witness of C3: `[/ASCII85Decode /FlateDecode]` without an out-parameter
gives the Flate decompression stage reading from the ASCII-85 stage reading
from the given stream. -/
theorem declared_order_witness :
    build_filter_chain (.source 0) doc_plain
        (some (.array [.name "ASCII85Decode", .name "FlateDecode"])) none 1 0 none ctx_empty =
      (.ok (.image_decomp (.a85d (.source 0)) (.FZ_IMAGE_FLATE 0 0 0 0), none), ctx_empty) :=
  (congrFun (declared_order (.source 0) doc_plain
      (some (.array [.name "ASCII85Decode", .name "FlateDecode"])) none 1 0
      [.name "ASCII85Decode", .name "FlateDecode"] rfl) ctx_empty).trans rfl

theorem build_filter_chain_snoc (U : fz_stream) (doc : pdf_document) (fs ps : Option pdf_obj)
    (num gen : Int) (params : Option fz_compression_params) (init : List pdf_obj)
    (last : pdf_obj) (h : RESOLVE fs = some (.array (init ++ [last]))) :
    build_filter_chain U doc fs ps num gen params =
      build_filter_chain U doc (some (.array init)) ps num gen none >>=
        fun r => build_filter r.1 doc (some last) (pdf_array_get ps (init.length : Int))
          num gen params := by
  have hlast : pdf_array_get fs (init.length : Int) = some last :=
    pdf_array_get_append fs init [] last h
  have hprefix :
      build_filter_chain_loop doc fs ps num gen ((init ++ [last]).length : Int) init.length 0
          (U, none) =
        build_filter_chain U doc (some (.array init)) ps num gen none := by
    rw [build_filter_chain_eq_loop U doc (some (.array init)) ps num gen none init rfl]
    have h1 := loop_eq_foldlM doc fs ps num gen ((init ++ [last]).length : Int) init [] [last] U
      (by simpa using h)
    have h2 := loop_eq_foldlM doc (some (.array init)) ps num gen (init.length : Int) init [] [] U
      (by simp [RESOLVE, pdf_resolve])
    simp only [List.length_nil, Nat.cast_zero] at h1 h2
    rw [h1, h2]
  have hidx : (init.length : Int) = ((init ++ [last]).length : Int) - 1 := by simp
  have hcarry := loop_prefix_carry doc fs ps num gen ((init ++ [last]).length : Int) params
    init.length 0 U (by simp)
  rw [build_filter_chain_eq_loop U doc fs ps num gen params (init ++ [last]) h]
  have hsplit : (init ++ [last]).length = init.length + 1 := by simp
  rw [hsplit, loop_add, ← hsplit, hcarry, hprefix]
  funext c
  simp only [run_bind, run_map, zero_add]
  rcases build_filter_chain U doc (some (.array init)) ps num gen none c with ⟨r, c1⟩
  cases r with
  | error e => rfl
  | ok r =>
    simp only []
    rw [loop_succ_last doc fs ps num gen _ 0 _ r.1 params hidx, hlast]
    simp only [run_bind]
    rcases build_filter r.1 doc (some last) (pdf_array_get ps (init.length : Int)) num gen
      params c1 with ⟨r2, c2⟩
    cases r2 <;> simp [build_filter_chain_loop]

/-- C1. Short-stop: given a non-null out-parameter and a last filter for which
the resolver gives a non-Raw kind, `build_filter` on a single filter returns
the upstream `U` itself, and `build_filter_chain` on the array
`init ++ [last]` returns what it returns on `init` alone without an
out-parameter (which is `U` when `init` is empty), with the same context and
the same error if that fails; in both cases no stage is added for the last
filter and the out-parameter is left holding the resolver's descriptor for
the last filter and its parameters. For DCTDecode that is the upstream and a
Jpeg descriptor. -/
theorem short_stop (U : fz_stream) (doc : pdf_document) (num gen : Int)
    (prior : fz_compression_params) :
    (∀ f p, (build_compression_params f p).type ≠ .RAW →
      build_filter U doc f p num gen (some prior) =
        pure (U, some (build_compression_params f p))) ∧
    (∀ fs ps init last, RESOLVE fs = some (.array (init ++ [last])) →
      (build_compression_params (some last) (pdf_array_get ps (init.length : Int))).type
        ≠ .RAW →
      build_filter_chain U doc fs ps num gen (some prior) =
        (fun r => (r.1, some (build_compression_params (some last)
            (pdf_array_get ps (init.length : Int))))) <$>
          build_filter_chain U doc (some (.array init)) ps num gen none) ∧
    (∀ ps, build_filter_chain U doc (some (.array [])) ps num gen none = pure (U, none)) ∧
    (∀ p,
      build_filter U doc (some (.name "DCTDecode")) p num gen (some prior) =
        pure (U, some (build_compression_params (some (.name "DCTDecode")) p)) ∧
      (build_compression_params (some (.name "DCTDecode")) p).type = .JPEG) := by
  refine ⟨?_, ?_, ?_, ?_⟩
  · intro f p h
    exact build_filter_shortstop U doc f p num gen prior h
  · intro fs ps init last h hd
    rw [build_filter_chain_snoc U doc fs ps num gen (some prior) init last h]
    funext c
    simp only [run_bind, run_map]
    rcases build_filter_chain U doc (some (.array init)) ps num gen none c with ⟨r, c1⟩
    cases r with
    | error e => rfl
    | ok r =>
      simp only [build_filter_shortstop r.1 doc (some last) _ num gen prior hd, run_pure]
  · intro ps
    rw [build_filter_chain_eq_loop U doc (some (.array [])) ps num gen none [] rfl]
    rfl
  · intro p
    have ht : (build_compression_params (some (.name "DCTDecode")) p).type = .JPEG := by
      rw [build_compression_params_type]
      simp
    exact ⟨build_filter_shortstop U doc (some (.name "DCTDecode")) p num gen prior
      (by rw [ht]; decide), ht⟩

/-- Witness of C1: `/DCTDecode` with an out-parameter gives the stream back
untouched and a Jpeg descriptor; `[/ASCII85Decode /DCTDecode]` gives the
ASCII-85 stage over the stream and a Jpeg descriptor. -/
theorem short_stop_witness :
    build_filter (.source 0) doc_plain (some (.name "DCTDecode")) none 1 0
        (some .FZ_IMAGE_RAW) ctx_empty =
      (.ok (.source 0, some (.FZ_IMAGE_JPEG (-1))), ctx_empty) ∧
    build_filter_chain (.source 0) doc_plain
        (some (.array [.name "ASCII85Decode", .name "DCTDecode"])) none 1 0
        (some .FZ_IMAGE_RAW) ctx_empty =
      (.ok (.a85d (.source 0), some (.FZ_IMAGE_JPEG (-1))), ctx_empty) :=
  ⟨congrFun ((short_stop (.source 0) doc_plain 1 0 .FZ_IMAGE_RAW).1
      (some (.name "DCTDecode")) none (by decide)) ctx_empty,
   congrFun ((short_stop (.source 0) doc_plain 1 0 .FZ_IMAGE_RAW).2.1
      (some (.array [.name "ASCII85Decode", .name "DCTDecode"])) none
      [.name "ASCII85Decode"] (.name "DCTDecode") rfl (by decide)) ctx_empty⟩

/-- C2. Short-stop law: when the terminal filter resolves to a non-Raw
descriptor, the builder called with an out-parameter returns a stream `s` and
leaves a descriptor `d` such that the builder called on the same inputs with
no out-parameter returns the image-decompression stage configured by `d` over
`s`, from the same context to the same context; and if one call throws, the
other throws the same error. This holds for `build_filter` on a single filter
and for `build_filter_chain` on a filter array. -/
theorem short_stop_law (U : fz_stream) (doc : pdf_document) (num gen : Int)
    (prior : fz_compression_params) (c : fz_context) :
    (∀ f p, (build_compression_params f p).type ≠ .RAW →
      match build_filter U doc f p num gen (some prior) c with
      | (.ok (s, some d), c1) =>
        build_filter U doc f p num gen none c = (.ok (.image_decomp s d, none), c1)
      | (.ok (_, none), _) => False
      | (.error e, c1) => build_filter U doc f p num gen none c = (.error e, c1)) ∧
    (∀ fs ps init last, RESOLVE fs = some (.array (init ++ [last])) →
      (build_compression_params (some last) (pdf_array_get ps (init.length : Int))).type
        ≠ .RAW →
      match build_filter_chain U doc fs ps num gen (some prior) c with
      | (.ok (s, some d), c1) =>
        build_filter_chain U doc fs ps num gen none c = (.ok (.image_decomp s d, none), c1)
      | (.ok (_, none), _) => False
      | (.error e, c1) => build_filter_chain U doc fs ps num gen none c = (.error e, c1)) := by
  constructor
  · intro f p h
    rw [build_filter_shortstop U doc f p num gen prior h, build_filter_decomp U doc f p num gen h]
    rfl
  · intro fs ps init last h hd
    rw [build_filter_chain_snoc U doc fs ps num gen (some prior) init last h,
      build_filter_chain_snoc U doc fs ps num gen none init last h]
    simp only [run_bind]
    rcases build_filter_chain U doc (some (.array init)) ps num gen none c with ⟨r, c1⟩
    cases r with
    | error e => rfl
    | ok r =>
      simp only [build_filter_shortstop r.1 doc (some last) _ num gen prior hd,
        build_filter_decomp r.1 doc (some last) _ num gen hd, run_pure]

/-- Witness of C2 on `[/ASCII85Decode /FlateDecode]`: with an out-parameter the
builder stops at the ASCII-85 stage and hands out the Flate descriptor;
without one it puts the Flate decompression stage on top. -/
theorem short_stop_law_witness :
    build_filter_chain (.source 0) doc_plain
        (some (.array [.name "ASCII85Decode", .name "FlateDecode"])) none 1 0
        (some .FZ_IMAGE_RAW) ctx_empty =
      (.ok (.a85d (.source 0), some (.FZ_IMAGE_FLATE 0 0 0 0)), ctx_empty) ∧
    build_filter_chain (.source 0) doc_plain
        (some (.array [.name "ASCII85Decode", .name "FlateDecode"])) none 1 0 none ctx_empty =
      (.ok (.image_decomp (.a85d (.source 0)) (.FZ_IMAGE_FLATE 0 0 0 0), none), ctx_empty) :=
  ⟨rfl,
   (short_stop_law (.source 0) doc_plain 1 0 .FZ_IMAGE_RAW ctx_empty).2
      (some (.array [.name "ASCII85Decode", .name "FlateDecode"])) none
      [.name "ASCII85Decode"] (.name "FlateDecode") rfl (by decide)⟩

/-! ## Decryption seed and cached buffers on the raw path -/

theorem pdf_open_raw_filter_cached (chain : fz_stream) (doc : pdf_document)
    (stmobj : Option pdf_obj) (num offset : Int) (c : fz_context) (buf : fz_buffer)
    (h0 : 0 < num) (h1 : num < pdf_xref_len doc)
    (hbuf : (pdf_get_xref_entry doc num).stm_buf = some buf) :
    pdf_open_raw_filter chain doc stmobj num offset c =
      (.ok (.buffer buf, (pdf_get_xref_entry doc num).num, (pdf_get_xref_entry doc num).gen),
        c) := by
  have hr : num > 0 ∧ num < pdf_xref_len doc := ⟨h0, h1⟩
  simp [pdf_open_raw_filter, hr, hbuf]

theorem pdf_open_raw_filter_uncached (chain : fz_stream) (doc : pdf_document)
    (stmobj : Option pdf_obj) (num offset : Int) (c : fz_context)
    (h0 : 0 < num) (h1 : num < pdf_xref_len doc)
    (hbuf : (pdf_get_xref_entry doc num).stm_buf = none) :
    pdf_open_raw_filter chain doc stmobj num offset c =
      (.ok
        (match doc.crypt with
          | some crypt =>
            if pdf_stream_has_crypt stmobj = false then
              fz_stream.crypt
                (.null chain (pdf_to_int (pdf_dict_get stmobj "Length")) offset)
                crypt (pdf_get_xref_entry doc num).num (pdf_get_xref_entry doc num).gen
            else
              fz_stream.null chain (pdf_to_int (pdf_dict_get stmobj "Length")) offset
          | none => fz_stream.null chain (pdf_to_int (pdf_dict_get stmobj "Length")) offset,
         (pdf_get_xref_entry doc num).num, (pdf_get_xref_entry doc num).gen),
       { c with kept := c.kept ++ [chain] }) := by
  have hr : num > 0 ∧ num < pdf_xref_len doc := ⟨h0, h1⟩
  cases hc : doc.crypt with
  | none => simp [pdf_open_raw_filter, hr, hbuf, hc, fz_keep_stream]
  | some crypt =>
    cases hh : pdf_stream_has_crypt stmobj <;>
      simp [pdf_open_raw_filter, hr, hbuf, hc, hh, fz_keep_stream]

theorem pdf_open_raw_filter_out_of_range (chain : fz_stream) (doc : pdf_document)
    (stmobj : Option pdf_obj) (num offset : Int) (c : fz_context)
    (hr : ¬ (0 < num ∧ num < pdf_xref_len doc)) :
    pdf_open_raw_filter chain doc stmobj num offset c =
      (.ok
        (match doc.crypt with
          | some crypt =>
            if pdf_stream_has_crypt stmobj = false then
              fz_stream.crypt
                (.null chain (pdf_to_int (pdf_dict_get stmobj "Length")) offset)
                crypt num 0
            else
              fz_stream.null chain (pdf_to_int (pdf_dict_get stmobj "Length")) offset
          | none => fz_stream.null chain (pdf_to_int (pdf_dict_get stmobj "Length")) offset,
         num, 0),
       { c with kept := c.kept ++ [chain] }) := by
  have hr2 : ¬ (num > 0 ∧ num < pdf_xref_len doc) := hr
  cases hc : doc.crypt with
  | none => simp [pdf_open_raw_filter, hr2, hc, fz_keep_stream]
  | some crypt =>
    cases hh : pdf_stream_has_crypt stmobj <;>
      simp [pdf_open_raw_filter, hr2, hc, hh, fz_keep_stream]

/-- C12. Decryption seed: for an in-range number `pdf_open_raw_filter` leaves
in `orig_num`, `orig_gen` the `num` and `gen` fields of the object's xref
entry, also when it returns the cached buffer; for a number out of range it
leaves `(num, 0)` and its whole result is the same for every document with the
same xref length and encryption handler, whatever the xref entries are. -/
theorem decryption_seed (chain : fz_stream) (doc : pdf_document) (stmobj : Option pdf_obj)
    (num offset : Int) (c : fz_context) :
    (0 < num → num < pdf_xref_len doc →
      ∃ s c1, pdf_open_raw_filter chain doc stmobj num offset c =
        (.ok (s, (pdf_get_xref_entry doc num).num, (pdf_get_xref_entry doc num).gen), c1)) ∧
    (∀ buf, 0 < num → num < pdf_xref_len doc →
      (pdf_get_xref_entry doc num).stm_buf = some buf →
      pdf_open_raw_filter chain doc stmobj num offset c =
        (.ok (.buffer buf, (pdf_get_xref_entry doc num).num,
          (pdf_get_xref_entry doc num).gen), c)) ∧
    (¬ (0 < num ∧ num < pdf_xref_len doc) →
      ∃ s c1, pdf_open_raw_filter chain doc stmobj num offset c = (.ok (s, num, 0), c1)) ∧
    (¬ (0 < num ∧ num < pdf_xref_len doc) →
      ∀ doc2 : pdf_document, pdf_xref_len doc2 = pdf_xref_len doc → doc2.crypt = doc.crypt →
        pdf_open_raw_filter chain doc2 stmobj num offset c =
          pdf_open_raw_filter chain doc stmobj num offset c) := by
  refine ⟨?_, ?_, ?_, ?_⟩
  · intro h0 h1
    cases hbuf : (pdf_get_xref_entry doc num).stm_buf with
    | some buf =>
      exact ⟨_, _, pdf_open_raw_filter_cached chain doc stmobj num offset c buf h0 h1 hbuf⟩
    | none =>
      exact ⟨_, _, pdf_open_raw_filter_uncached chain doc stmobj num offset c h0 h1 hbuf⟩
  · intro buf h0 h1 hbuf
    exact pdf_open_raw_filter_cached chain doc stmobj num offset c buf h0 h1 hbuf
  · intro hr
    exact ⟨_, _, pdf_open_raw_filter_out_of_range chain doc stmobj num offset c hr⟩
  · intro hr doc2 hlen hcrypt
    rw [pdf_open_raw_filter_out_of_range chain doc stmobj num offset c hr,
      pdf_open_raw_filter_out_of_range chain doc2 stmobj num offset c (by rw [hlen]; exact hr),
      hcrypt]

/-- Witness of C12 on `doc_plain`: object 1 gets the seed (1, 0), object 4
gets it next to its cached buffer, and number 7, out of range, gets (7, 0)
whatever the table holds. -/
theorem decryption_seed_witness :
    (∃ s c1, pdf_open_raw_filter (.source 0) doc_plain (some (.dict [("Length", .int 5)])) 1 100
      ctx_empty = (.ok (s, 1, 0), c1)) ∧
    pdf_open_raw_filter (.source 0) doc_plain none 4 0 ctx_empty =
      (.ok (.buffer ⟨[104, 105]⟩, 4, 0), ctx_empty) ∧
    (∃ s c1, pdf_open_raw_filter (.source 0) doc_plain none 7 30 ctx_empty =
      (.ok (s, 7, 0), c1)) ∧
    pdf_open_raw_filter (.source 0)
        { doc_plain with xref := fun _ => ⟨9, 9, 9, some ⟨[1]⟩, none⟩ } none 7 30 ctx_empty =
      pdf_open_raw_filter (.source 0) doc_plain none 7 30 ctx_empty :=
  ⟨(decryption_seed (.source 0) doc_plain (some (.dict [("Length", .int 5)])) 1 100
      ctx_empty).1 (by decide) (by decide),
   (decryption_seed (.source 0) doc_plain none 4 0 ctx_empty).2.1 ⟨[104, 105]⟩
      (by decide) (by decide) rfl,
   (decryption_seed (.source 0) doc_plain none 7 30 ctx_empty).2.2.1 (by decide),
   (decryption_seed (.source 0) doc_plain none 7 30 ctx_empty).2.2.2 (by decide)
      { doc_plain with xref := fun _ => ⟨9, 9, 9, some ⟨[1]⟩, none⟩ } rfl rfl⟩

theorem pdf_open_raw_stream_number_no_offset (doc : pdf_document) (num : Int) (c : fz_context)
    (x : pdf_xref_entry) (h0 : 0 < num) (h1 : num < pdf_xref_len doc)
    (hx : doc.cache_object num = .ok x) (hofs : x.stm_ofs = 0) :
    pdf_open_raw_stream_number doc num c =
      (.error ⟨.FZ_ERROR_GENERIC, "object is not a stream"⟩, c) := by
  have hr : ¬ (num ≤ 0 ∨ num ≥ pdf_xref_len doc) := by omega
  simp [pdf_open_raw_stream_number, hr, pdf_cache_object, hx, hofs, fz_throw]

theorem pdf_open_raw_stream_number_cached (doc : pdf_document) (num : Int) (c : fz_context)
    (buf : fz_buffer) (h0 : 0 < num) (h1 : num < pdf_xref_len doc)
    (hx : doc.cache_object num = .ok (pdf_get_xref_entry doc num))
    (hofs : (pdf_get_xref_entry doc num).stm_ofs ≠ 0)
    (hbuf : (pdf_get_xref_entry doc num).stm_buf = some buf) :
    pdf_open_raw_stream_number doc num c = (.ok (.buffer buf), c) := by
  have hr : ¬ (num ≤ 0 ∨ num ≥ pdf_xref_len doc) := by omega
  simp only [pdf_open_raw_stream_number, hr, if_false, run_bind, pdf_cache_object, hx, hofs,
    pdf_open_raw_filter_cached doc.file doc _ num _ c buf h0 h1 hbuf]
  rfl

/-- C11, the code at the failing input. Object 4 of `doc_plain` is in range
and holds a cached buffer with `stm_ofs = 0`: the stream predicate says it is
a stream and `pdf_open_stream_number` reads its buffer, but
`pdf_open_raw_stream_number` and `pdf_open_raw_stream` throw 'object is not a
stream'. -/
theorem raw_open_cached_buffer_without_offset :
    (0 < (4 : Int) ∧ (4 : Int) < pdf_xref_len doc_plain) ∧
    (pdf_get_xref_entry doc_plain 4).stm_buf = some ⟨[104, 105]⟩ ∧
    doc_plain.cache_object 4 = .ok (pdf_get_xref_entry doc_plain 4) ∧
    (pdf_get_xref_entry doc_plain 4).stm_ofs = 0 ∧
    pdf_obj_num_is_stream doc_plain 4 ctx_empty = (.ok true, ctx_empty) ∧
    pdf_open_stream_number doc_plain 4 ctx_empty = (.ok (.buffer ⟨[104, 105]⟩), ctx_empty) ∧
    pdf_open_raw_stream_number doc_plain 4 ctx_empty =
      (.error ⟨.FZ_ERROR_GENERIC, "object is not a stream"⟩, ctx_empty) ∧
    pdf_open_raw_stream doc_plain (some (.indirect 4 0 none)) ctx_empty =
      (.error ⟨.FZ_ERROR_GENERIC, "object is not a stream"⟩, ctx_empty) := by
  refine ⟨by decide, rfl, rfl, rfl, rfl, rfl, ?_, ?_⟩
  · exact pdf_open_raw_stream_number_no_offset doc_plain 4 ctx_empty _ (by decide) (by decide)
      rfl rfl
  · rfl

/-! ## Pass-through filters and explicit crypt filters -/

theorem build_compression_params_raw (n : String) (p : Option pdf_obj)
    (h : n ∉ ["CCITTFaxDecode", "CCF", "DCTDecode", "DCT", "RunLengthDecode", "RL",
      "FlateDecode", "Fl", "LZWDecode", "LZW"]) :
    build_compression_params (some (.name n)) p = .FZ_IMAGE_RAW := by
  simp only [List.mem_cons, List.mem_singleton, List.not_mem_nil, or_false, not_or] at h
  obtain ⟨h1, h2, h3, h4, h5, h6, h7, h8, h9, h10⟩ := h
  simp [build_compression_params, pdf_name_eq_name, h1, h2, h3, h4, h5, h6, h7, h8, h9, h10]

theorem build_filter_jpx (U : fz_stream) (doc : pdf_document) (p : Option pdf_obj)
    (num gen : Int) (params : Option fz_compression_params) (c : fz_context) :
    build_filter U doc (some (.name "JPXDecode")) p num gen params c =
      (.ok (U, params.map (fun _ => fz_compression_params.FZ_IMAGE_RAW)), c) := by
  have hraw : build_compression_params (some (.name "JPXDecode")) p = .FZ_IMAGE_RAW :=
    build_compression_params_raw "JPXDecode" p (by decide)
  simp [build_filter, build_filter_try, fz_try_catch, hraw, pdf_name_eq_name,
    fz_compression_params.type]

theorem build_filter_unknown (U : fz_stream) (doc : pdf_document) (n : String)
    (p : Option pdf_obj) (num gen : Int) (params : Option fz_compression_params)
    (c : fz_context)
    (h : n ∉ ["CCITTFaxDecode", "CCF", "DCTDecode", "DCT", "RunLengthDecode", "RL",
      "FlateDecode", "Fl", "LZWDecode", "LZW"])
    (h2 : n ∉ ["ASCIIHexDecode", "AHx", "ASCII85Decode", "A85", "JBIG2Decode", "JPXDecode",
      "Crypt"]) :
    build_filter U doc (some (.name n)) p num gen params c =
      (.ok (U, params.map (fun _ => fz_compression_params.FZ_IMAGE_RAW)),
        { c with warnings := c.warnings ++ ["unknown filter name (" ++ n ++ ")"] }) := by
  have hraw := build_compression_params_raw n p h
  simp only [List.mem_cons, List.mem_singleton, List.not_mem_nil, or_false, not_or] at h2
  obtain ⟨a1, a2, a3, a4, a5, a6, a7⟩ := h2
  simp [build_filter, build_filter_try, fz_try_catch, hraw, pdf_name_eq_name,
    fz_compression_params.type, a1, a2, a3, a4, a5, a6, a7, fz_warn, pdf_to_name, RESOLVE,
    pdf_resolve]

theorem build_filter_crypt_unencrypted (U : fz_stream) (doc : pdf_document)
    (p : Option pdf_obj) (num gen : Int) (params : Option fz_compression_params)
    (c : fz_context) (hc : doc.crypt = none) :
    build_filter U doc (some (.name "Crypt")) p num gen params c =
      (.ok (U, params.map (fun _ => fz_compression_params.FZ_IMAGE_RAW)),
        { c with warnings := c.warnings ++ ["crypt filter in unencrypted document"] }) := by
  have hraw : build_compression_params (some (.name "Crypt")) p = .FZ_IMAGE_RAW :=
    build_compression_params_raw "Crypt" p (by decide)
  simp [build_filter, build_filter_try, fz_try_catch, hraw, pdf_name_eq_name,
    fz_compression_params.type, hc, fz_warn]

theorem build_filter_crypt_named (U : fz_stream) (doc : pdf_document) (crypt : pdf_crypt)
    (p : Option pdf_obj) (num gen : Int) (params : Option fz_compression_params)
    (c : fz_context) (hc : doc.crypt = some crypt)
    (hname : pdf_is_name (pdf_dict_get p "Name") = true) :
    build_filter U doc (some (.name "Crypt")) p num gen params c =
      (.ok (.crypt_with_filter U crypt (pdf_to_name (pdf_dict_get p "Name")) num gen,
          params.map (fun _ => fz_compression_params.FZ_IMAGE_RAW)), c) := by
  have hraw : build_compression_params (some (.name "Crypt")) p = .FZ_IMAGE_RAW :=
    build_compression_params_raw "Crypt" p (by decide)
  simp [build_filter, build_filter_try, fz_try_catch, hraw, pdf_name_eq_name,
    fz_compression_params.type, hc, hname]

theorem build_filter_crypt_unnamed (U : fz_stream) (doc : pdf_document) (crypt : pdf_crypt)
    (p : Option pdf_obj) (num gen : Int) (params : Option fz_compression_params)
    (c : fz_context) (hc : doc.crypt = some crypt)
    (hname : pdf_is_name (pdf_dict_get p "Name") = false) :
    build_filter U doc (some (.name "Crypt")) p num gen params c =
      (.ok (U, params.map (fun _ => fz_compression_params.FZ_IMAGE_RAW)), c) := by
  have hraw : build_compression_params (some (.name "Crypt")) p = .FZ_IMAGE_RAW :=
    build_compression_params_raw "Crypt" p (by decide)
  simp [build_filter, build_filter_try, fz_try_catch, hraw, pdf_name_eq_name,
    fz_compression_params.type, hc, hname]

theorem build_filter_chain_split (U : fz_stream) (doc : pdf_document) (fs ps : Option pdf_obj)
    (num gen : Int) (params : Option fz_compression_params) (pre post : List pdf_obj)
    (f : pdf_obj) (h : RESOLVE fs = some (.array (pre ++ f :: post))) :
    build_filter_chain U doc fs ps num gen params =
      build_filter_chain_loop doc fs ps num gen ((pre ++ f :: post).length : Int)
          pre.length 0 (U, params) >>= fun r =>
        build_filter r.1 doc (some f) (pdf_array_get ps (pre.length : Int)) num gen
            (if post.isEmpty then r.2 else none) >>= fun r2 =>
          build_filter_chain_loop doc fs ps num gen ((pre ++ f :: post).length : Int)
            post.length ((pre.length : Int) + 1)
            (r2.1, if post.isEmpty then r2.2 else r.2) := by
  have hf : pdf_array_get fs (pre.length : Int) = some f := pdf_array_get_append fs pre post f h
  have hlen : (pre ++ f :: post).length = pre.length + (1 + post.length) := by
    simp [Nat.add_comm]
  have hcond : ((pre.length : Int) = (((pre ++ f :: post).length : Nat) : Int) - 1) ↔
      post.isEmpty = true := by
    rw [hlen]
    push_cast
    cases post with
    | nil => simp
    | cons x xs =>
      simp only [List.length_cons, List.isEmpty_cons, Bool.false_eq_true, iff_false]
      push_cast
      omega
  rw [build_filter_chain_eq_loop U doc fs ps num gen params (pre ++ f :: post) h]
  generalize hn : (((pre ++ f :: post).length : Nat) : Int) = n at hcond ⊢
  rw [hlen, loop_add]
  funext c
  simp only [run_bind, zero_add]
  rcases build_filter_chain_loop doc fs ps num gen n pre.length 0 (U, params) c with ⟨r, c1⟩
  cases r with
  | error e => rfl
  | ok r =>
    rcases r with ⟨s, o⟩
    dsimp only
    rw [loop_add]
    simp only [build_filter_chain_loop, run_bind, hf, Nat.cast_one]
    by_cases hp : post.isEmpty = true
    · have hi : (pre.length : Int) = n - 1 := hcond.mpr hp
      simp only [hp, if_true, if_pos hi]
      rcases build_filter s doc (some f) (pdf_array_get ps (pre.length : Int)) num gen o c1
        with ⟨r2, c2⟩
      cases r2 with
      | error e => rfl
      | ok r2 => simp
    · have hi : ¬ (pre.length : Int) = n - 1 := fun hh => hp (hcond.mp hh)
      have hp2 : post.isEmpty = false := by simpa using hp
      simp only [hp2, Bool.false_eq_true, if_false, if_neg hi]
      rcases build_filter s doc (some f) (pdf_array_get ps (pre.length : Int)) num gen none c1
        with ⟨r2, c2⟩
      cases r2 with
      | error e => rfl
      | ok r2 => simp

/-- C14. Pass-through filters: `build_filter` returns the upstream `U`
itself, without an error, for JPXDecode, for a name no branch recognises (with
the warning 'unknown filter name') and for Crypt in a document without an
encryption handler (with the warning 'crypt filter in unencrypted document');
a supplied out-parameter is left as Raw. In a filter array
`pre ++ f :: post` the builder runs its loop over `pre`, then `build_filter`
for `f` on the stream so far, then its loop over the `post.length` filters
after `f` on the stream that call returned. -/
theorem pass_through (U : fz_stream) (doc : pdf_document) (p : Option pdf_obj)
    (num gen : Int) (params : Option fz_compression_params) (c : fz_context) :
    build_filter U doc (some (.name "JPXDecode")) p num gen params c =
      (.ok (U, params.map (fun _ => fz_compression_params.FZ_IMAGE_RAW)), c) ∧
    (∀ n, n ∉ ["CCITTFaxDecode", "CCF", "DCTDecode", "DCT", "RunLengthDecode", "RL",
        "FlateDecode", "Fl", "LZWDecode", "LZW", "ASCIIHexDecode", "AHx", "ASCII85Decode",
        "A85", "JBIG2Decode", "JPXDecode", "Crypt"] →
      build_filter U doc (some (.name n)) p num gen params c =
        (.ok (U, params.map (fun _ => fz_compression_params.FZ_IMAGE_RAW)),
          { c with warnings := c.warnings ++ ["unknown filter name (" ++ n ++ ")"] })) ∧
    (doc.crypt = none →
      build_filter U doc (some (.name "Crypt")) p num gen params c =
        (.ok (U, params.map (fun _ => fz_compression_params.FZ_IMAGE_RAW)),
          { c with warnings := c.warnings ++ ["crypt filter in unencrypted document"] })) ∧
    (∀ fs ps pre f post, RESOLVE fs = some (.array (pre ++ f :: post)) →
      build_filter_chain U doc fs ps num gen params =
        build_filter_chain_loop doc fs ps num gen ((pre ++ f :: post).length : Int)
            pre.length 0 (U, params) >>= fun r =>
          build_filter r.1 doc (some f) (pdf_array_get ps (pre.length : Int)) num gen
              (if post.isEmpty then r.2 else none) >>= fun r2 =>
            build_filter_chain_loop doc fs ps num gen ((pre ++ f :: post).length : Int)
              post.length ((pre.length : Int) + 1)
              (r2.1, if post.isEmpty then r2.2 else r.2)) := by
  refine ⟨build_filter_jpx U doc p num gen params c, ?_, ?_, ?_⟩
  · intro n hn
    simp only [List.mem_cons, List.mem_singleton, List.not_mem_nil, or_false, not_or] at hn
    obtain ⟨h1, h2, h3, h4, h5, h6, h7, h8, h9, h10, a1, a2, a3, a4, a5, a6, a7⟩ := hn
    exact build_filter_unknown U doc n p num gen params c
      (by simp [h1, h2, h3, h4, h5, h6, h7, h8, h9, h10])
      (by simp [a1, a2, a3, a4, a5, a6, a7])
  · intro hc
    exact build_filter_crypt_unencrypted U doc p num gen params c hc
  · intro fs ps pre f post h
    exact build_filter_chain_split U doc fs ps num gen params pre post f h

/-- Witness of C14 on the unencrypted `doc_plain`: `/JPXDecode`, `/Foo` and
`/Crypt` each give the stream back, and
`[/JPXDecode /Foo /Crypt /ASCIIHexDecode]` gives the ASCII-hex stage straight
over the stream, with the two warnings. -/
theorem pass_through_witness :
    build_filter (.source 0) doc_plain (some (.name "JPXDecode")) none 1 0 none ctx_empty =
      (.ok (.source 0, none), ctx_empty) ∧
    build_filter (.source 0) doc_plain (some (.name "Foo")) none 1 0 none ctx_empty =
      (.ok (.source 0, none),
        { ctx_empty with warnings := ["unknown filter name (Foo)"] }) ∧
    build_filter (.source 0) doc_plain (some (.name "Crypt")) none 1 0 none ctx_empty =
      (.ok (.source 0, none),
        { ctx_empty with warnings := ["crypt filter in unencrypted document"] }) ∧
    build_filter_chain (.source 0) doc_plain
        (some (.array [.name "JPXDecode", .name "Foo", .name "Crypt", .name "ASCIIHexDecode"]))
        none 1 0 none ctx_empty =
      (.ok (.ahxd (.source 0), none),
        { ctx_empty with warnings :=
          ["unknown filter name (Foo)", "crypt filter in unencrypted document"] }) :=
  ⟨(pass_through (.source 0) doc_plain none 1 0 none ctx_empty).1,
   (pass_through (.source 0) doc_plain none 1 0 none ctx_empty).2.1 "Foo" (by decide),
   (pass_through (.source 0) doc_plain none 1 0 none ctx_empty).2.2.1 rfl,
   (congrFun ((pass_through (.source 0) doc_plain none 1 0 none ctx_empty).2.2.2
      (some (.array [.name "JPXDecode", .name "Foo", .name "Crypt", .name "ASCIIHexDecode"]))
      none [.name "JPXDecode", .name "Foo", .name "Crypt"] (.name "ASCIIHexDecode") [] rfl)
      ctx_empty).trans rfl⟩

theorem pdf_open_filter_run (doc : pdf_document) (chain : fz_stream) (stmobj : Option pdf_obj)
    (num offset : Int) (imparams : Option fz_compression_params) (c c1 : fz_context)
    (base : fz_stream) (orig_num orig_gen : Int)
    (hraw : pdf_open_raw_filter chain doc stmobj num offset c =
      (.ok (base, orig_num, orig_gen), c1)) :
    pdf_open_filter doc chain stmobj num offset imparams c =
      (if pdf_is_name (pdf_dict_geta stmobj "Filter" "F") then
        build_filter base doc (pdf_dict_geta stmobj "Filter" "F")
          (pdf_dict_geta stmobj "DecodeParms" "DP") orig_num orig_gen imparams
      else if pdf_array_len (pdf_dict_geta stmobj "Filter" "F") > 0 then
        build_filter_chain base doc (pdf_dict_geta stmobj "Filter" "F")
          (pdf_dict_geta stmobj "DecodeParms" "DP") orig_num orig_gen imparams
      else
        pure (base, imparams)) c1 := by
  simp only [pdf_open_filter, run_bind, hraw, fz_try_catch_rethrow_none]

theorem pdf_open_raw_filter_explicit_crypt (chain : fz_stream) (doc : pdf_document)
    (stmobj : Option pdf_obj) (num offset : Int) (c : fz_context)
    (hfile : ¬ (0 < num ∧ num < pdf_xref_len doc) ∨
      (pdf_get_xref_entry doc num).stm_buf = none)
    (hh : pdf_stream_has_crypt stmobj = true) :
    ∃ orig_num orig_gen,
      pdf_open_raw_filter chain doc stmobj num offset c =
        (.ok (.null chain (pdf_to_int (pdf_dict_get stmobj "Length")) offset,
          orig_num, orig_gen), { c with kept := c.kept ++ [chain] }) := by
  by_cases hr : 0 < num ∧ num < pdf_xref_len doc
  · have hbuf : (pdf_get_xref_entry doc num).stm_buf = none := by
      rcases hfile with h | h
      · exact absurd hr h
      · exact h
    refine ⟨(pdf_get_xref_entry doc num).num, (pdf_get_xref_entry doc num).gen, ?_⟩
    rw [pdf_open_raw_filter_uncached chain doc stmobj num offset c hr.1 hr.2 hbuf]
    cases hc : doc.crypt <;> simp [hh]
  · refine ⟨num, 0, ?_⟩
    rw [pdf_open_raw_filter_out_of_range chain doc stmobj num offset c hr]
    cases hc : doc.crypt <;> simp [hh]

/-- C13. Explicit Crypt filter in an encrypted document: for a stream read
from the file (no cached buffer) raw framing gives the bare length-bounded
view, without the default decryption stage, and seeds `orig_num`, `orig_gen`.
When Filter/F is the name Crypt with a name-valued Name parameter,
`pdf_open_filter` returns the named crypt stage over that view, keyed by those
seeds. When Filter/F is an array `pre ++ Crypt :: post` and element
`pre.length` of the parameter array has a name-valued Name, `pdf_open_filter`
runs the builder's loop over `pre` on the view, puts the named crypt stage
keyed by the seeds on the stream so far, and runs the loop over the filters
after it on top of that stage. -/
theorem explicit_crypt (doc : pdf_document) (chain : fz_stream) (stmobj : Option pdf_obj)
    (num offset : Int) (imparams : Option fz_compression_params) (c : fz_context)
    (crypt : pdf_crypt) (hc : doc.crypt = some crypt)
    (hfile : ¬ (0 < num ∧ num < pdf_xref_len doc) ∨
      (pdf_get_xref_entry doc num).stm_buf = none) :
    (pdf_dict_geta stmobj "Filter" "F" = some (.name "Crypt") →
      pdf_is_name (pdf_dict_get (pdf_dict_geta stmobj "DecodeParms" "DP") "Name") = true →
      ∃ orig_num orig_gen,
        pdf_open_raw_filter chain doc stmobj num offset c =
          (.ok (.null chain (pdf_to_int (pdf_dict_get stmobj "Length")) offset,
            orig_num, orig_gen), { c with kept := c.kept ++ [chain] }) ∧
        pdf_open_filter doc chain stmobj num offset imparams c =
          (.ok (.crypt_with_filter
              (.null chain (pdf_to_int (pdf_dict_get stmobj "Length")) offset) crypt
              (pdf_to_name (pdf_dict_get (pdf_dict_geta stmobj "DecodeParms" "DP") "Name"))
              orig_num orig_gen,
            imparams.map (fun _ => fz_compression_params.FZ_IMAGE_RAW)),
           { c with kept := c.kept ++ [chain] })) ∧
    (∀ pre post,
      RESOLVE (pdf_dict_geta stmobj "Filter" "F") =
        some (.array (pre ++ .name "Crypt" :: post)) →
      pdf_is_name (pdf_dict_get
        (pdf_array_get (pdf_dict_geta stmobj "DecodeParms" "DP") (pre.length : Int))
        "Name") = true →
      ∃ orig_num orig_gen,
        pdf_open_raw_filter chain doc stmobj num offset c =
          (.ok (.null chain (pdf_to_int (pdf_dict_get stmobj "Length")) offset,
            orig_num, orig_gen), { c with kept := c.kept ++ [chain] }) ∧
        pdf_open_filter doc chain stmobj num offset imparams c =
          (build_filter_chain_loop doc (pdf_dict_geta stmobj "Filter" "F")
              (pdf_dict_geta stmobj "DecodeParms" "DP") orig_num orig_gen
              ((pre ++ pdf_obj.name "Crypt" :: post).length : Int) pre.length 0
              (.null chain (pdf_to_int (pdf_dict_get stmobj "Length")) offset, imparams)
            >>= fun r =>
              build_filter_chain_loop doc (pdf_dict_geta stmobj "Filter" "F")
                (pdf_dict_geta stmobj "DecodeParms" "DP") orig_num orig_gen
                ((pre ++ pdf_obj.name "Crypt" :: post).length : Int) post.length
                ((pre.length : Int) + 1)
                (.crypt_with_filter r.1 crypt
                  (pdf_to_name (pdf_dict_get
                    (pdf_array_get (pdf_dict_geta stmobj "DecodeParms" "DP")
                      (pre.length : Int)) "Name"))
                  orig_num orig_gen,
                 if post.isEmpty then
                   r.2.map (fun _ => fz_compression_params.FZ_IMAGE_RAW)
                 else r.2))
            { c with kept := c.kept ++ [chain] }) := by
  constructor
  · intro hf hname
    have hh : pdf_stream_has_crypt stmobj = true :=
      (pdf_stream_has_crypt_iff stmobj).mpr (Or.inl (by rw [hf]; rfl))
    obtain ⟨sn, sg, hraw⟩ :=
      pdf_open_raw_filter_explicit_crypt chain doc stmobj num offset c hfile hh
    refine ⟨sn, sg, hraw, ?_⟩
    rw [pdf_open_filter_run doc chain stmobj num offset imparams c _ _ sn sg hraw]
    have hn : pdf_is_name (pdf_dict_geta stmobj "Filter" "F") = true := by rw [hf]; rfl
    rw [if_pos hn, hf]
    exact build_filter_crypt_named _ doc crypt _ sn sg imparams _ hc hname
  · intro pre post hf hname
    have hh : pdf_stream_has_crypt stmobj = true :=
      (pdf_stream_has_crypt_iff stmobj).mpr
        (Or.inr ⟨_, hf, .name "Crypt", by simp, rfl⟩)
    obtain ⟨sn, sg, hraw⟩ :=
      pdf_open_raw_filter_explicit_crypt chain doc stmobj num offset c hfile hh
    refine ⟨sn, sg, hraw, ?_⟩
    rw [pdf_open_filter_run doc chain stmobj num offset imparams c _ _ sn sg hraw]
    have hn : pdf_is_name (pdf_dict_geta stmobj "Filter" "F") = false := by
      simp [pdf_is_name, hf]
    have hl : pdf_array_len (pdf_dict_geta stmobj "Filter" "F") > 0 := by
      simp only [pdf_array_len, hf, List.length_append, List.length_cons]
      push_cast
      omega
    rw [hn, if_neg (by simp), if_pos hl,
      build_filter_chain_split _ doc _ _ sn sg imparams pre post (.name "Crypt") hf]
    simp only [run_bind]
    rcases build_filter_chain_loop doc (pdf_dict_geta stmobj "Filter" "F")
      (pdf_dict_geta stmobj "DecodeParms" "DP") sn sg
      ((pre ++ pdf_obj.name "Crypt" :: post).length : Int) pre.length 0
      (.null chain (pdf_to_int (pdf_dict_get stmobj "Length")) offset, imparams)
      { c with kept := c.kept ++ [chain] } with ⟨r, c1⟩
    cases r with
    | error e => rfl
    | ok r =>
      dsimp only
      rw [build_filter_crypt_named r.1 doc crypt _ sn sg _ c1 hc hname]
      cases hp : post.isEmpty <;> simp

/-- Witness of C13, scenario S4: in the encrypted document,
`Filter [/Crypt /FlateDecode]` with `DecodeParms [<</Name /Identity>> null]`
gives Flate over the crypt stage named Identity, keyed (1, 0), over the bare
five-byte view at offset 100. -/
theorem explicit_crypt_witness :
    doc_encrypted.crypt = some ⟨1⟩ ∧
    (pdf_get_xref_entry doc_encrypted 1).stm_buf = none ∧
    pdf_open_filter doc_encrypted (.source 0) (some stm_crypt_flate) 1 100 none ctx_empty =
      (.ok (.image_decomp
          (.crypt_with_filter (.null (.source 0) 5 100) ⟨1⟩ "Identity" 1 0)
          (.FZ_IMAGE_FLATE 0 0 0 0), none),
        { ctx_empty with kept := [.source 0] }) := by
  refine ⟨rfl, rfl, ?_⟩
  obtain ⟨sn, sg, hraw, hopen⟩ :=
    (explicit_crypt doc_encrypted (.source 0) (some stm_crypt_flate) 1 100 none ctx_empty ⟨1⟩
      rfl (Or.inr rfl)).2 [] [.name "FlateDecode"] rfl rfl
  have hseed : pdf_open_raw_filter (.source 0) doc_encrypted (some stm_crypt_flate) 1 100
      ctx_empty = (.ok (.null (.source 0) 5 100, 1, 0),
        { ctx_empty with kept := [.source 0] }) := rfl
  rw [hseed] at hraw
  simp only [Prod.mk.injEq, Except.ok.injEq] at hraw
  obtain ⟨⟨-, h1, h2⟩, -⟩ := hraw
  subst h1 h2
  exact hopen.trans rfl

/-! ## Reuse of a cached buffer -/

theorem can_reuse_buffer_array (entry : pdf_xref_entry) (o : pdf_obj) (buf : fz_buffer)
    (params : Option fz_compression_params) (xs : List pdf_obj)
    (ho : entry.obj = some o) (hb : entry.stm_buf = some buf)
    (hf : RESOLVE (pdf_dict_geta entry.obj "Filter" "F") = some (.array xs)) :
    can_reuse_buffer (some entry) params =
      (decide (xs.length = 0), params.map (fun _ => fz_compression_params.FZ_IMAGE_RAW)) := by
  obtain ⟨n, g, ofs, sb, ob⟩ := entry
  simp only at ho hb hf
  subst ho hb
  simp only [can_reuse_buffer, Option.isNone_some, Bool.or_self, Bool.false_eq_true, if_false]
  generalize pdf_dict_geta (some o) "Filter" "F" = f at hf ⊢
  have hsome : f.isNone = false := by
    cases f with
    | none => simp [RESOLVE] at hf
    | some v => rfl
  have harr : pdf_is_array f = true := by simp [pdf_is_array, hf]
  have hnull : pdf_is_null f = false := by simp [pdf_is_null, hf]
  have hname : pdf_is_name f = false := by simp [pdf_is_name, hf]
  have hlen : pdf_array_len f = (xs.length : Int) := by simp [pdf_array_len, hf]
  simp only [hsome, harr, hlen, can_reuse_buffer_name, hnull, hname, Bool.false_eq_true,
    if_false, if_true, Bool.not_false]
  by_cases h0 : xs.length = 0
  · simp [h0]
  · by_cases h1 : xs.length = 1
    · simp [h1]
    · have h0' : ¬ ((xs.length : Int) = 0) := by exact_mod_cast h0
      have h1' : ((xs.length : Int) ≠ 1) := by exact_mod_cast h1
      simp [h0, h0', h1']

/-- C15, the code at the failing input. For an entry with a cached buffer,
`Filter [/DCTDecode]` and an out-descriptor, `can_reuse_buffer` answers false
and leaves the descriptor Raw, where the bare name `/DCTDecode` answers true
with the Jpeg descriptor; and `Filter [null]` answers false as well. -/
theorem one_element_array_not_reused :
    can_reuse_buffer (some (entry_cached (.dict [("Filter", .array [.name "DCTDecode"])])))
        (some (.FZ_IMAGE_RLD)) = (false, some .FZ_IMAGE_RAW) ∧
    can_reuse_buffer (some (entry_cached (.dict [("Filter", .name "DCTDecode")])))
        (some (.FZ_IMAGE_RLD)) = (true, some (.FZ_IMAGE_JPEG (-1))) ∧
    can_reuse_buffer (some (entry_cached (.dict [("Filter", .array [.null])])))
        (some (.FZ_IMAGE_RLD)) = (false, some .FZ_IMAGE_RAW) ∧
    can_reuse_buffer (some (entry_cached (.dict [("Filter", .array [.null])]))) none =
      (false, none) ∧
    can_reuse_buffer (some (entry_cached (.dict [("Filter", .null)]))) none = (true, none) := by
  refine ⟨?_, rfl, ?_, ?_, rfl⟩
  · exact can_reuse_buffer_array _ _ ⟨[1, 2, 3]⟩ _ [.name "DCTDecode"] rfl rfl rfl
  · exact can_reuse_buffer_array _ _ ⟨[1, 2, 3]⟩ _ [.null] rfl rfl rfl
  · exact can_reuse_buffer_array _ _ ⟨[1, 2, 3]⟩ _ [.null] rfl rfl rfl

theorem can_reuse_buffer_no_buffer (entry : pdf_xref_entry)
    (params : Option fz_compression_params) (hb : entry.stm_buf = none) :
    can_reuse_buffer (some entry) params = (false, params) := by
  simp [can_reuse_buffer, hb]

theorem can_reuse_buffer_no_array (entry : pdf_xref_entry) (o : pdf_obj) (buf : fz_buffer)
    (params : Option fz_compression_params)
    (ho : entry.obj = some o) (hb : entry.stm_buf = some buf)
    (harr : pdf_is_array (pdf_dict_geta entry.obj "Filter" "F") = false) :
    can_reuse_buffer (some entry) params =
      if (pdf_dict_geta entry.obj "Filter" "F").isNone then
        (true, params.map (fun _ => fz_compression_params.FZ_IMAGE_RAW))
      else
        can_reuse_buffer_name (pdf_dict_geta entry.obj "Filter" "F")
          (pdf_dict_geta entry.obj "DecodeParms" "DP")
          (params.map (fun _ => fz_compression_params.FZ_IMAGE_RAW)) := by
  obtain ⟨n, g, ofs, sb, ob⟩ := entry
  simp only at ho hb harr
  subst ho hb
  simp [can_reuse_buffer, harr]

/-- C16. Cached-buffer reuse for absent, null and single-name filters: for an
entry with an object and a cached buffer, `can_reuse_buffer` returns true and
leaves a supplied out-descriptor Raw when Filter/F is absent, is the null
object, or is an empty array; when Filter/F is a name it returns true exactly
when an out-descriptor was supplied and the resolver gives a non-Raw kind for
the name and the DecodeParms/DP entry, and a supplied out-descriptor then
holds the resolver's result; for an entry without a cached buffer it returns
false. -/
theorem reuse_plain_or_single_name (entry : pdf_xref_entry) (o : pdf_obj) (buf : fz_buffer)
    (params : Option fz_compression_params)
    (ho : entry.obj = some o) (hb : entry.stm_buf = some buf) :
    (pdf_dict_geta entry.obj "Filter" "F" = none →
      can_reuse_buffer (some entry) params =
        (true, params.map (fun _ => fz_compression_params.FZ_IMAGE_RAW))) ∧
    (pdf_is_null (pdf_dict_geta entry.obj "Filter" "F") = true →
      can_reuse_buffer (some entry) params =
        (true, params.map (fun _ => fz_compression_params.FZ_IMAGE_RAW))) ∧
    (RESOLVE (pdf_dict_geta entry.obj "Filter" "F") = some (.array []) →
      can_reuse_buffer (some entry) params =
        (true, params.map (fun _ => fz_compression_params.FZ_IMAGE_RAW))) ∧
    (pdf_is_name (pdf_dict_geta entry.obj "Filter" "F") = true →
      ((can_reuse_buffer (some entry) params).1 = true ↔
        params.isSome = true ∧
          (build_compression_params (pdf_dict_geta entry.obj "Filter" "F")
            (pdf_dict_geta entry.obj "DecodeParms" "DP")).type ≠ .RAW) ∧
      (can_reuse_buffer (some entry) params).2 =
        params.map (fun _ => build_compression_params (pdf_dict_geta entry.obj "Filter" "F")
          (pdf_dict_geta entry.obj "DecodeParms" "DP"))) ∧
    (∀ entry2 : pdf_xref_entry, entry2.stm_buf = none →
      can_reuse_buffer (some entry2) params = (false, params)) := by
  refine ⟨?_, ?_, ?_, ?_, ?_⟩
  · intro hf
    have harr : pdf_is_array (pdf_dict_geta entry.obj "Filter" "F") = false := by
      rw [hf]; rfl
    rw [can_reuse_buffer_no_array entry o buf params ho hb harr, hf]
    rfl
  · intro hnull
    have hres : RESOLVE (pdf_dict_geta entry.obj "Filter" "F") = some .null := by
      unfold pdf_is_null at hnull
      split at hnull
      · assumption
      · exact absurd hnull (by simp)
    have harr : pdf_is_array (pdf_dict_geta entry.obj "Filter" "F") = false := by
      simp [pdf_is_array, hres]
    rw [can_reuse_buffer_no_array entry o buf params ho hb harr]
    cases hg : pdf_dict_geta entry.obj "Filter" "F" with
    | none => rfl
    | some v =>
      rw [hg] at hnull
      simp [can_reuse_buffer_name, hnull]
  · intro hf
    rw [can_reuse_buffer_array entry o buf params [] ho hb hf]
    rfl
  · intro hname
    have hres : ∃ n, RESOLVE (pdf_dict_geta entry.obj "Filter" "F") = some (.name n) := by
      unfold pdf_is_name at hname
      split at hname
      · exact ⟨_, by assumption⟩
      · exact absurd hname (by simp)
    obtain ⟨n, hres⟩ := hres
    have harr : pdf_is_array (pdf_dict_geta entry.obj "Filter" "F") = false := by
      simp [pdf_is_array, hres]
    have hnull : pdf_is_null (pdf_dict_geta entry.obj "Filter" "F") = false := by
      simp [pdf_is_null, hres]
    rw [can_reuse_buffer_no_array entry o buf params ho hb harr]
    cases hg : pdf_dict_geta entry.obj "Filter" "F" with
    | none => rw [hg] at hres; simp [RESOLVE] at hres
    | some v =>
      rw [hg] at hname hnull
      cases params with
      | none => simp [can_reuse_buffer_name, hname, hnull]
      | some prior => simp [can_reuse_buffer_name, hname, hnull]
  · intro entry2 hb2
    exact can_reuse_buffer_no_buffer entry2 params hb2

/-- Witness of C16 on an entry with a cached buffer: no Filter is reusable as
Raw; `/DCTDecode` is reusable with an out-descriptor, which then holds the
Jpeg descriptor, and not without one. -/
theorem reuse_plain_or_single_name_witness :
    can_reuse_buffer (some (entry_cached (.dict []))) (some .FZ_IMAGE_RLD) =
      (true, some .FZ_IMAGE_RAW) ∧
    (can_reuse_buffer (some (entry_cached (.dict [("Filter", .name "DCTDecode")])))
      (some .FZ_IMAGE_RLD)).1 = true ∧
    (can_reuse_buffer (some (entry_cached (.dict [("Filter", .name "DCTDecode")])))
      (some .FZ_IMAGE_RLD)).2 = some (.FZ_IMAGE_JPEG (-1)) ∧
    ¬ (can_reuse_buffer (some (entry_cached (.dict [("Filter", .name "DCTDecode")])))
      none).1 = true :=
  ⟨(reuse_plain_or_single_name (entry_cached (.dict [])) (.dict []) ⟨[1, 2, 3]⟩
      (some .FZ_IMAGE_RLD) rfl rfl).1 rfl,
   ((reuse_plain_or_single_name (entry_cached (.dict [("Filter", .name "DCTDecode")])) _
      ⟨[1, 2, 3]⟩ (some .FZ_IMAGE_RLD) rfl rfl).2.2.2.1 rfl).1.mpr ⟨rfl, by decide⟩,
   ((reuse_plain_or_single_name (entry_cached (.dict [("Filter", .name "DCTDecode")])) _
      ⟨[1, 2, 3]⟩ (some .FZ_IMAGE_RLD) rfl rfl).2.2.2.1 rfl).2,
   fun h => absurd
     (((reuse_plain_or_single_name (entry_cached (.dict [("Filter", .name "DCTDecode")])) _
        ⟨[1, 2, 3]⟩ none rfl rfl).2.2.2.1 rfl).1.mp h).1 (by decide)⟩

/-- C17. Filter arrays of length greater than 1 are never reusable: for every
xref entry whose Filter/F is an array of two or more elements and every
out-descriptor, `can_reuse_buffer` returns false; and for an in-range object
with such an entry `pdf_load_image_stream` does not return the cached buffer
but goes on to load the object and read the opened pipeline. -/
theorem longer_arrays_not_reused (entry : pdf_xref_entry)
    (params : Option fz_compression_params) (xs : List pdf_obj)
    (hf : RESOLVE (pdf_dict_geta entry.obj "Filter" "F") = some (.array xs))
    (h2 : 2 ≤ xs.length) :
    (can_reuse_buffer (some entry) params).1 = false ∧
    (∀ (rd : fz_reader) (doc : pdf_document) (num : Int) (truncated : Option Bool),
      0 < num → num < pdf_xref_len doc → pdf_get_xref_entry doc num = entry →
      pdf_load_image_stream rd doc num params truncated =
        pdf_load_image_stream_read rd doc num (can_reuse_buffer (some entry) params).2
          truncated) := by
  have h1 : (can_reuse_buffer (some entry) params).1 = false := by
    cases ho : entry.obj with
    | none => simp [can_reuse_buffer, ho]
    | some o =>
      cases hb : entry.stm_buf with
      | none => simp [can_reuse_buffer, hb]
      | some buf =>
        rw [can_reuse_buffer_array entry o buf params xs ho hb hf]
        have : xs.length ≠ 0 := by omega
        simp [this]
  refine ⟨h1, ?_⟩
  intro rd doc num truncated h0 hlt hentry
  have hr : num > 0 ∧ num < pdf_xref_len doc := ⟨h0, hlt⟩
  simp only [pdf_load_image_stream, hr, and_self, if_true, hentry]
  rcases hres : can_reuse_buffer (some entry) params with ⟨b, out⟩
  rw [hres] at h1
  simp only at h1
  subst h1
  cases entry.stm_buf <;> rfl

/-- Witness of C17 on object 3 of `doc_filtered`, which has a cached buffer and
`Filter [/ASCII85Decode /FlateDecode]`: the buffer is not reusable, and the
loader goes on to open the pipeline. -/
theorem longer_arrays_not_reused_witness :
    RESOLVE (pdf_dict_geta (pdf_get_xref_entry doc_filtered 3).obj "Filter" "F") =
      some (.array [.name "ASCII85Decode", .name "FlateDecode"]) ∧
    (can_reuse_buffer (some (pdf_get_xref_entry doc_filtered 3)) (some .FZ_IMAGE_RLD)).1 =
      false ∧
    pdf_load_image_stream (reader_file [] 0) doc_filtered 3 (some .FZ_IMAGE_RLD) none =
      pdf_load_image_stream_read (reader_file [] 0) doc_filtered 3
        (can_reuse_buffer (some (pdf_get_xref_entry doc_filtered 3)) (some .FZ_IMAGE_RLD)).2
        none :=
  ⟨rfl,
   (longer_arrays_not_reused (pdf_get_xref_entry doc_filtered 3) (some .FZ_IMAGE_RLD)
      [.name "ASCII85Decode", .name "FlateDecode"] rfl (by decide)).1,
   (longer_arrays_not_reused (pdf_get_xref_entry doc_filtered 3) (some .FZ_IMAGE_RLD)
      [.name "ASCII85Decode", .name "FlateDecode"] rfl (by decide)).2
      (reader_file [] 0) doc_filtered 3 none (by decide) (by decide) rfl⟩

/-! ## Decoded and raw streams by number -/

theorem build_filter_seed_irrelevant (chain : fz_stream) (doc : pdf_document)
    (f p : Option pdf_obj) (n g n2 g2 : Int) (params : Option fz_compression_params)
    (h : pdf_name_eq f "Crypt" = false) :
    build_filter chain doc f p n g params = build_filter chain doc f p n2 g2 params := by
  simp [build_filter, build_filter_try, h]

theorem pdf_open_raw_stream_number_run (doc : pdf_document) (num : Int) (c : fz_context)
    (h0 : 0 < num) (h1 : num < pdf_xref_len doc)
    (hx : doc.cache_object num = .ok (pdf_get_xref_entry doc num))
    (hofs : (pdf_get_xref_entry doc num).stm_ofs ≠ 0) :
    pdf_open_raw_stream_number doc num c =
      match pdf_open_raw_filter doc.file doc (pdf_get_xref_entry doc num).obj num
          (pdf_get_xref_entry doc num).stm_ofs c with
      | (.ok r, c1) => (.ok r.1, c1)
      | (.error e, c1) => (.error e, c1) := by
  have hr : ¬ (num ≤ 0 ∨ num ≥ pdf_xref_len doc) := by omega
  simp only [pdf_open_raw_stream_number, hr, if_false, run_bind, pdf_cache_object, hx, hofs]
  rcases pdf_open_raw_filter doc.file doc (pdf_get_xref_entry doc num).obj num
    (pdf_get_xref_entry doc num).stm_ofs c with ⟨r, c1⟩
  cases r <;> rfl

theorem pdf_open_stream_number_run (doc : pdf_document) (num : Int) (c : fz_context)
    (h0 : 0 < num) (h1 : num < pdf_xref_len doc)
    (hx : doc.cache_object num = .ok (pdf_get_xref_entry doc num))
    (hofs : (pdf_get_xref_entry doc num).stm_ofs ≠ 0) :
    pdf_open_stream_number doc num c =
      match pdf_open_filter doc doc.file (pdf_get_xref_entry doc num).obj num
          (pdf_get_xref_entry doc num).stm_ofs none c with
      | (.ok r, c1) => (.ok r.1, c1)
      | (.error e, c1) => (.error e, c1) := by
  have hr : ¬ (num ≤ 0 ∨ num ≥ pdf_xref_len doc) := by omega
  simp only [pdf_open_stream_number, pdf_open_image_stream, hr, if_false, run_bind,
    pdf_cache_object, hx, hofs, false_and]
  rcases pdf_open_filter doc doc.file (pdf_get_xref_entry doc num).obj num
    (pdf_get_xref_entry doc num).stm_ofs none c with ⟨r, c1⟩
  cases r <;> rfl

/-- C18. Decoded equals filter applied to raw: for an in-range object read from
the file (`stm_ofs != 0`, no cached buffer) whose Filter/F is the name `f` or
the one-element array `[f]`, with `f` one of ASCIIHex, ASCII85, RunLength,
Flate, LZW, CCITTFax, DCT under its long or short name,
`pdf_open_stream_number` returns what `build_filter` builds for `f` and its
parameters (the DecodeParms/DP entry for a bare name, its element 0 for an
array), without out-parameter and whatever the seeds, over the stream
`pdf_open_raw_stream_number` returns for the same object. -/
theorem decoded_is_filter_over_raw (doc : pdf_document) (num : Int) (f : String) (n g : Int)
    (h0 : 0 < num) (h1 : num < pdf_xref_len doc)
    (hx : doc.cache_object num = .ok (pdf_get_xref_entry doc num))
    (hofs : (pdf_get_xref_entry doc num).stm_ofs ≠ 0)
    (hbuf : (pdf_get_xref_entry doc num).stm_buf = none)
    (hf : f ∈ ["ASCIIHexDecode", "AHx", "ASCII85Decode", "A85", "RunLengthDecode", "RL",
      "FlateDecode", "Fl", "LZWDecode", "LZW", "CCITTFaxDecode", "CCF", "DCTDecode", "DCT"]) :
    (pdf_dict_geta (pdf_get_xref_entry doc num).obj "Filter" "F" = some (.name f) →
      pdf_open_stream_number doc num =
        pdf_open_raw_stream_number doc num >>= fun raw =>
          build_filter raw doc (some (.name f))
            (pdf_dict_geta (pdf_get_xref_entry doc num).obj "DecodeParms" "DP") n g none
          >>= fun r => pure r.1) ∧
    (pdf_dict_geta (pdf_get_xref_entry doc num).obj "Filter" "F" = some (.array [.name f]) →
      pdf_open_stream_number doc num =
        pdf_open_raw_stream_number doc num >>= fun raw =>
          build_filter raw doc (some (.name f))
            (pdf_array_get (pdf_dict_geta (pdf_get_xref_entry doc num).obj "DecodeParms" "DP")
              0) n g none
          >>= fun r => pure r.1) := by
  have hne : pdf_name_eq (some (.name f)) "Crypt" = false := by
    rw [pdf_name_eq_name]
    simp only [List.mem_cons, List.mem_singleton, List.not_mem_nil, or_false] at hf
    rcases hf with rfl | rfl | rfl | rfl | rfl | rfl | rfl | rfl | rfl | rfl | rfl | rfl |
      rfl | rfl <;> decide
  have hraw := fun c => pdf_open_raw_filter_uncached doc.file doc
    (pdf_get_xref_entry doc num).obj num (pdf_get_xref_entry doc num).stm_ofs c h0 h1 hbuf
  constructor
  · intro hfil
    funext c
    rw [pdf_open_stream_number_run doc num c h0 h1 hx hofs,
      pdf_open_filter_run doc doc.file _ num _ none c _ _ _ _ (hraw c)]
    simp only [run_bind, pdf_open_raw_stream_number_run doc num c h0 h1 hx hofs, hraw c]
    have hn : pdf_is_name (pdf_dict_geta (pdf_get_xref_entry doc num).obj "Filter" "F")
        = true := by rw [hfil]; rfl
    rw [if_pos hn, hfil, build_filter_seed_irrelevant _ doc _ _ _ _ n g none hne]
    rcases build_filter _ doc (some (.name f)) _ n g none _ with ⟨r, c1⟩
    cases r <;> rfl
  · intro hfil
    funext c
    rw [pdf_open_stream_number_run doc num c h0 h1 hx hofs,
      pdf_open_filter_run doc doc.file _ num _ none c _ _ _ _ (hraw c)]
    simp only [run_bind, pdf_open_raw_stream_number_run doc num c h0 h1 hx hofs, hraw c]
    have hn : pdf_is_name (pdf_dict_geta (pdf_get_xref_entry doc num).obj "Filter" "F")
        = false := by rw [hfil]; rfl
    have hl : pdf_array_len (pdf_dict_geta (pdf_get_xref_entry doc num).obj "Filter" "F")
        > 0 := by rw [hfil]; simp [pdf_array_len, RESOLVE, pdf_resolve]
    rw [hn, if_neg (by simp), if_pos hl,
      build_filter_chain_snoc _ doc _ _ _ _ none [] (.name f) (by rw [hfil]; rfl),
      build_filter_chain_eq_loop _ doc (some (.array [])) _ _ _ none [] rfl]
    simp only [run_bind, build_filter_chain_loop, run_pure, List.length_nil, Nat.cast_zero]
    rw [build_filter_seed_irrelevant _ doc _ _ _ _ n g none hne]
    rcases build_filter _ doc (some (.name f)) _ n g none _ with ⟨r, c1⟩
    cases r <;> rfl

/-- Witness of C18 on `doc_filtered`: object 1 (`/ASCIIHexDecode`) opens as the
ASCII-hex stage over its 11-byte view, object 2 (`[/FlateDecode]`, Predictor
12) as the Flate stage with that predictor over its 20-byte view; the views
are what the raw open returns. -/
theorem decoded_is_filter_over_raw_witness :
    pdf_open_raw_stream_number doc_filtered 1 ctx_empty =
      (.ok (.null (.source 0) 11 50), { ctx_empty with kept := [.source 0] }) ∧
    pdf_open_stream_number doc_filtered 1 ctx_empty =
      (.ok (.ahxd (.null (.source 0) 11 50)), { ctx_empty with kept := [.source 0] }) ∧
    pdf_open_raw_stream_number doc_filtered 2 ctx_empty =
      (.ok (.null (.source 0) 20 70), { ctx_empty with kept := [.source 0] }) ∧
    pdf_open_stream_number doc_filtered 2 ctx_empty =
      (.ok (.image_decomp (.null (.source 0) 20 70) (.FZ_IMAGE_FLATE 12 0 0 0)),
        { ctx_empty with kept := [.source 0] }) :=
  ⟨rfl,
   (congrFun ((decoded_is_filter_over_raw doc_filtered 1 "ASCIIHexDecode" 0 0 (by decide)
      (by decide) rfl (by decide) rfl (by decide)).1 rfl) ctx_empty).trans rfl,
   rfl,
   (congrFun ((decoded_is_filter_over_raw doc_filtered 2 "FlateDecode" 0 0 (by decide)
      (by decide) rfl (by decide) rfl (by decide)).2 rfl) ctx_empty).trans rfl⟩

/-! ## Streams without filters -/

theorem no_filter_guess (dict : Option pdf_obj) (len : Int)
    (hn : pdf_is_name (pdf_dict_geta dict "Filter" "F") = false)
    (hl : pdf_array_len (pdf_dict_geta dict "Filter" "F") = 0) :
    pdf_guess_loop (pdf_dict_get dict "Filter")
        (pdf_array_len (pdf_dict_get dict "Filter")).toNat 0
        (pdf_guess_filter_length len (pdf_to_name (pdf_dict_get dict "Filter"))) = len := by
  cases hg : pdf_dict_get dict "Filter" with
  | none => rfl
  | some v =>
    have hgeta : pdf_dict_geta dict "Filter" "F" = some v := by simp [pdf_dict_geta, hg]
    rw [hgeta] at hn hl
    have hname : pdf_to_name (some v) = "" := by
      unfold pdf_is_name at hn
      unfold pdf_to_name
      split at hn
      · exact absurd hn (by simp)
      · rfl
    rw [hl, hname]
    rfl

theorem no_filter_cases (filters : Option pdf_obj)
    (hf : filters = none ∨ pdf_is_null filters = true ∨
      RESOLVE filters = some (.array [])) :
    pdf_is_name filters = false ∧ pdf_array_len filters = 0 := by
  rcases hf with h | h | h
  · subst h
    exact ⟨rfl, rfl⟩
  · have hres : RESOLVE filters = some .null := by
      unfold pdf_is_null at h
      split at h
      · assumption
      · exact absurd h (by simp)
    simp [pdf_is_name, pdf_array_len, hres]
  · simp [pdf_is_name, pdf_array_len, h]

theorem run_try_always_drop {α : Type} (body : FzM α) (stm : fz_stream) (c : fz_context) :
    fz_try_always body (fz_drop_stream (some stm)) c =
      ((body c).1, { (body c).2 with dropped := (body c).2.dropped ++ [stm] }) := by
  simp only [fz_try_always, fz_drop_stream]

theorem pdf_open_image_stream_run (doc : pdf_document) (num : Int)
    (params : Option fz_compression_params) (c : fz_context)
    (h0 : 0 < num) (h1 : num < pdf_xref_len doc)
    (hx : doc.cache_object num = .ok (pdf_get_xref_entry doc num))
    (hofs : (pdf_get_xref_entry doc num).stm_ofs ≠ 0) :
    pdf_open_image_stream doc num params c =
      pdf_open_filter doc doc.file (pdf_get_xref_entry doc num).obj num
        (pdf_get_xref_entry doc num).stm_ofs params c := by
  have hr : ¬ (num ≤ 0 ∨ num ≥ pdf_xref_len doc) := by omega
  simp only [pdf_open_image_stream, hr, if_false, run_bind, pdf_cache_object, hx, hofs,
    false_and]

theorem pdf_open_filter_no_filter (doc : pdf_document) (num : Int)
    (params : Option fz_compression_params) (c : fz_context)
    (hc : doc.crypt = none) (h0 : 0 < num) (h1 : num < pdf_xref_len doc)
    (hbuf : (pdf_get_xref_entry doc num).stm_buf = none)
    (hf : pdf_dict_geta (pdf_get_xref_entry doc num).obj "Filter" "F" = none ∨
      pdf_is_null (pdf_dict_geta (pdf_get_xref_entry doc num).obj "Filter" "F") = true ∨
      RESOLVE (pdf_dict_geta (pdf_get_xref_entry doc num).obj "Filter" "F") =
        some (.array [])) :
    pdf_open_filter doc doc.file (pdf_get_xref_entry doc num).obj num
        (pdf_get_xref_entry doc num).stm_ofs params c =
      (.ok (.null doc.file
          (pdf_to_int (pdf_dict_get (pdf_get_xref_entry doc num).obj "Length"))
          (pdf_get_xref_entry doc num).stm_ofs, params),
        { c with kept := c.kept ++ [doc.file] }) := by
  have hraw := pdf_open_raw_filter_uncached doc.file doc
    (pdf_get_xref_entry doc num).obj num (pdf_get_xref_entry doc num).stm_ofs c h0 h1 hbuf
  obtain ⟨hn, hl⟩ := no_filter_cases _ hf
  rw [pdf_open_filter_run doc doc.file _ num _ params c _ _ _ _ hraw, hn, hl, hc]
  rfl

/-- C19. Empty or null filter chain: for an in-range stream object of an
unencrypted document, read from the file (`stm_ofs != 0`, no cached buffer),
whose Filter/F is absent, the null object or an empty array,
`pdf_open_stream_number` returns exactly the view of `Length` bytes at
`stm_ofs` over the kept file, with no decoder stage, and so does
`pdf_open_raw_stream_number`; and for every reader, loading the stream decoded
and loading it raw both read that view with initial size `Length` and drop
it. -/
theorem empty_filter_chain (rd : fz_reader) (doc : pdf_document) (num : Int) (c : fz_context)
    (hc : doc.crypt = none) (h0 : 0 < num) (h1 : num < pdf_xref_len doc)
    (hx : doc.cache_object num = .ok (pdf_get_xref_entry doc num))
    (hofs : (pdf_get_xref_entry doc num).stm_ofs ≠ 0)
    (hbuf : (pdf_get_xref_entry doc num).stm_buf = none)
    (hf : pdf_dict_geta (pdf_get_xref_entry doc num).obj "Filter" "F" = none ∨
      pdf_is_null (pdf_dict_geta (pdf_get_xref_entry doc num).obj "Filter" "F") = true ∨
      RESOLVE (pdf_dict_geta (pdf_get_xref_entry doc num).obj "Filter" "F") =
        some (.array [])) :
    pdf_open_stream_number doc num c =
      (.ok (.null doc.file
          (pdf_to_int (pdf_dict_get (pdf_get_xref_entry doc num).obj "Length"))
          (pdf_get_xref_entry doc num).stm_ofs),
        { c with kept := c.kept ++ [doc.file] }) ∧
    pdf_open_raw_stream_number doc num c =
      (.ok (.null doc.file
          (pdf_to_int (pdf_dict_get (pdf_get_xref_entry doc num).obj "Length"))
          (pdf_get_xref_entry doc num).stm_ofs),
        { c with kept := c.kept ++ [doc.file] }) ∧
    pdf_load_stream_number rd doc num c =
      fz_try_always
        (rd.read_all
          (.null doc.file
            (pdf_to_int (pdf_dict_get (pdf_get_xref_entry doc num).obj "Length"))
            (pdf_get_xref_entry doc num).stm_ofs)
          (pdf_to_int (pdf_dict_get (pdf_get_xref_entry doc num).obj "Length")))
        (fz_drop_stream (some (.null doc.file
          (pdf_to_int (pdf_dict_get (pdf_get_xref_entry doc num).obj "Length"))
          (pdf_get_xref_entry doc num).stm_ofs)))
        { c with kept := c.kept ++ [doc.file] } ∧
    pdf_load_raw_stream_number rd doc num c =
      fz_try_always
        (rd.read_all
          (.null doc.file
            (pdf_to_int (pdf_dict_get (pdf_get_xref_entry doc num).obj "Length"))
            (pdf_get_xref_entry doc num).stm_ofs)
          (pdf_to_int (pdf_dict_get (pdf_get_xref_entry doc num).obj "Length")))
        (fz_drop_stream (some (.null doc.file
          (pdf_to_int (pdf_dict_get (pdf_get_xref_entry doc num).obj "Length"))
          (pdf_get_xref_entry doc num).stm_ofs)))
        { c with kept := c.kept ++ [doc.file] } := by
  have hopen := fun params => pdf_open_filter_no_filter doc num params c hc h0 h1 hbuf hf
  have hraw := pdf_open_raw_filter_uncached doc.file doc
    (pdf_get_xref_entry doc num).obj num (pdf_get_xref_entry doc num).stm_ofs c h0 h1 hbuf
  have hrawnum : pdf_open_raw_stream_number doc num c =
      (.ok (.null doc.file
          (pdf_to_int (pdf_dict_get (pdf_get_xref_entry doc num).obj "Length"))
          (pdf_get_xref_entry doc num).stm_ofs),
        { c with kept := c.kept ++ [doc.file] }) := by
    rw [pdf_open_raw_stream_number_run doc num c h0 h1 hx hofs, hraw, hc]
  have hr : num > 0 ∧ num < pdf_xref_len doc := ⟨h0, h1⟩
  obtain ⟨hn, hl⟩ := no_filter_cases _ hf
  refine ⟨?_, hrawnum, ?_, ?_⟩
  · rw [pdf_open_stream_number_run doc num c h0 h1 hx hofs, hopen none]
  · have hreuse : can_reuse_buffer (some (pdf_get_xref_entry doc num)) none = (false, none) :=
      can_reuse_buffer_no_buffer _ none hbuf
    simp only [pdf_load_stream_number, pdf_load_image_stream, hr, and_self, if_true, hreuse,
      hbuf, run_bind, pdf_load_image_stream_read, pdf_load_object, pdf_cache_object, hx,
      run_pure, no_filter_guess _ _ hn hl,
      pdf_open_image_stream_run doc num none c h0 h1 hx hofs, hopen none,
      run_try_always_drop]
    rcases rd.read_all _ _ _ with ⟨r, c1⟩
    cases r <;> rfl
  · simp only [pdf_load_raw_stream_number, hr, and_self, if_true, hbuf,
      pdf_load_raw_stream_number_read, run_bind, pdf_load_object, pdf_cache_object, hx,
      run_pure, hrawnum]

/-- Witness of C19, scenario S1: object 1 of `doc_plain` is `{Length 5}` at
offset 100; over a file holding `hello` there, it opens as the bare five-byte
view and loads as `hello` both decoded and raw. -/
theorem empty_filter_chain_witness :
    pdf_open_stream_number doc_plain 1 ctx_empty =
      (.ok (.null (.source 0) 5 100), { ctx_empty with kept := [.source 0] }) ∧
    pdf_load_stream_number
        (reader_file (List.replicate 100 0 ++ [104, 101, 108, 108, 111]) 0) doc_plain 1
        ctx_empty =
      (.ok ⟨[104, 101, 108, 108, 111]⟩,
        { ctx_empty with kept := [.source 0], dropped := [.null (.source 0) 5 100] }) ∧
    pdf_load_raw_stream_number
        (reader_file (List.replicate 100 0 ++ [104, 101, 108, 108, 111]) 0) doc_plain 1
        ctx_empty =
      (.ok ⟨[104, 101, 108, 108, 111]⟩,
        { ctx_empty with kept := [.source 0], dropped := [.null (.source 0) 5 100] }) :=
  ⟨(empty_filter_chain (reader_file [] 0) doc_plain 1 ctx_empty rfl (by decide) (by decide)
      rfl (by decide) rfl (Or.inl rfl)).1,
   (empty_filter_chain (reader_file (List.replicate 100 0 ++ [104, 101, 108, 108, 111]) 0)
      doc_plain 1 ctx_empty rfl (by decide) (by decide) rfl (by decide) rfl
      (Or.inl rfl)).2.2.1.trans rfl,
   (empty_filter_chain (reader_file (List.replicate 100 0 ++ [104, 101, 108, 108, 111]) 0)
      doc_plain 1 ctx_empty rfl (by decide) (by decide) rfl (by decide) rfl
      (Or.inl rfl)).2.2.2.trans rfl⟩

/-- C20. Inline stream without filters: when Filter/F of the inline dictionary
is absent, the null object or an empty array, `pdf_open_inline_stream` keeps
the caller's chain and asks it for its position; if `fz_tell` gives `offset`
it returns the view of `length` bytes at `offset` over the chain and leaves a
supplied out-descriptor Raw; if `fz_tell` throws, it drops the kept chain and
throws the same error. -/
theorem inline_without_filters (rd : fz_reader) (doc : pdf_document) (stmobj : Option pdf_obj)
    (length : Int) (chain : fz_stream) (imparams : Option fz_compression_params)
    (c : fz_context)
    (hf : pdf_dict_geta stmobj "Filter" "F" = none ∨
      pdf_is_null (pdf_dict_geta stmobj "Filter" "F") = true ∨
      RESOLVE (pdf_dict_geta stmobj "Filter" "F") = some (.array [])) :
    (∀ offset c1, rd.tell chain { c with kept := c.kept ++ [chain] } = (.ok offset, c1) →
      pdf_open_inline_stream rd doc stmobj length chain imparams c =
        (.ok (.null chain length offset,
          imparams.map (fun _ => fz_compression_params.FZ_IMAGE_RAW)), c1)) ∧
    (∀ e c1, rd.tell chain { c with kept := c.kept ++ [chain] } = (.error e, c1) →
      pdf_open_inline_stream rd doc stmobj length chain imparams c =
        (.error e, { c1 with dropped := c1.dropped ++ [chain] })) := by
  obtain ⟨hn, hl⟩ := no_filter_cases _ hf
  constructor
  · intro offset c1 ht
    simp [pdf_open_inline_stream, fz_keep_stream, hn, hl, fz_try_catch, ht]
  · intro e c1 ht
    simp [pdf_open_inline_stream, fz_keep_stream, hn, hl, fz_try_catch, ht, fz_drop_stream,
      fz_rethrow]

/-- Witness of C20: an inline dictionary without Filter, length 7, on a chain
standing at position 42 gives the seven-byte view at 42 and a Raw descriptor;
with a failing `fz_tell` the chain is kept, dropped, and the error thrown. -/
theorem inline_without_filters_witness :
    pdf_open_inline_stream (reader_file [] 42) doc_plain (some (.dict [])) 7 (.source 3)
        (some .FZ_IMAGE_RLD) ctx_empty =
      (.ok (.null (.source 3) 7 42, some .FZ_IMAGE_RAW),
        { ctx_empty with kept := [.source 3] }) ∧
    pdf_open_inline_stream reader_broken doc_plain (some (.dict [])) 7 (.source 3)
        (some .FZ_IMAGE_RLD) ctx_empty =
      (.error ⟨.FZ_ERROR_GENERIC, "cannot tell"⟩,
        { ctx_empty with kept := [.source 3], dropped := [.source 3] }) :=
  ⟨(inline_without_filters (reader_file [] 42) doc_plain (some (.dict [])) 7 (.source 3)
      (some .FZ_IMAGE_RLD) ctx_empty (Or.inl rfl)).1 42 _ rfl,
   (inline_without_filters reader_broken doc_plain (some (.dict [])) 7 (.source 3)
      (some .FZ_IMAGE_RLD) ctx_empty (Or.inl rfl)).2 _ _ rfl⟩

/-! ## Inline streams with filters -/

/-- C21. Inline stream with filters: when Filter/F of the inline dictionary is
a name, `pdf_open_inline_stream` keeps the caller's chain and returns exactly
what `build_filter` returns for that chain, the filter, the DecodeParms/DP
entry, object number 0, generation 0 and the caller's out-descriptor; when it
is a non-empty array, exactly what `build_filter_chain` returns for them. No
view and no decryption stage is put under the builder, whatever the document,
and the result is the same for every `length` and every reader. -/
theorem inline_with_filters (rd : fz_reader) (doc : pdf_document) (stmobj : Option pdf_obj)
    (length : Int) (chain : fz_stream) (imparams : Option fz_compression_params)
    (c : fz_context) :
    (pdf_is_name (pdf_dict_geta stmobj "Filter" "F") = true →
      pdf_open_inline_stream rd doc stmobj length chain imparams c =
        build_filter chain doc (pdf_dict_geta stmobj "Filter" "F")
          (pdf_dict_geta stmobj "DecodeParms" "DP") 0 0 imparams
          { c with kept := c.kept ++ [chain] }) ∧
    (∀ x xs, RESOLVE (pdf_dict_geta stmobj "Filter" "F") = some (.array (x :: xs)) →
      pdf_open_inline_stream rd doc stmobj length chain imparams c =
        build_filter_chain chain doc (pdf_dict_geta stmobj "Filter" "F")
          (pdf_dict_geta stmobj "DecodeParms" "DP") 0 0 imparams
          { c with kept := c.kept ++ [chain] }) ∧
    ((pdf_is_name (pdf_dict_geta stmobj "Filter" "F") = true ∨
        ∃ x xs, RESOLVE (pdf_dict_geta stmobj "Filter" "F") = some (.array (x :: xs))) →
      ∀ (rd2 : fz_reader) (length2 : Int),
        pdf_open_inline_stream rd2 doc stmobj length2 chain imparams c =
          pdf_open_inline_stream rd doc stmobj length chain imparams c) := by
  have hname : ∀ (r : fz_reader) (l : Int),
      pdf_is_name (pdf_dict_geta stmobj "Filter" "F") = true →
      pdf_open_inline_stream r doc stmobj l chain imparams c =
        build_filter chain doc (pdf_dict_geta stmobj "Filter" "F")
          (pdf_dict_geta stmobj "DecodeParms" "DP") 0 0 imparams
          { c with kept := c.kept ++ [chain] } := by
    intro r l hn
    simp [pdf_open_inline_stream, fz_keep_stream, hn]
  have harr : ∀ (r : fz_reader) (l : Int) x xs,
      RESOLVE (pdf_dict_geta stmobj "Filter" "F") = some (.array (x :: xs)) →
      pdf_open_inline_stream r doc stmobj l chain imparams c =
        build_filter_chain chain doc (pdf_dict_geta stmobj "Filter" "F")
          (pdf_dict_geta stmobj "DecodeParms" "DP") 0 0 imparams
          { c with kept := c.kept ++ [chain] } := by
    intro r l x xs hf
    have hn : pdf_is_name (pdf_dict_geta stmobj "Filter" "F") = false := by
      simp [pdf_is_name, hf]
    have hl : pdf_array_len (pdf_dict_geta stmobj "Filter" "F") > 0 := by
      simp only [pdf_array_len, hf, List.length_cons]
      push_cast
      omega
    simp [pdf_open_inline_stream, fz_keep_stream, hn, hl]
  refine ⟨hname rd length, harr rd length, ?_⟩
  rintro (hn | ⟨x, xs, hf⟩) rd2 length2
  · rw [hname rd2 length2 hn, hname rd length hn]
  · rw [harr rd2 length2 x xs hf, harr rd length x xs hf]

/-- Witness of C21 in the encrypted document: an inline `/DCTDecode` image with
an out-descriptor gets the chain back untouched (short-stop) with the Jpeg
descriptor, and `[/ASCIIHexDecode /FlateDecode]` without one gets Flate over
ASCII-hex over the chain; the length plays no part. -/
theorem inline_with_filters_witness :
    pdf_open_inline_stream reader_broken doc_encrypted
        (some (.dict [("F", .name "DCTDecode")])) 7 (.source 3) (some .FZ_IMAGE_RLD)
        ctx_empty =
      (.ok (.source 3, some (.FZ_IMAGE_JPEG (-1))), { ctx_empty with kept := [.source 3] }) ∧
    pdf_open_inline_stream reader_broken doc_encrypted
        (some (.dict [("Filter", .array [.name "ASCIIHexDecode", .name "FlateDecode"])])) 7
        (.source 3) none ctx_empty =
      (.ok (.image_decomp (.ahxd (.source 3)) (.FZ_IMAGE_FLATE 0 0 0 0), none),
        { ctx_empty with kept := [.source 3] }) ∧
    pdf_open_inline_stream (reader_file [] 0) doc_encrypted
        (some (.dict [("F", .name "DCTDecode")])) 99 (.source 3) (some .FZ_IMAGE_RLD)
        ctx_empty =
      pdf_open_inline_stream reader_broken doc_encrypted
        (some (.dict [("F", .name "DCTDecode")])) 7 (.source 3) (some .FZ_IMAGE_RLD)
        ctx_empty :=
  ⟨((inline_with_filters reader_broken doc_encrypted
      (some (.dict [("F", .name "DCTDecode")])) 7 (.source 3) (some .FZ_IMAGE_RLD)
      ctx_empty).1 rfl).trans rfl,
   ((inline_with_filters reader_broken doc_encrypted
      (some (.dict [("Filter", .array [.name "ASCIIHexDecode", .name "FlateDecode"])])) 7
      (.source 3) none ctx_empty).2.1 _ _ rfl).trans rfl,
   (inline_with_filters reader_broken doc_encrypted
      (some (.dict [("F", .name "DCTDecode")])) 7 (.source 3) (some .FZ_IMAGE_RLD)
      ctx_empty).2.2 (Or.inl rfl) (reader_file [] 0) 99⟩

/-! ## Content-stream arrays -/

theorem pdf_open_object_array_loop_eq (doc : pdf_document) (list : Option pdf_obj) (n : Int)
    (suf pre rest : List pdf_obj) (parts : List fz_stream)
    (h : RESOLVE list = some (.array (pre ++ suf ++ rest))) :
    pdf_open_object_array_loop doc list n suf.length (pre.length : Int) parts =
      (suf.enumFrom pre.length).foldlM
        (fun parts x => ((fun c =>
          match pdf_open_stream doc (some x.2) c with
          | (.ok stm, c1) => (.ok (parts ++ [stm]), c1)
          | (.error e, c1) =>
            if e.code = .FZ_ERROR_TRYLATER then
              (.error e, { c1 with dropped := c1.dropped ++ [.concat parts] })
            else
              (.ok parts, { c1 with warnings := c1.warnings ++
                ["cannot load content stream part " ++ toString ((x.1 : Int) + 1) ++ "/" ++
                  toString n] })) : FzM (List fz_stream))) parts := by
  induction suf generalizing pre parts with
  | nil => rfl
  | cons x suf ih =>
    have hx : pdf_array_get list (pre.length : Int) = some x :=
      pdf_array_get_append list pre (suf ++ rest) x (by simpa using h)
    have h2 : RESOLVE list = some (.array ((pre ++ [x]) ++ suf ++ rest)) := by simpa using h
    have hlen : ((pre.length : Int) + 1) = ((pre ++ [x]).length : Int) := by simp
    have ih2 := fun parts => ih (pre ++ [x]) parts h2
    simp only [List.length_append, List.length_singleton] at ih2
    funext c
    simp only [List.length_cons, pdf_open_object_array_loop, hx, List.enumFrom_cons,
      List.foldlM_cons, run_bind, fz_try_catch, run_pure]
    rcases pdf_open_stream doc (some x) c with ⟨r, c1⟩
    cases r with
    | ok stm =>
      simp only []
      rw [hlen, ← ih2]
      simp
    | error e =>
      simp only []
      by_cases ht : e.code = .FZ_ERROR_TRYLATER
      · simp [ht, fz_drop_stream, fz_rethrow]
      · simp only [ht, if_false, run_bind, fz_warn, run_pure]
        rw [hlen, ← ih2]
        simp

/-- C22. Content-stream arrays: `pdf_open_object_array` goes through the
elements in array order, each once, starting with no streams pushed: an
element whose `pdf_open_stream` succeeds has its stream pushed after the ones
before it; an element whose open throws an error other than try-later is
skipped with the warning 'cannot load content stream part i+1/n' and the
following elements are still opened; the first element whose open throws
try-later makes the whole call throw that error (after dropping the
concatenation stage). If no try-later occurs the result is the concatenation
stage of the pushed streams. -/
theorem content_stream_array (doc : pdf_document) (list : Option pdf_obj) (l : List pdf_obj)
    (h : RESOLVE list = some (.array l)) :
    pdf_open_object_array doc list =
      l.enum.foldlM
          (fun parts x => ((fun c =>
            match pdf_open_stream doc (some x.2) c with
            | (.ok stm, c1) => (.ok (parts ++ [stm]), c1)
            | (.error e, c1) =>
              if e.code = .FZ_ERROR_TRYLATER then
                (.error e, { c1 with dropped := c1.dropped ++ [.concat parts] })
              else
                (.ok parts, { c1 with warnings := c1.warnings ++
                  ["cannot load content stream part " ++ toString ((x.1 : Int) + 1) ++ "/" ++
                    toString (l.length : Int)] })) : FzM (List fz_stream))) [] >>=
        fun parts => pure (.concat parts) := by
  have hn : pdf_array_len list = (l.length : Int) := by simp [pdf_array_len, h]
  have hloop := pdf_open_object_array_loop_eq doc list (l.length : Int) l [] [] []
    (by simpa using h)
  simp only [List.length_nil, Nat.cast_zero] at hloop
  funext c
  simp only [pdf_open_object_array, hn, Int.toNat_ofNat, run_bind, hloop, List.enum]

/-- Witness of C22, scenario S5: `[10 0 R, 11 0 R, 12 0 R]` where loading
object 11 throws a generic error gives the concatenation of streams 10 and 12
and the warning for part 2/3; where it throws try-later the whole call throws
try-later, dropping the stage that held stream 10. -/
theorem content_stream_array_witness :
    pdf_open_object_array (doc_contents .FZ_ERROR_GENERIC) (some contents_array) ctx_empty =
      (.ok (.concat [.null (.source 0) 3 100, .null (.source 0) 4 200]),
        { ctx_empty with
          kept := [.source 0, .source 0]
          warnings := ["cannot load content stream part 2/3"] }) ∧
    pdf_open_object_array (doc_contents .FZ_ERROR_TRYLATER) (some contents_array) ctx_empty =
      (.error ⟨.FZ_ERROR_TRYLATER, "cannot load object"⟩,
        { ctx_empty with
          kept := [.source 0]
          dropped := [.concat [.null (.source 0) 3 100]] }) :=
  ⟨(congrFun (content_stream_array (doc_contents .FZ_ERROR_GENERIC) (some contents_array)
      [.indirect 10 0 none, .indirect 11 0 none, .indirect 12 0 none] rfl) ctx_empty).trans
      rfl,
   (congrFun (content_stream_array (doc_contents .FZ_ERROR_TRYLATER) (some contents_array)
      [.indirect 10 0 none, .indirect 11 0 none, .indirect 12 0 none] rfl) ctx_empty).trans
      rfl⟩

/-! ## The size heuristic -/

theorem c_int_of_range (x : Int) (h0 : -2147483648 ≤ x) (h1 : x < 2147483648) :
    c_int x = x := by
  unfold c_int
  omega

theorem pdf_load_image_stream_read_run (rd : fz_reader) (doc : pdf_document) (num : Int)
    (params : Option fz_compression_params) (truncated : Option Bool) (c : fz_context)
    (x : pdf_xref_entry) (hx : doc.cache_object num = .ok x) :
    pdf_load_image_stream_read rd doc num params truncated c =
      (pdf_open_image_stream doc num params >>= fun r =>
        fz_try_always
          (match truncated with
            | some _ => do
              let (buf, t) ← rd.read_best r.1
                (pdf_guess_loop (pdf_dict_get x.obj "Filter")
                  (pdf_array_len (pdf_dict_get x.obj "Filter")).toNat 0
                  (pdf_guess_filter_length (pdf_to_int (pdf_dict_get x.obj "Length"))
                    (pdf_to_name (pdf_dict_get x.obj "Filter"))))
              pure (buf, r.2, some t)
            | none => do
              let buf ← rd.read_all r.1
                (pdf_guess_loop (pdf_dict_get x.obj "Filter")
                  (pdf_array_len (pdf_dict_get x.obj "Filter")).toNat 0
                  (pdf_guess_filter_length (pdf_to_int (pdf_dict_get x.obj "Length"))
                    (pdf_to_name (pdf_dict_get x.obj "Filter"))))
              pure (buf, r.2, none))
          (fz_drop_stream (some r.1))) c := by
  simp only [pdf_load_image_stream_read, pdf_load_object, pdf_cache_object, run_bind, hx,
    run_pure]

theorem pdf_guess_filter_length_bounds (len : Int) (f : String) (h0 : 0 ≤ len)
    (h1 : len * 4 < 2147483648) :
    0 ≤ pdf_guess_filter_length len f ∧ pdf_guess_filter_length len f ≤ len * 3 := by
  have e4 : c_int (len * 4) = len * 4 := c_int_of_range _ (by omega) h1
  have e3 : c_int (len * 3) = len * 3 := c_int_of_range _ (by omega) (by omega)
  have e2 : c_int (len * 2) = len * 2 := c_int_of_range _ (by omega) (by omega)
  have d2 : Int.tdiv len 2 = len / 2 := Int.tdiv_eq_ediv h0 (by decide)
  have d5 : Int.tdiv (len * 4) 5 = len * 4 / 5 := Int.tdiv_eq_ediv (by omega) (by decide)
  unfold pdf_guess_filter_length
  rw [e4, e3, e2, d2, d5]
  split_ifs <;> omega

/-- Within the range where no step can overflow, the estimate is not
negative: `Length` in `0 ≤ L` with `L * 4 ^ n` below `2 ^ 31` for `n` filter
names. -/
theorem size_estimate_nonneg_in_range (fs : List String) (len : Int) (h0 : 0 ≤ len)
    (h1 : len * 4 ^ fs.length < 2147483648) :
    0 ≤ fs.foldl pdf_guess_filter_length len := by
  induction fs generalizing len with
  | nil => simpa using h0
  | cons f fs ih =>
    have hp : (0 : Int) < 4 ^ fs.length := by positivity
    have hq : (1 : Int) ≤ 4 ^ fs.length := hp
    have h4 : len * 4 < 2147483648 := by
      have : len * 4 * 1 ≤ len * 4 * 4 ^ fs.length :=
        mul_le_mul_of_nonneg_left hq (by omega)
      have e : len * 4 ^ (f :: fs).length = len * 4 * 4 ^ fs.length := by
        simp only [List.length_cons, pow_succ]
        ring
      omega
    obtain ⟨b0, b1⟩ := pdf_guess_filter_length_bounds len f h0 h4
    simp only [List.foldl_cons]
    apply ih _ b0
    have e : len * 4 ^ (f :: fs).length = len * 4 * 4 ^ fs.length := by
      simp only [List.length_cons, pow_succ]
      ring
    have : pdf_guess_filter_length len f * 4 ^ fs.length ≤ len * 4 * 4 ^ fs.length :=
      mul_le_mul_of_nonneg_right (by omega) (le_of_lt hp)
    omega

/-- C30. The size estimate can go negative: for `Length 1073741824` (below
`2 ^ 31`) and `Filter /FlateDecode` the step `len * 3` wraps to `-1073741824`,
and that is the initial size `pdf_load_image_stream` reads with. -/
theorem size_estimate_wraps_negative :
    0 ≤ (1073741824 : Int) ∧ (1073741824 : Int) < 2 ^ 31 ∧
    pdf_guess_filter_length 1073741824 "FlateDecode" = -1073741824 ∧
    pdf_load_image_stream_read reader_hint doc_huge 1 none none ctx_empty =
      (.error ⟨.FZ_ERROR_GENERIC, "initial size -1073741824"⟩,
        { ctx_empty with
          kept := [.source 0]
          dropped := [.image_decomp (.null (.source 0) 1073741824 60)
            (.FZ_IMAGE_FLATE 0 0 0 0)] }) :=
  ⟨by decide, by decide, by decide, by rfl⟩

/-! ## A single `DecodeParms` dictionary -/

theorem pdf_array_get_not_array (ps : Option pdf_obj) (h : pdf_is_array ps = false) (i : Int) :
    pdf_array_get ps i = none := by
  unfold pdf_is_array at h
  unfold pdf_array_get
  split <;> simp_all

theorem build_filter_chain_loop_no_params (doc : pdf_document) (fs ps : Option pdf_obj)
    (num gen n : Int) (h : pdf_is_array ps = false) (k : Nat) (i : Int)
    (acc : fz_stream × Option fz_compression_params) :
    build_filter_chain_loop doc fs ps num gen n k i acc =
      build_filter_chain_loop doc fs none num gen n k i acc := by
  induction k generalizing i acc with
  | zero => rfl
  | succ k ih =>
    obtain ⟨chain, params⟩ := acc
    have hnone : pdf_array_get none i = none := rfl
    simp only [build_filter_chain_loop, pdf_array_get_not_array ps h, hnone, ih]

theorem build_filter_chain_no_params (chain : fz_stream) (doc : pdf_document)
    (fs ps : Option pdf_obj) (num gen : Int) (params : Option fz_compression_params)
    (h : pdf_is_array ps = false) :
    build_filter_chain chain doc fs ps num gen params =
      build_filter_chain chain doc fs none num gen params := by
  simp only [build_filter_chain, build_filter_chain_loop_no_params doc fs ps num gen _ h]

/-- Counterexample to C24 as stated: with `Filter [/FlateDecode]` and the
single dictionary `DecodeParms <</Predictor 12>>`, the Flate stage is built
with no parameter dictionary (predictor 0), not with the dictionary
(predictor 12), which is what the same dictionary gives under the single name
`Filter /FlateDecode`. -/
theorem decode_parms_dictionary_counterexample :
    pdf_open_filter doc_plain (.source 0) (some stm_flate_single_parms) 1 100 none ctx_empty =
      (.ok (.image_decomp (.null (.source 0) 20 100) (.FZ_IMAGE_FLATE 0 0 0 0), none),
        { ctx_empty with kept := [.source 0] }) ∧
    pdf_open_filter doc_plain (.source 0)
        (some (.dict [("Length", .int 20), ("Filter", .name "FlateDecode"),
          ("DecodeParms", .dict [("Predictor", .int 12)])])) 1 100 none ctx_empty =
      (.ok (.image_decomp (.null (.source 0) 20 100) (.FZ_IMAGE_FLATE 12 0 0 0), none),
        { ctx_empty with kept := [.source 0] }) ∧
    fz_compression_params.FZ_IMAGE_FLATE 0 0 0 0 ≠ .FZ_IMAGE_FLATE 12 0 0 0 :=
  ⟨rfl, rfl, by decide⟩

/-- C24, amended. When `DecodeParms`/`DP` is not an array (a single
dictionary, or absent), every element read from it is `NULL`, so
`build_filter_chain` builds every filter of a `Filter` array without a
parameter dictionary, exactly as if there were no `DecodeParms`; this is what
`pdf_open_filter` does for any `Filter` array. The entry is handed to the
builder as the parameter dictionary only when `Filter` is a single name. -/
theorem decode_parms_dictionary_not_applied (doc : pdf_document) (chain : fz_stream)
    (stmobj : Option pdf_obj) (num offset : Int) (imparams : Option fz_compression_params)
    (hps : pdf_is_array (pdf_dict_geta stmobj "DecodeParms" "DP") = false) :
    (∀ i, pdf_array_get (pdf_dict_geta stmobj "DecodeParms" "DP") i = none) ∧
    (∀ (base : fz_stream) (fs : Option pdf_obj) (orig_num orig_gen : Int)
        (params : Option fz_compression_params),
      build_filter_chain base doc fs (pdf_dict_geta stmobj "DecodeParms" "DP") orig_num
          orig_gen params =
        build_filter_chain base doc fs none orig_num orig_gen params) ∧
    (pdf_is_array (pdf_dict_geta stmobj "Filter" "F") = true →
      pdf_open_filter doc chain stmobj num offset imparams =
        (pdf_open_raw_filter chain doc stmobj num offset >>= fun r =>
          build_filter_chain r.1 doc (pdf_dict_geta stmobj "Filter" "F") none r.2.1 r.2.2
            imparams)) ∧
    (pdf_is_name (pdf_dict_geta stmobj "Filter" "F") = true →
      pdf_open_filter doc chain stmobj num offset imparams =
        (pdf_open_raw_filter chain doc stmobj num offset >>= fun r =>
          build_filter r.1 doc (pdf_dict_geta stmobj "Filter" "F")
            (pdf_dict_geta stmobj "DecodeParms" "DP") r.2.1 r.2.2 imparams)) := by
  refine ⟨pdf_array_get_not_array _ hps, ?_, ?_, ?_⟩
  · intro base fs orig_num orig_gen params
    exact build_filter_chain_no_params base doc fs _ orig_num orig_gen params hps
  · intro hfs
    have hn : pdf_is_name (pdf_dict_geta stmobj "Filter" "F") = false := by
      unfold pdf_is_array at hfs
      unfold pdf_is_name
      split <;> simp_all
    funext c
    simp only [pdf_open_filter, run_bind, fz_try_catch_rethrow_none, hn]
    rcases pdf_open_raw_filter chain doc stmobj num offset c with ⟨r, c1⟩
    cases r with
    | error e => rfl
    | ok r =>
      obtain ⟨base, orig_num, orig_gen⟩ := r
      simp only [Bool.false_eq_true, if_false]
      by_cases hl : pdf_array_len (pdf_dict_geta stmobj "Filter" "F") > 0
      · simp only [hl, if_true]
        exact congrFun (build_filter_chain_no_params base doc _ _ orig_num orig_gen imparams
          hps) c1
      · have h0 : pdf_array_len (pdf_dict_geta stmobj "Filter" "F") = 0 := by
          have : 0 ≤ pdf_array_len (pdf_dict_geta stmobj "Filter" "F") := by
            unfold pdf_array_len
            split <;> simp
          omega
        simp only [hl, if_false, build_filter_chain, fz_try_catch_rethrow_none, h0,
          Int.toNat_zero, build_filter_chain_loop]
        simp
  · intro hn
    funext c
    simp only [pdf_open_filter, run_bind, fz_try_catch_rethrow_none, hn, if_true]

/-- Witness of the amended C24 on the stream of the counterexample. -/
theorem decode_parms_dictionary_not_applied_witness :
    pdf_is_array (pdf_dict_geta (some stm_flate_single_parms) "DecodeParms" "DP") = false ∧
    pdf_open_filter doc_plain (.source 0) (some stm_flate_single_parms) 1 100
        (some .FZ_IMAGE_RLD) ctx_empty =
      (.ok (.null (.source 0) 20 100, some (.FZ_IMAGE_FLATE 0 0 0 0)),
        { ctx_empty with kept := [.source 0] }) :=
  ⟨rfl,
   (congrFun ((decode_parms_dictionary_not_applied doc_plain (.source 0)
      (some stm_flate_single_parms) 1 100 (some .FZ_IMAGE_RLD) rfl).2.2.1 rfl)
      ctx_empty).trans rfl⟩

/-! ## A Crypt filter without a usable name -/

/-- C29. Crypt filter without a usable Name: in an encrypted document, for a
stream read from the file (no cached buffer) whose Filter/F is the name Crypt
and whose parameters have no name-valued Name entry, `build_filter` gives its
upstream back with no stage added, no error and no warning, raw framing
leaves out the default decryption stage because the stream has an explicit
Crypt filter, and so `pdf_open_filter` returns the bare length-bounded view
of the file: no decryption stage at all. -/
theorem crypt_without_name (doc : pdf_document) (chain : fz_stream) (stmobj : Option pdf_obj)
    (num offset : Int) (imparams : Option fz_compression_params) (c : fz_context)
    (crypt : pdf_crypt) (hc : doc.crypt = some crypt)
    (hfile : ¬ (0 < num ∧ num < pdf_xref_len doc) ∨
      (pdf_get_xref_entry doc num).stm_buf = none)
    (hf : pdf_dict_geta stmobj "Filter" "F" = some (.name "Crypt"))
    (hname :
      pdf_is_name (pdf_dict_get (pdf_dict_geta stmobj "DecodeParms" "DP") "Name") = false) :
    (∀ (U : fz_stream) (n g : Int) (c1 : fz_context),
      build_filter U doc (pdf_dict_geta stmobj "Filter" "F")
          (pdf_dict_geta stmobj "DecodeParms" "DP") n g imparams c1 =
        (.ok (U, imparams.map (fun _ => fz_compression_params.FZ_IMAGE_RAW)), c1)) ∧
    pdf_stream_has_crypt stmobj = true ∧
    (∃ orig_num orig_gen,
      pdf_open_raw_filter chain doc stmobj num offset c =
        (.ok (.null chain (pdf_to_int (pdf_dict_get stmobj "Length")) offset,
          orig_num, orig_gen), { c with kept := c.kept ++ [chain] })) ∧
    pdf_open_filter doc chain stmobj num offset imparams c =
      (.ok (.null chain (pdf_to_int (pdf_dict_get stmobj "Length")) offset,
          imparams.map (fun _ => fz_compression_params.FZ_IMAGE_RAW)),
        { c with kept := c.kept ++ [chain] }) := by
  have hh : pdf_stream_has_crypt stmobj = true := by
    rw [pdf_stream_has_crypt_iff]
    left
    rw [hf]
    rfl
  have hb : ∀ (U : fz_stream) (n g : Int) (c1 : fz_context),
      build_filter U doc (pdf_dict_geta stmobj "Filter" "F")
          (pdf_dict_geta stmobj "DecodeParms" "DP") n g imparams c1 =
        (.ok (U, imparams.map (fun _ => fz_compression_params.FZ_IMAGE_RAW)), c1) := by
    intro U n g c1
    rw [hf]
    exact build_filter_crypt_unnamed U doc crypt _ n g imparams c1 hc hname
  obtain ⟨orig_num, orig_gen, hraw⟩ :=
    pdf_open_raw_filter_explicit_crypt chain doc stmobj num offset c hfile hh
  refine ⟨hb, hh, ⟨orig_num, orig_gen, hraw⟩, ?_⟩
  have hn : pdf_is_name (pdf_dict_geta stmobj "Filter" "F") = true := by
    rw [hf]
    rfl
  rw [pdf_open_filter_run doc chain stmobj num offset imparams c _ _ orig_num orig_gen hraw]
  simp only [hn, if_true]
  exact hb _ _ _ _

/-- Witness of C29: object 1 of the encrypted document with `Filter /Crypt`
and no `DecodeParms`, and with a `Name` that is a string: the pipeline is the
five-byte view of the file at offset 100 and nothing else. -/
theorem crypt_without_name_witness :
    pdf_open_filter doc_encrypted (.source 0)
        (some (.dict [("Length", .int 5), ("Filter", .name "Crypt")])) 1 100 none ctx_empty =
      (.ok (.null (.source 0) 5 100, none), { ctx_empty with kept := [.source 0] }) ∧
    pdf_open_filter doc_encrypted (.source 0)
        (some (.dict [("Length", .int 5), ("Filter", .name "Crypt"),
          ("DecodeParms", .dict [("Name", .string "Identity")])])) 1 100
        (some .FZ_IMAGE_RLD) ctx_empty =
      (.ok (.null (.source 0) 5 100, some .FZ_IMAGE_RAW),
        { ctx_empty with kept := [.source 0] }) :=
  ⟨(crypt_without_name doc_encrypted (.source 0)
      (some (.dict [("Length", .int 5), ("Filter", .name "Crypt")])) 1 100 none ctx_empty
      ⟨1⟩ rfl (Or.inr rfl) rfl rfl).2.2.2,
   (crypt_without_name doc_encrypted (.source 0)
      (some (.dict [("Length", .int 5), ("Filter", .name "Crypt"),
        ("DecodeParms", .dict [("Name", .string "Identity")])])) 1 100
      (some .FZ_IMAGE_RLD) ctx_empty ⟨1⟩ rfl (Or.inr rfl) rfl rfl).2.2.2⟩

/-! ## The out-descriptor of a stream without filters -/

/-- C27. The out-descriptor is not written for a stream without filters
that is read from the file: for object 1 of `doc_plain` (`Length 5`, no
`Filter`, no cached buffer) `pdf_open_image_stream` gives the caller's
descriptor back as it was, and `pdf_load_compressed_stream` returns the
zero-filled descriptor `FZ_IMAGE_UNKNOWN` rather than Raw; for object 4 (no
`Filter`, cached buffer) the reuse shortcut does write Raw, as
`pdf_open_inline_stream` does for the same dictionary. -/
theorem out_descriptor_left_unwritten :
    pdf_open_image_stream doc_plain 1 (some .FZ_IMAGE_RLD) ctx_empty =
      (.ok (.null (.source 0) 5 100, some .FZ_IMAGE_RLD),
        { ctx_empty with kept := [.source 0] }) ∧
    pdf_load_compressed_stream
        (reader_file (List.replicate 100 0 ++ [72, 101, 108, 108, 111]) 0) doc_plain 1
        ctx_empty =
      (.ok { buffer := ⟨[72, 101, 108, 108, 111]⟩, params := .FZ_IMAGE_UNKNOWN },
        { ctx_empty with kept := [.source 0], dropped := [.null (.source 0) 5 100] }) ∧
    pdf_load_compressed_stream
        (reader_file (List.replicate 100 0 ++ [72, 101, 108, 108, 111]) 0) doc_plain 4
        ctx_empty =
      (.ok { buffer := ⟨[104, 105]⟩, params := .FZ_IMAGE_RAW }, ctx_empty) ∧
    pdf_open_inline_stream (reader_file [] 100) doc_plain (some (.dict [("Length", .int 5)]))
        5 (.source 0) (some .FZ_IMAGE_RLD) ctx_empty =
      (.ok (.null (.source 0) 5 100, some .FZ_IMAGE_RAW),
        { ctx_empty with kept := [.source 0] }) :=
  ⟨rfl, rfl, rfl, rfl⟩

/-! ## Soundness of the reuse shortcut -/

theorem can_reuse_buffer_true (entry : pdf_xref_entry)
    (params out : Option fz_compression_params)
    (h : can_reuse_buffer (some entry) params = (true, out)) :
    ∃ b, entry.stm_buf = some b ∧
      ((pdf_is_name (pdf_dict_geta entry.obj "Filter" "F") = false ∧
          pdf_array_len (pdf_dict_geta entry.obj "Filter" "F") = 0) ∨
        (pdf_is_name (pdf_dict_geta entry.obj "Filter" "F") = true ∧
          ∃ prior, params = some prior ∧
            (build_compression_params (pdf_dict_geta entry.obj "Filter" "F")
              (pdf_dict_geta entry.obj "DecodeParms" "DP")).type ≠ .RAW)) := by
  cases ho : entry.obj with
  | none => simp [can_reuse_buffer, ho] at h
  | some o =>
    cases hb : entry.stm_buf with
    | none => simp [can_reuse_buffer, hb] at h
    | some b =>
      refine ⟨b, rfl, ?_⟩
      rw [← ho]
      by_cases harr : pdf_is_array (pdf_dict_geta entry.obj "Filter" "F") = true
      · have hres : ∃ xs, RESOLVE (pdf_dict_geta entry.obj "Filter" "F") = some (.array xs) := by
          unfold pdf_is_array at harr
          split at harr
          · exact ⟨_, by assumption⟩
          · exact absurd harr (by simp)
        obtain ⟨xs, hres⟩ := hres
        rw [can_reuse_buffer_array entry o b params xs ho hb hres] at h
        simp only [Prod.mk.injEq, decide_eq_true_eq] at h
        left
        simp [pdf_is_name, pdf_array_len, hres, h.1]
      · have harr2 : pdf_is_array (pdf_dict_geta entry.obj "Filter" "F") = false := by
          simpa using harr
        rw [can_reuse_buffer_no_array entry o b params ho hb harr2] at h
        cases hg : pdf_dict_geta entry.obj "Filter" "F" with
        | none =>
          left
          exact ⟨rfl, rfl⟩
        | some v =>
          rw [hg] at h
          simp only [Option.isNone_some, Bool.false_eq_true, if_false,
            can_reuse_buffer_name] at h
          by_cases hnull : pdf_is_null (some v) = true
          · left
            exact no_filter_cases _ (Or.inr (Or.inl hnull))
          · by_cases hname : pdf_is_name (some v) = true
            · right
              refine ⟨hname, ?_⟩
              cases params with
              | none => simp [hnull, hname] at h
              | some prior =>
                refine ⟨prior, rfl, ?_⟩
                simp only [hnull, hname, Bool.false_eq_true, if_false, Bool.not_true,
                  Option.map_some, Prod.mk.injEq] at h
                intro hraw
                rw [hraw] at h
                simp at h
            · simp [hnull, hname] at h

theorem pdf_open_image_stream_cached (doc : pdf_document) (num : Int)
    (params out : Option fz_compression_params) (c : fz_context)
    (h0 : 0 < num) (h1 : num < pdf_xref_len doc)
    (hx : doc.cache_object num = .ok (pdf_get_xref_entry doc num))
    (h : can_reuse_buffer (some (pdf_get_xref_entry doc num)) params = (true, out)) :
    ∃ b out2, (pdf_get_xref_entry doc num).stm_buf = some b ∧
      pdf_open_image_stream doc num params c = (.ok (.buffer b, out2), c) := by
  obtain ⟨b, hb, hcase⟩ := can_reuse_buffer_true _ params out h
  have hr : ¬ (num ≤ 0 ∨ num ≥ pdf_xref_len doc) := by omega
  have hraw := pdf_open_raw_filter_cached doc.file doc (pdf_get_xref_entry doc num).obj num
    (pdf_get_xref_entry doc num).stm_ofs c b h0 h1 hb
  have hopen : pdf_open_image_stream doc num params c =
      pdf_open_filter doc doc.file (pdf_get_xref_entry doc num).obj num
        (pdf_get_xref_entry doc num).stm_ofs params c := by
    simp only [pdf_open_image_stream, hr, if_false, run_bind, pdf_cache_object, hx, hb,
      and_false]
    simp
  rw [hopen, pdf_open_filter_run doc doc.file _ num _ params c c _ _ _ hraw]
  rcases hcase with ⟨hn, hl⟩ | ⟨hn, prior, hp, ht⟩
  · refine ⟨b, params, hb, ?_⟩
    simp [hn, hl]
  · subst hp
    refine ⟨b, some (build_compression_params
      (pdf_dict_geta (pdf_get_xref_entry doc num).obj "Filter" "F")
      (pdf_dict_geta (pdf_get_xref_entry doc num).obj "DecodeParms" "DP")), hb, ?_⟩
    simp only [hn, if_true]
    rw [build_filter_shortstop _ doc _ _ _ _ prior ht]
    rfl

/-- C28. The reuse shortcut is sound: for an in-range object whose entry is
the one `pdf_cache_object` gives and for which `can_reuse_buffer` answers
true, the entry has a cached buffer `b`, `pdf_load_image_stream` returns `b`
with the descriptor `can_reuse_buffer` left and an untouched context, the
pipeline `pdf_open_image_stream` builds for the same object and
out-descriptor is the bare buffer source over `b` (no filter, or the single
filter short-stopped), and the non-shortcut path, which drains that pipeline,
returns the same bytes `b` whenever reading a buffer source to its end gives
the bytes of the buffer. -/
theorem reuse_shortcut_sound (rd : fz_reader) (doc : pdf_document) (num : Int)
    (params out : Option fz_compression_params) (truncated : Option Bool) (c : fz_context)
    (h0 : 0 < num) (h1 : num < pdf_xref_len doc)
    (hx : doc.cache_object num = .ok (pdf_get_xref_entry doc num))
    (h : can_reuse_buffer (some (pdf_get_xref_entry doc num)) params = (true, out))
    (hall : ∀ b, (pdf_get_xref_entry doc num).stm_buf = some b → ∀ len c1,
      rd.read_all (.buffer b) len c1 = (.ok b, c1))
    (hbest : ∀ b, (pdf_get_xref_entry doc num).stm_buf = some b → ∀ len c1,
      ∃ t, rd.read_best (.buffer b) len c1 = (.ok (b, t), c1)) :
    ∃ b out2 t2,
      (pdf_get_xref_entry doc num).stm_buf = some b ∧
      pdf_load_image_stream rd doc num params truncated c = (.ok (b, out, truncated), c) ∧
      pdf_open_image_stream doc num params c = (.ok (.buffer b, out2), c) ∧
      pdf_load_image_stream_read rd doc num params truncated c =
        (.ok (b, out2, t2), { c with dropped := c.dropped ++ [.buffer b] }) := by
  obtain ⟨b, out2, hb, hopen⟩ := pdf_open_image_stream_cached doc num params out c h0 h1 hx h
  have hr : num > 0 ∧ num < pdf_xref_len doc := ⟨h0, h1⟩
  have hshort : pdf_load_image_stream rd doc num params truncated c =
      (.ok (b, out, truncated), c) := by
    simp only [pdf_load_image_stream, hr, and_self, if_true, h, hb]
    rfl
  have hread := pdf_load_image_stream_read_run rd doc num params truncated c _ hx
  simp only [run_bind, hopen, run_try_always_drop] at hread
  cases truncated with
  | none =>
    refine ⟨b, out2, none, hb, hshort, hopen, ?_⟩
    rw [hread]
    simp only [run_bind, hall b hb, run_pure]
  | some t =>
    obtain ⟨t2, ht2⟩ := hbest b hb
      (pdf_guess_loop (pdf_dict_get (pdf_get_xref_entry doc num).obj "Filter")
        (pdf_array_len (pdf_dict_get (pdf_get_xref_entry doc num).obj "Filter")).toNat 0
        (pdf_guess_filter_length
          (pdf_to_int (pdf_dict_get (pdf_get_xref_entry doc num).obj "Length"))
          (pdf_to_name (pdf_dict_get (pdf_get_xref_entry doc num).obj "Filter")))) c
    refine ⟨b, out2, some t2, hb, hshort, hopen, ?_⟩
    rw [hread]
    simp only [run_bind, ht2, run_pure]

/-- Witness of C28: object 1 of `doc_cached_jpeg` (cached buffer, `Filter
/DCTDecode`) with an out-descriptor: the shortcut and the drained pipeline
both give the two cached bytes and the Jpeg descriptor. -/
theorem reuse_shortcut_sound_witness :
    can_reuse_buffer (some (pdf_get_xref_entry doc_cached_jpeg 1)) (some .FZ_IMAGE_RLD) =
      (true, some (.FZ_IMAGE_JPEG (-1))) ∧
    pdf_load_image_stream (reader_file [] 0) doc_cached_jpeg 1 (some .FZ_IMAGE_RLD) none
        ctx_empty =
      (.ok (⟨[255, 216]⟩, some (.FZ_IMAGE_JPEG (-1)), none), ctx_empty) ∧
    pdf_load_image_stream_read (reader_file [] 0) doc_cached_jpeg 1 (some .FZ_IMAGE_RLD) none
        ctx_empty =
      (.ok (⟨[255, 216]⟩, some (.FZ_IMAGE_JPEG (-1)), none),
        { ctx_empty with dropped := [.buffer ⟨[255, 216]⟩] }) ∧
    ∃ b out2 t2,
      (pdf_get_xref_entry doc_cached_jpeg 1).stm_buf = some b ∧
      pdf_load_image_stream (reader_file [] 0) doc_cached_jpeg 1 (some .FZ_IMAGE_RLD) none
          ctx_empty =
        (.ok (b, some (.FZ_IMAGE_JPEG (-1)), none), ctx_empty) ∧
      pdf_open_image_stream doc_cached_jpeg 1 (some .FZ_IMAGE_RLD) ctx_empty =
        (.ok (.buffer b, out2), ctx_empty) ∧
      pdf_load_image_stream_read (reader_file [] 0) doc_cached_jpeg 1 (some .FZ_IMAGE_RLD)
          none ctx_empty =
        (.ok (b, out2, t2), { ctx_empty with dropped := ctx_empty.dropped ++ [.buffer b] }) :=
  ⟨rfl, rfl, rfl,
   reuse_shortcut_sound (reader_file [] 0) doc_cached_jpeg 1 (some .FZ_IMAGE_RLD)
     (some (.FZ_IMAGE_JPEG (-1))) none ctx_empty (by decide) (by decide) rfl rfl
     (fun _ _ _ _ => rfl) (fun _ _ _ _ => ⟨false, rfl⟩)⟩

/-! ## Documents with bound nested loads -/

theorem pdf_bind_loader_fields (rd : fz_reader) (doc : pdf_document) (k : Nat) :
    (pdf_bind_loader rd doc k).id = doc.id ∧
    (pdf_bind_loader rd doc k).xref_len = doc.xref_len ∧
    (pdf_bind_loader rd doc k).xref = doc.xref ∧
    (pdf_bind_loader rd doc k).cache_object = doc.cache_object ∧
    (pdf_bind_loader rd doc k).crypt = doc.crypt ∧
    (pdf_bind_loader rd doc k).file = doc.file := by
  cases k <;> exact ⟨rfl, rfl, rfl, rfl, rfl, rfl⟩

theorem pdf_bind_loader_load (rd : fz_reader) (doc : pdf_document) (k : Nat) (o : pdf_obj) :
    (pdf_bind_loader rd doc (k + 1)).load_globals_stream o =
      pdf_load_stream rd (pdf_bind_loader rd doc k) (some o) := rfl

/-! ## Sharing of JBIG2 globals -/

theorem pdf_load_jbig2_globals_hit (doc : pdf_document) (g : pdf_obj) (c : fz_context)
    (v : fz_jbig2_globals) (h : pdf_find_item_in c.store doc.id g = some v) :
    pdf_load_jbig2_globals doc g c = (.ok v, c) := by
  simp [pdf_load_jbig2_globals, pdf_find_item, h]

theorem pdf_load_jbig2_globals_fail (doc : pdf_document) (g : pdf_obj) (c c1 : fz_context)
    (e : fz_error) (h : pdf_find_item_in c.store doc.id g = none)
    (hl : doc.load_globals_stream g c = (.error e, c1)) :
    pdf_load_jbig2_globals doc g c = (.error e, c1) := by
  simp [pdf_load_jbig2_globals, pdf_find_item, h, hl]

theorem pdf_load_jbig2_globals_miss (doc : pdf_document) (g : pdf_obj) (c c1 : fz_context)
    (buf : fz_buffer) (h : pdf_find_item_in c.store doc.id g = none)
    (hl : doc.load_globals_stream g c = (.ok buf, c1))
    (h1 : pdf_find_item_in c1.store doc.id g = none) :
    pdf_load_jbig2_globals doc g c =
      (.ok ⟨c1.next_id, buf⟩,
        { c1 with
          next_id := c1.next_id + 1
          store := c1.store ++ [(doc.id, g, ⟨c1.next_id, buf⟩, fz_buffer_storage buf)] }) := by
  simp [pdf_load_jbig2_globals, pdf_find_item, h, hl, fz_load_jbig2_globals, pdf_store_item, h1]

theorem pdf_find_item_in_same_ref (store : List (Nat × pdf_obj × fz_jbig2_globals × Nat))
    (d : Nat) (n gn : Int) (t t2 : Option pdf_obj) :
    pdf_find_item_in store d (.indirect n gn t2) =
      pdf_find_item_in store d (.indirect n gn t) := by
  induction store with
  | nil => rfl
  | cons x xs ih =>
    obtain ⟨d0, k, v, w⟩ := x
    have hk : pdf_cmp_key d0 k d (.indirect n gn t2) = pdf_cmp_key d0 k d (.indirect n gn t) := by
      cases k <;> rfl
    simp only [pdf_find_item_in, hk, ih]

theorem pdf_find_item_in_append (store : List (Nat × pdf_obj × fz_jbig2_globals × Nat))
    (d : Nat) (n gn : Int) (t : Option pdf_obj) (v : fz_jbig2_globals) (w : Nat)
    (h : pdf_find_item_in store d (.indirect n gn t) = none) :
    pdf_find_item_in (store ++ [(d, .indirect n gn t, v, w)]) d (.indirect n gn t) =
      some v := by
  induction store with
  | nil => simp [pdf_find_item_in, pdf_cmp_key]
  | cons x xs ih =>
    obtain ⟨d0, k, v2, w2⟩ := x
    simp only [pdf_find_item_in] at h
    by_cases hk : pdf_cmp_key d0 k d (.indirect n gn t) = true
    · simp [hk] at h
    · simp only [hk, Bool.false_eq_true, if_false] at h
      simp only [List.cons_append, pdf_find_item_in, hk, Bool.false_eq_true, if_false]
      exact ih h

theorem pdf_find_item_in_other_document
    (store : List (Nat × pdf_obj × fz_jbig2_globals × Nat)) (d d2 : Nat) (k key : pdf_obj)
    (v : fz_jbig2_globals) (w : Nat) (hd : d2 ≠ d) :
    pdf_find_item_in (store ++ [(d, k, v, w)]) d2 key = pdf_find_item_in store d2 key := by
  have hk : pdf_cmp_key d k d2 key = false := by
    have hne : (d == d2) = false := by
      simp only [beq_eq_false_iff_ne, ne_eq]
      exact fun h => hd h.symm
    cases k <;> cases key <;> simp [pdf_cmp_key, hne]
  induction store with
  | nil => simp [pdf_find_item_in, hk]
  | cons x xs ih =>
    obtain ⟨d0, k0, v0, w0⟩ := x
    have ih2 : pdf_find_item_in (xs.append [(d, k, v, w)]) d2 key =
        pdf_find_item_in xs d2 key := ih
    simp only [List.cons_append, pdf_find_item_in, ih2]

theorem build_filter_jbig2_indirect (U : fz_stream) (doc : pdf_document) (p : Option pdf_obj)
    (num gen : Int) (params : Option fz_compression_params) (c c2 : fz_context)
    (n gn : Int) (t : Option pdf_obj) (v : fz_jbig2_globals)
    (hp : pdf_dict_get p "JBIG2Globals" = some (.indirect n gn t))
    (hl : pdf_load_jbig2_globals doc (.indirect n gn t) c = (.ok v, c2)) :
    build_filter U doc (some (.name "JBIG2Decode")) p num gen params c =
      (.ok (.jbig2d U (some v), params.map (fun _ => fz_compression_params.FZ_IMAGE_RAW)),
        c2) := by
  have hraw : build_compression_params (some (.name "JBIG2Decode")) p = .FZ_IMAGE_RAW :=
    build_compression_params_raw "JBIG2Decode" p (by decide)
  simp [build_filter, build_filter_try, fz_try_catch, hraw, pdf_name_eq_name,
    fz_compression_params.type, hp, pdf_is_indirect, hl]

theorem build_filter_jbig2_direct (U : fz_stream) (doc : pdf_document) (p : Option pdf_obj)
    (num gen : Int) (params : Option fz_compression_params) (c : fz_context)
    (hp : pdf_is_indirect (pdf_dict_get p "JBIG2Globals") = false) :
    build_filter U doc (some (.name "JBIG2Decode")) p num gen params c =
      (.ok (.jbig2d U none, params.map (fun _ => fz_compression_params.FZ_IMAGE_RAW)), c) := by
  have hraw : build_compression_params (some (.name "JBIG2Decode")) p = .FZ_IMAGE_RAW :=
    build_compression_params_raw "JBIG2Decode" p (by decide)
  simp [build_filter, build_filter_try, fz_try_catch, hraw, pdf_name_eq_name,
    fz_compression_params.type, hp]

/-- C26. JBIG2 globals sharing, for a globals reference `n gn R` bound to a
document `doc` whose nested loads are bound to `pdf_load_stream` (`doc` is
`doc0` bound `k + 1` deep, so the load made inside runs on `doc0` bound `k`
deep). When the store holds an item under the reference,
`pdf_load_jbig2_globals` returns it and leaves the context alone, whatever
the load would do. On a miss it calls `pdf_load_stream` on the reference: if
that throws, the error goes on; if it gives `buf`, a new globals object
parsed from `buf` is returned and stored under the reference, bound to this
document, with weight `fz_buffer_storage buf`, where a lookup then finds it.
Hence, while the store keeps the item the first load left, two JBIG2Decode
stages of the document built one after the other whose `JBIG2Globals` are
references to the same object get the same instance, and the second build
changes nothing in the context. An item stored for this document is not what
a lookup for another document finds. A `JBIG2Globals` entry that is not an
indirect reference gives a stage without globals. -/
theorem jbig2_globals_sharing (rd : fz_reader) (doc0 doc : pdf_document) (k : Nat)
    (n gn : Int) (t : Option pdf_obj) (c : fz_context)
    (hdoc : doc = pdf_bind_loader rd doc0 (k + 1)) :
    (∀ v, pdf_find_item_in c.store doc.id (.indirect n gn t) = some v →
      pdf_load_jbig2_globals doc (.indirect n gn t) c = (.ok v, c) ∧
      ∀ ld, pdf_load_jbig2_globals { doc with load_globals_stream := ld } (.indirect n gn t)
        c = (.ok v, c)) ∧
    (pdf_find_item_in c.store doc.id (.indirect n gn t) = none →
      ∀ buf c1,
        pdf_load_stream rd (pdf_bind_loader rd doc0 k) (some (.indirect n gn t)) c =
          (.ok buf, c1) →
        pdf_find_item_in c1.store doc.id (.indirect n gn t) = none →
        pdf_load_jbig2_globals doc (.indirect n gn t) c =
          (.ok ⟨c1.next_id, buf⟩,
            { c1 with
              next_id := c1.next_id + 1
              store := c1.store ++
                [(doc.id, .indirect n gn t, ⟨c1.next_id, buf⟩, fz_buffer_storage buf)] }) ∧
        pdf_find_item_in
            (c1.store ++
              [(doc.id, .indirect n gn t, ⟨c1.next_id, buf⟩, fz_buffer_storage buf)])
            doc.id (.indirect n gn t) = some ⟨c1.next_id, buf⟩) ∧
    (pdf_find_item_in c.store doc.id (.indirect n gn t) = none →
      ∀ e c1,
        pdf_load_stream rd (pdf_bind_loader rd doc0 k) (some (.indirect n gn t)) c =
          (.error e, c1) →
        pdf_load_jbig2_globals doc (.indirect n gn t) c = (.error e, c1)) ∧
    (∀ v c2, pdf_load_jbig2_globals doc (.indirect n gn t) c = (.ok v, c2) →
      pdf_find_item_in c2.store doc.id (.indirect n gn t) = some v →
      ∀ (U1 U2 : fz_stream) (p1 p2 : Option pdf_obj) (num1 gen1 num2 gen2 : Int)
        (params1 params2 : Option fz_compression_params) (t2 : Option pdf_obj),
        pdf_dict_get p1 "JBIG2Globals" = some (.indirect n gn t) →
        pdf_dict_get p2 "JBIG2Globals" = some (.indirect n gn t2) →
        build_filter U1 doc (some (.name "JBIG2Decode")) p1 num1 gen1 params1 c =
          (.ok (.jbig2d U1 (some v),
            params1.map (fun _ => fz_compression_params.FZ_IMAGE_RAW)), c2) ∧
        build_filter U2 doc (some (.name "JBIG2Decode")) p2 num2 gen2 params2 c2 =
          (.ok (.jbig2d U2 (some v),
            params2.map (fun _ => fz_compression_params.FZ_IMAGE_RAW)), c2)) ∧
    (∀ (d2 : Nat) (v : fz_jbig2_globals) (w : Nat), d2 ≠ doc.id →
      pdf_find_item_in (c.store ++ [(doc.id, .indirect n gn t, v, w)]) d2
          (.indirect n gn t) =
        pdf_find_item_in c.store d2 (.indirect n gn t)) ∧
    (∀ (U : fz_stream) (p : Option pdf_obj) (num gen : Int)
        (params : Option fz_compression_params),
      pdf_is_indirect (pdf_dict_get p "JBIG2Globals") = false →
      build_filter U doc (some (.name "JBIG2Decode")) p num gen params c =
        (.ok (.jbig2d U none, params.map (fun _ => fz_compression_params.FZ_IMAGE_RAW)),
          c)) := by
  have hld : doc.load_globals_stream (.indirect n gn t) =
      pdf_load_stream rd (pdf_bind_loader rd doc0 k) (some (.indirect n gn t)) := by
    rw [hdoc]
    rfl
  refine ⟨?_, ?_, ?_, ?_, ?_, ?_⟩
  · intro v h
    exact ⟨pdf_load_jbig2_globals_hit doc _ c v h,
      fun ld => pdf_load_jbig2_globals_hit { doc with load_globals_stream := ld } _ c v h⟩
  · intro h buf c1 hl h1
    exact ⟨pdf_load_jbig2_globals_miss doc _ c c1 buf h (by rw [hld]; exact hl) h1,
      pdf_find_item_in_append c1.store doc.id n gn t _ _ h1⟩
  · intro h e c1 hl
    exact pdf_load_jbig2_globals_fail doc _ c c1 e h (by rw [hld]; exact hl)
  · intro v c2 hl hfind U1 U2 p1 p2 num1 gen1 num2 gen2 params1 params2 t2 hp1 hp2
    refine ⟨build_filter_jbig2_indirect U1 doc p1 num1 gen1 params1 c c2 n gn t v hp1 hl, ?_⟩
    have hfind2 : pdf_find_item_in c2.store doc.id (.indirect n gn t2) = some v := by
      rw [pdf_find_item_in_same_ref c2.store doc.id n gn t t2]
      exact hfind
    exact build_filter_jbig2_indirect U2 doc p2 num2 gen2 params2 c2 c2 n gn t2 v hp2
      (pdf_load_jbig2_globals_hit doc _ c2 v hfind2)
  · intro d2 v w hd
    exact pdf_find_item_in_other_document c.store doc.id d2 _ _ v w hd
  · intro U p num gen params hp
    exact build_filter_jbig2_direct U doc p num gen params c hp

/-- Witness of C26 in `doc_jbig2`, from an empty store: `pdf_load_stream`
gives the three bytes of object 2, the globals parsed from them are stored
once with weight 3 for this document, two stages built one after the other
over `JBIG2Globals 2 0 R` hold the same instance, and a lookup of `2 0 R` for
another document finds nothing. -/
theorem jbig2_globals_sharing_witness :
    pdf_load_stream (reader_file [] 0) doc_jbig2_base (some (.indirect 2 0 none)) ctx_empty =
      (.ok ⟨[1, 2, 3]⟩, ctx_empty) ∧
    pdf_load_jbig2_globals doc_jbig2 (.indirect 2 0 none) ctx_empty =
      (.ok ⟨0, ⟨[1, 2, 3]⟩⟩,
        { ctx_empty with
          next_id := 1
          store := [(7, .indirect 2 0 none, ⟨0, ⟨[1, 2, 3]⟩⟩, 3)] }) ∧
    build_filter (.source 7) doc_jbig2 (some (.name "JBIG2Decode"))
        (some (.dict [("JBIG2Globals", .indirect 2 0 none)])) 1 0 none ctx_empty =
      (.ok (.jbig2d (.source 7) (some ⟨0, ⟨[1, 2, 3]⟩⟩), none),
        { ctx_empty with
          next_id := 1
          store := [(7, .indirect 2 0 none, ⟨0, ⟨[1, 2, 3]⟩⟩, 3)] }) ∧
    build_filter (.source 8) doc_jbig2 (some (.name "JBIG2Decode"))
        (some (.dict [("JBIG2Globals", .indirect 2 0 (some (.dict [])))])) 3 0 none
        { ctx_empty with
          next_id := 1
          store := [(7, .indirect 2 0 none, ⟨0, ⟨[1, 2, 3]⟩⟩, 3)] } =
      (.ok (.jbig2d (.source 8) (some ⟨0, ⟨[1, 2, 3]⟩⟩), none),
        { ctx_empty with
          next_id := 1
          store := [(7, .indirect 2 0 none, ⟨0, ⟨[1, 2, 3]⟩⟩, 3)] }) ∧
    pdf_find_item_in ([] ++ [(7, .indirect 2 0 none, ⟨0, ⟨[1, 2, 3]⟩⟩, 3)]) 1
      (.indirect 2 0 none) = none :=
  ⟨rfl,
   ((jbig2_globals_sharing (reader_file [] 0) doc_jbig2_base doc_jbig2 0 2 0 none ctx_empty
      rfl).2.1 rfl ⟨[1, 2, 3]⟩ ctx_empty rfl rfl).1,
   ((jbig2_globals_sharing (reader_file [] 0) doc_jbig2_base doc_jbig2 0 2 0 none ctx_empty
      rfl).2.2.2.1 ⟨0, ⟨[1, 2, 3]⟩⟩
      { ctx_empty with
        next_id := 1
        store := [(7, .indirect 2 0 none, ⟨0, ⟨[1, 2, 3]⟩⟩, 3)] } rfl rfl
      (.source 7) (.source 8) (some (.dict [("JBIG2Globals", .indirect 2 0 none)]))
      (some (.dict [("JBIG2Globals", .indirect 2 0 (some (.dict [])))])) 1 0 3 0 none none
      (some (.dict [])) rfl rfl).1,
   ((jbig2_globals_sharing (reader_file [] 0) doc_jbig2_base doc_jbig2 0 2 0 none ctx_empty
      rfl).2.2.2.1 ⟨0, ⟨[1, 2, 3]⟩⟩
      { ctx_empty with
        next_id := 1
        store := [(7, .indirect 2 0 none, ⟨0, ⟨[1, 2, 3]⟩⟩, 3)] } rfl rfl
      (.source 7) (.source 8) (some (.dict [("JBIG2Globals", .indirect 2 0 none)]))
      (some (.dict [("JBIG2Globals", .indirect 2 0 (some (.dict [])))])) 1 0 3 0 none none
      (some (.dict [])) rfl rfl).2,
   ((jbig2_globals_sharing (reader_file [] 0) doc_jbig2_base doc_jbig2 0 2 0 none ctx_empty
      rfl).2.2.2.2.1 1 ⟨0, ⟨[1, 2, 3]⟩⟩ 3 (by decide)).trans rfl⟩

/-! ## Where the errors of the openers come from -/

theorem pdf_open_raw_filter_ok (chain : fz_stream) (doc : pdf_document)
    (stmobj : Option pdf_obj) (num offset : Int) (c : fz_context) :
    ∃ r c2, pdf_open_raw_filter chain doc stmobj num offset c = (.ok r, c2) := by
  by_cases hr : 0 < num ∧ num < pdf_xref_len doc
  · cases hb : (pdf_get_xref_entry doc num).stm_buf with
    | some b =>
      exact ⟨_, _, pdf_open_raw_filter_cached chain doc stmobj num offset c b hr.1 hr.2 hb⟩
    | none =>
      exact ⟨_, _, pdf_open_raw_filter_uncached chain doc stmobj num offset c hr.1 hr.2 hb⟩
  · exact ⟨_, _, pdf_open_raw_filter_out_of_range chain doc stmobj num offset c hr⟩

theorem pdf_load_jbig2_globals_throws (P : fz_error → Prop) (doc : pdf_document)
    (hld : ∀ o c e c1, doc.load_globals_stream o c = (.error e, c1) → P e)
    (g : pdf_obj) (c c1 : fz_context) (e : fz_error)
    (h : pdf_load_jbig2_globals doc g c = (.error e, c1)) : P e := by
  cases hf : pdf_find_item_in c.store doc.id g with
  | some v =>
    rw [pdf_load_jbig2_globals_hit doc g c v hf] at h
    simp at h
  | none =>
    rcases hl : doc.load_globals_stream g c with ⟨r, c2⟩
    cases r with
    | error e2 =>
      rw [pdf_load_jbig2_globals_fail doc g c c2 e2 hf hl] at h
      simp only [Prod.mk.injEq, Except.error.injEq] at h
      rw [← h.1]
      exact hld g c e2 c2 hl
    | ok buf =>
      cases hf2 : pdf_find_item_in c2.store doc.id g <;>
        simp [pdf_load_jbig2_globals, pdf_find_item, hf, hl, fz_load_jbig2_globals,
          pdf_store_item, hf2] at h

theorem build_filter_try_throws (P : fz_error → Prop) (doc : pdf_document)
    (hld : ∀ o c e c1, doc.load_globals_stream o c = (.error e, c1) → P e)
    (chain : fz_stream) (f p : Option pdf_obj) (num gen : Int) (shortstop : Bool)
    (c c1 : fz_context) (e : fz_error)
    (h : build_filter_try chain doc f p num gen shortstop c = (.error e, c1)) : P e := by
  unfold build_filter_try at h
  simp only at h
  split_ifs at h
  all_goals first
    | (simp only [run_pure, Prod.mk.injEq] at h; exact absurd h.1 (by simp))
    | exact absurd h (by simp [fz_warn])
    | (revert h; cases doc.crypt <;> exact fun h => absurd h (by simp [fz_warn]))
    | skip
  cases hg : pdf_dict_get p "JBIG2Globals" with
  | none => simp [hg] at h
  | some o =>
    simp only [hg, run_bind, run_map] at h
    rcases hl : pdf_load_jbig2_globals doc o c with ⟨r, c2⟩
    rw [hl] at h
    cases r with
    | error e2 =>
      simp only [Prod.mk.injEq, Except.error.injEq] at h
      rw [← h.1]
      exact pdf_load_jbig2_globals_throws P doc hld o c c2 e2 hl
    | ok v => simp at h

theorem build_filter_throws (P : fz_error → Prop) (doc : pdf_document)
    (hld : ∀ o c e c1, doc.load_globals_stream o c = (.error e, c1) → P e)
    (chain : fz_stream) (f p : Option pdf_obj) (num gen : Int)
    (params : Option fz_compression_params) (c c1 : fz_context) (e : fz_error)
    (h : build_filter chain doc f p num gen params c = (.error e, c1)) : P e := by
  simp only [build_filter, fz_try_catch, run_bind, run_pure] at h
  rcases hb : build_filter_try chain doc f p num gen params.isSome c with ⟨r, c2⟩
  rw [hb] at h
  cases r with
  | error e2 =>
    simp only [fz_drop_stream, fz_rethrow, Prod.mk.injEq, Except.error.injEq] at h
    rw [← h.1]
    exact build_filter_try_throws P doc hld chain f p num gen _ c c2 e2 hb
  | ok v => simp at h

theorem build_filter_chain_loop_throws (P : fz_error → Prop) (doc : pdf_document)
    (hld : ∀ o c e c1, doc.load_globals_stream o c = (.error e, c1) → P e)
    (fs ps : Option pdf_obj) (num gen n : Int) (k : Nat) (i : Int)
    (acc : fz_stream × Option fz_compression_params) (c c1 : fz_context) (e : fz_error)
    (h : build_filter_chain_loop doc fs ps num gen n k i acc c = (.error e, c1)) : P e := by
  induction k generalizing i acc c with
  | zero =>
    obtain ⟨chain, params⟩ := acc
    simp [build_filter_chain_loop] at h
  | succ k ih =>
    obtain ⟨chain, params⟩ := acc
    simp only [build_filter_chain_loop, run_bind] at h
    rcases hb : build_filter chain doc (pdf_array_get fs i) (pdf_array_get ps i) num gen
      (if i = n - 1 then params else none) c with ⟨r, c2⟩
    rw [hb] at h
    cases r with
    | error e2 =>
      simp only [Prod.mk.injEq, Except.error.injEq] at h
      rw [← h.1]
      exact build_filter_throws P doc hld _ _ _ _ _ _ c c2 e2 hb
    | ok v =>
      obtain ⟨chain2, out⟩ := v
      exact ih _ _ _ h

theorem pdf_open_filter_throws (P : fz_error → Prop) (doc : pdf_document)
    (hld : ∀ o c e c1, doc.load_globals_stream o c = (.error e, c1) → P e)
    (chain : fz_stream) (stmobj : Option pdf_obj) (num offset : Int)
    (imparams : Option fz_compression_params) (c c1 : fz_context) (e : fz_error)
    (h : pdf_open_filter doc chain stmobj num offset imparams c = (.error e, c1)) : P e := by
  obtain ⟨r, c2, hraw⟩ := pdf_open_raw_filter_ok chain doc stmobj num offset c
  obtain ⟨base, orig_num, orig_gen⟩ := r
  rw [pdf_open_filter_run doc chain stmobj num offset imparams c c2 base orig_num orig_gen hraw]
    at h
  split_ifs at h
  · exact build_filter_throws P doc hld _ _ _ _ _ _ c2 c1 e h
  · rw [build_filter_chain, fz_try_catch_rethrow_none] at h
    exact build_filter_chain_loop_throws P doc hld _ _ _ _ _ _ _ _ c2 c1 e h
  · simp at h


theorem pdf_open_image_stream_throws (P : fz_error → Prop) (doc : pdf_document)
    (hld : ∀ o c e c1, doc.load_globals_stream o c = (.error e, c1) → P e)
    (hcache : ∀ n e, doc.cache_object n = .error e → P e)
    (hns : P ⟨.FZ_ERROR_GENERIC, "object is not a stream"⟩)
    (num : Int) (params : Option fz_compression_params) (c c1 : fz_context) (e : fz_error)
    (h0 : 0 < num) (h1 : num < pdf_xref_len doc)
    (h : pdf_open_image_stream doc num params c = (.error e, c1)) : P e := by
  have hr : ¬ (num ≤ 0 ∨ num ≥ pdf_xref_len doc) := by omega
  simp only [pdf_open_image_stream, hr, if_false, run_bind, pdf_cache_object] at h
  cases hx : doc.cache_object num with
  | error e2 =>
    simp only [hx, Prod.mk.injEq, Except.error.injEq] at h
    rw [← h.1]
    exact hcache num e2 hx
  | ok x =>
    simp only [hx] at h
    split_ifs at h
    · simp only [fz_throw, Prod.mk.injEq, Except.error.injEq] at h
      rw [← h.1]
      exact hns
    · exact pdf_open_filter_throws P doc hld _ _ _ _ _ c c1 e h

theorem pdf_load_image_stream_read_throws (P : fz_error → Prop) (rd : fz_reader)
    (doc : pdf_document)
    (hld : ∀ o c e c1, doc.load_globals_stream o c = (.error e, c1) → P e)
    (hcache : ∀ n e, doc.cache_object n = .error e → P e)
    (hread : ∀ s len c e c1, rd.read_all s len c = (.error e, c1) → P e)
    (hns : P ⟨.FZ_ERROR_GENERIC, "object is not a stream"⟩)
    (num : Int) (params : Option fz_compression_params) (c c1 : fz_context) (e : fz_error)
    (h0 : 0 < num) (h1 : num < pdf_xref_len doc)
    (h : pdf_load_image_stream_read rd doc num params none c = (.error e, c1)) : P e := by
  cases hx : doc.cache_object num with
  | error e2 =>
    simp only [pdf_load_image_stream_read, pdf_load_object, pdf_cache_object, run_bind, hx,
      Prod.mk.injEq, Except.error.injEq] at h
    rw [← h.1]
    exact hcache num e2 hx
  | ok x =>
    rw [pdf_load_image_stream_read_run rd doc num params none c x hx] at h
    simp only [run_bind] at h
    rcases ho : pdf_open_image_stream doc num params c with ⟨r, c2⟩
    rw [ho] at h
    cases r with
    | error e2 =>
      simp only [Prod.mk.injEq, Except.error.injEq] at h
      rw [← h.1]
      exact pdf_open_image_stream_throws P doc hld hcache hns num params c c2 e2 h0 h1 ho
    | ok r =>
      simp only [run_try_always_drop, run_bind] at h
      rcases hrd : rd.read_all r.1
        (pdf_guess_loop (pdf_dict_get x.obj "Filter")
          (pdf_array_len (pdf_dict_get x.obj "Filter")).toNat 0
          (pdf_guess_filter_length (pdf_to_int (pdf_dict_get x.obj "Length"))
            (pdf_to_name (pdf_dict_get x.obj "Filter")))) c2 with ⟨r2, c3⟩
      rw [hrd] at h
      cases r2 with
      | error e2 =>
        simp only [Prod.mk.injEq, Except.error.injEq] at h
        rw [← h.1]
        exact hread _ _ _ _ _ hrd
      | ok b => simp at h

theorem pdf_load_image_stream_throws (P : fz_error → Prop) (rd : fz_reader)
    (doc : pdf_document)
    (hld : ∀ o c e c1, doc.load_globals_stream o c = (.error e, c1) → P e)
    (hcache : ∀ n e, doc.cache_object n = .error e → P e)
    (hread : ∀ s len c e c1, rd.read_all s len c = (.error e, c1) → P e)
    (hns : P ⟨.FZ_ERROR_GENERIC, "object is not a stream"⟩)
    (num : Int) (params : Option fz_compression_params) (c c1 : fz_context) (e : fz_error)
    (h0 : 0 < num) (h1 : num < pdf_xref_len doc)
    (h : pdf_load_image_stream rd doc num params none c = (.error e, c1)) : P e := by
  have hr2 : num > 0 ∧ num < pdf_xref_len doc := ⟨h0, h1⟩
  simp only [pdf_load_image_stream, hr2, and_self, if_true] at h
  rcases hcr : can_reuse_buffer (some (pdf_get_xref_entry doc num)) params with ⟨b, out⟩
  rw [hcr] at h
  cases hb : (pdf_get_xref_entry doc num).stm_buf <;> cases b <;> simp only [hb] at h
  · exact pdf_load_image_stream_read_throws P rd doc hld hcache hread hns num _ c c1 e h0 h1 h
  · exact pdf_load_image_stream_read_throws P rd doc hld hcache hread hns num _ c c1 e h0 h1 h
  · exact pdf_load_image_stream_read_throws P rd doc hld hcache hread hns num _ c c1 e h0 h1 h
  · simp at h

theorem pdf_load_stream_throws (P : fz_error → Prop) (rd : fz_reader) (doc : pdf_document)
    (hld : ∀ o c e c1, doc.load_globals_stream o c = (.error e, c1) → P e)
    (hcache : ∀ n e, doc.cache_object n = .error e → P e)
    (hread : ∀ s len c e c1, rd.read_all s len c = (.error e, c1) → P e)
    (hns : P ⟨.FZ_ERROR_GENERIC, "object is not a stream"⟩)
    (ref : Option pdf_obj) (c c1 : fz_context) (e : fz_error)
    (h : pdf_load_stream rd doc ref c = (.error e, c1)) : P e := by
  have hnum : pdf_to_num ref = pdf_obj_parent_num ref := rfl
  simp only [pdf_load_stream, run_bind, pdf_is_stream, pdf_obj_num_is_stream, hnum] at h
  generalize pdf_obj_parent_num ref = num at h
  by_cases hr : num ≤ 0 ∨ num ≥ pdf_xref_len doc
  · simp only [hr, if_true, run_pure, Bool.false_eq_true, if_false, fz_throw, Prod.mk.injEq,
      Except.error.injEq] at h
    rw [← h.1]
    exact hns
  · have h0 : 0 < num := by omega
    have h1 : num < pdf_xref_len doc := by omega
    have hr2 : num > 0 ∧ num < pdf_xref_len doc := ⟨h0, h1⟩
    simp only [hr, if_false, run_bind, pdf_cache_object] at h
    cases hx : doc.cache_object num with
    | error e2 =>
      simp only [hx, Prod.mk.injEq, Except.error.injEq] at h
      rw [← h.1]
      exact hcache num e2 hx
    | ok x =>
      simp only [hx, run_pure] at h
      split_ifs at h
      · simp only [pdf_load_stream_number, run_bind] at h
        rcases hrd : pdf_load_image_stream rd doc num none none c with ⟨r, c2⟩
        rw [hrd] at h
        cases r with
        | error e2 =>
          simp only [Prod.mk.injEq, Except.error.injEq] at h
          rw [← h.1]
          exact pdf_load_image_stream_throws P rd doc hld hcache hread hns num none c c2 e2 h0
            h1 hrd
        | ok v => simp at h
      · simp only [fz_throw, Prod.mk.injEq, Except.error.injEq] at h
        rw [← h.1]
        exact hns

theorem pdf_bind_loader_throws (P : fz_error → Prop) (rd : fz_reader) (doc0 : pdf_document)
    (hbase : ∀ o c e c1, doc0.load_globals_stream o c = (.error e, c1) → P e)
    (hcache : ∀ n e, doc0.cache_object n = .error e → P e)
    (hread : ∀ s len c e c1, rd.read_all s len c = (.error e, c1) → P e)
    (hns : P ⟨.FZ_ERROR_GENERIC, "object is not a stream"⟩) (k : Nat) :
    ∀ o c e c1, (pdf_bind_loader rd doc0 k).load_globals_stream o c = (.error e, c1) → P e := by
  induction k with
  | zero => exact hbase
  | succ k ih =>
    intro o c e c1 h
    rw [pdf_bind_loader_load] at h
    refine pdf_load_stream_throws P rd (pdf_bind_loader rd doc0 k) ih ?_ hread hns _ c c1 e h
    rw [(pdf_bind_loader_fields rd doc0 k).2.2.2.1]
    exact hcache

theorem pdf_open_stream_number_throws (P : fz_error → Prop) (doc : pdf_document)
    (hld : ∀ o c e c1, doc.load_globals_stream o c = (.error e, c1) → P e)
    (hcache : ∀ n e, doc.cache_object n = .error e → P e)
    (hns : P ⟨.FZ_ERROR_GENERIC, "object is not a stream"⟩)
    (num : Int) (c c1 : fz_context) (e : fz_error)
    (h0 : 0 < num) (h1 : num < pdf_xref_len doc)
    (h : pdf_open_stream_number doc num c = (.error e, c1)) : P e := by
  simp only [pdf_open_stream_number, run_bind] at h
  rcases ho : pdf_open_image_stream doc num none c with ⟨r, c2⟩
  rw [ho] at h
  cases r with
  | error e2 =>
    simp only [Prod.mk.injEq, Except.error.injEq] at h
    rw [← h.1]
    exact pdf_open_image_stream_throws P doc hld hcache hns num none c c2 e2 h0 h1 ho
  | ok v => simp at h

theorem pdf_open_raw_stream_number_throws (P : fz_error → Prop) (doc : pdf_document)
    (num : Int)
    (hcache : ∀ e, doc.cache_object num = .error e → P e)
    (hns : P ⟨.FZ_ERROR_GENERIC, "object is not a stream"⟩)
    (c c1 : fz_context) (e : fz_error)
    (h0 : 0 < num) (h1 : num < pdf_xref_len doc)
    (h : pdf_open_raw_stream_number doc num c = (.error e, c1)) : P e := by
  have hr : ¬ (num ≤ 0 ∨ num ≥ pdf_xref_len doc) := by omega
  simp only [pdf_open_raw_stream_number, hr, if_false, run_bind, pdf_cache_object] at h
  cases hx : doc.cache_object num with
  | error e2 =>
    simp only [hx, Prod.mk.injEq, Except.error.injEq] at h
    rw [← h.1]
    exact hcache e2 hx
  | ok x =>
    simp only [hx] at h
    split_ifs at h
    · simp only [fz_throw, Prod.mk.injEq, Except.error.injEq] at h
      rw [← h.1]
      exact hns
    · obtain ⟨r, c2, hraw⟩ := pdf_open_raw_filter_ok doc.file doc x.obj num x.stm_ofs c
      simp only [run_bind, hraw] at h
      simp at h

theorem not_a_stream_ne_out_of_range (num : Int) :
    (⟨.FZ_ERROR_GENERIC, "object is not a stream"⟩ : fz_error) ≠
      ⟨.FZ_ERROR_GENERIC, "object id out of range (" ++ toString num ++ " 0 R)"⟩ := by
  intro h
  have h2 := congrArg (fun e => e.message.data.take 9) h
  simp only [String.data_append, List.append_assoc] at h2
  simp at h2

/-! ## Object numbers out of range and objects that are no streams -/

/-- Counterexample to C25 as stated: object 3 of `doc_jbig2` is in range and
has a stream offset (30), yet `pdf_open_stream_number` fails with "object is
not a stream": its `JBIG2Globals` reference `4 0 R` is no stream, and the
error `pdf_load_stream` throws for it while the JBIG2 stage is built passes
through `build_filter` and `pdf_open_filter`. -/
theorem not_a_stream_counterexample :
    (0 : Int) < 3 ∧ (3 : Int) < pdf_xref_len doc_jbig2 ∧
    (pdf_get_xref_entry doc_jbig2 3).stm_ofs = 30 ∧
    (Except.toOption (doc_jbig2.cache_object 3)).map (fun x => x.stm_ofs) = some 30 ∧
    pdf_load_stream (reader_file [] 0) doc_jbig2_base (some (.indirect 4 0 none)) ctx_empty =
      (.error ⟨.FZ_ERROR_GENERIC, "object is not a stream"⟩, ctx_empty) ∧
    pdf_open_stream_number doc_jbig2 3 ctx_empty =
      (.error ⟨.FZ_ERROR_GENERIC, "object is not a stream"⟩,
        { ctx_empty with kept := [.source 0], dropped := [.null (.source 0) 8 30] }) :=
  ⟨by decide, by decide, rfl, rfl, rfl, rfl⟩

theorem pdf_open_by_number_cases (doc : pdf_document) (num : Int) (c : fz_context) :
    ((num ≤ 0 ∨ num ≥ pdf_xref_len doc) →
      pdf_open_raw_stream_number doc num c =
        (.error ⟨.FZ_ERROR_GENERIC, "object id out of range (" ++ toString num ++ " 0 R)"⟩,
          c) ∧
      pdf_open_stream_number doc num c =
        (.error ⟨.FZ_ERROR_GENERIC, "object id out of range (" ++ toString num ++ " 0 R)"⟩,
          c)) ∧
    (0 < num → num < pdf_xref_len doc →
      (∀ e, doc.cache_object num = .error e →
        pdf_open_raw_stream_number doc num c = (.error e, c) ∧
        pdf_open_stream_number doc num c = (.error e, c)) ∧
      (∀ x, doc.cache_object num = .ok x →
        (x.stm_ofs = 0 → x.stm_buf = none →
          pdf_open_stream_number doc num c =
            (.error ⟨.FZ_ERROR_GENERIC, "object is not a stream"⟩, c)) ∧
        (¬ (x.stm_ofs = 0 ∧ x.stm_buf = none) →
          pdf_open_stream_number doc num c =
            match pdf_open_filter doc doc.file x.obj num x.stm_ofs none c with
            | (.ok r, c1) => (.ok r.1, c1)
            | (.error e, c1) => (.error e, c1)) ∧
        (x.stm_ofs = 0 →
          pdf_open_raw_stream_number doc num c =
            (.error ⟨.FZ_ERROR_GENERIC, "object is not a stream"⟩, c)) ∧
        (x.stm_ofs ≠ 0 →
          pdf_open_raw_stream_number doc num c =
            match pdf_open_raw_filter doc.file doc x.obj num x.stm_ofs c with
            | (.ok r, c1) => (.ok r.1, c1)
            | (.error e, c1) => (.error e, c1)))) := by
  refine ⟨?_, ?_⟩
  · intro h
    constructor
    · simp only [pdf_open_raw_stream_number, h, if_true]
      rfl
    · simp only [pdf_open_stream_number, pdf_open_image_stream, h, if_true, run_bind]
      rfl
  · intro h0 h1
    have hr : ¬ (num ≤ 0 ∨ num ≥ pdf_xref_len doc) := by omega
    refine ⟨?_, ?_⟩
    · intro e he
      constructor
      · simp only [pdf_open_raw_stream_number, hr, if_false, run_bind, pdf_cache_object, he]
      · simp only [pdf_open_stream_number, pdf_open_image_stream, hr, if_false, run_bind,
          pdf_cache_object, he]
    · intro x hx
      refine ⟨?_, ?_, ?_, ?_⟩
      · intro ho hb
        simp only [pdf_open_stream_number, pdf_open_image_stream, hr, if_false, run_bind,
          pdf_cache_object, hx, ho, hb, and_self, if_true]
        rfl
      · intro hns
        simp only [pdf_open_stream_number, pdf_open_image_stream, hr, if_false, run_bind,
          pdf_cache_object, hx, hns]
        rcases pdf_open_filter doc doc.file x.obj num x.stm_ofs none c with ⟨r, c1⟩
        cases r <;> rfl
      · intro ho
        simp only [pdf_open_raw_stream_number, hr, if_false, run_bind, pdf_cache_object, hx,
          ho, if_true]
        rfl
      · intro ho
        simp only [pdf_open_raw_stream_number, hr, if_false, run_bind, pdf_cache_object, hx,
          ho]
        rcases pdf_open_raw_filter doc.file doc x.obj num x.stm_ofs c with ⟨r, c1⟩
        cases r with
        | error e => rfl
        | ok r =>
          obtain ⟨s, a, b⟩ := r
          rfl

/-- C25, amended. Object id out of range, for a document whose nested loads
are bound to `pdf_load_stream` (`doc` is `doc0` bound `k` deep). For a number
out of range (`num <= 0` or `num >= xref_len`) `pdf_open_raw_stream_number`
and `pdf_open_stream_number` throw the generic error "object id out of range
(num 0 R)" and leave the context alone, whatever fetching the entry would do;
and they fail with that error if and only if the number is out of range,
given that what lies outside the stream code (`pdf_cache_object`, for
`pdf_open_stream_number` also `fz_read_all` and the load at depth 0) does not
throw that very error. For a number in range the entry is fetched and an
error of the fetch goes on; with the entry fetched, `pdf_open_stream_number`
throws its own "object is not a stream" when `stm_ofs = 0` and there is no
cached `stm_buf`, and otherwise its outcome is that of `pdf_open_filter` on
the entry, errors included (so "object is not a stream" can also come from a
`JBIG2Globals` reference that is no stream); `pdf_open_raw_stream_number`
throws "object is not a stream" when `stm_ofs = 0` and otherwise its outcome
is that of `pdf_open_raw_filter`. -/
theorem object_id_out_of_range (rd : fz_reader) (doc0 doc : pdf_document) (k : Nat)
    (num : Int) (c : fz_context) (hdoc : doc = pdf_bind_loader rd doc0 k) :
    ((num ≤ 0 ∨ num ≥ pdf_xref_len doc) →
      pdf_open_raw_stream_number doc num c =
        (.error ⟨.FZ_ERROR_GENERIC, "object id out of range (" ++ toString num ++ " 0 R)"⟩,
          c) ∧
      pdf_open_stream_number doc num c =
        (.error ⟨.FZ_ERROR_GENERIC, "object id out of range (" ++ toString num ++ " 0 R)"⟩,
          c)) ∧
    (doc0.cache_object num ≠
        .error ⟨.FZ_ERROR_GENERIC, "object id out of range (" ++ toString num ++ " 0 R)"⟩ →
      ((∃ c1, pdf_open_raw_stream_number doc num c =
          (.error ⟨.FZ_ERROR_GENERIC, "object id out of range (" ++ toString num ++ " 0 R)"⟩,
            c1)) ↔
        (num ≤ 0 ∨ num ≥ pdf_xref_len doc))) ∧
    ((∀ n, doc0.cache_object n ≠
        .error ⟨.FZ_ERROR_GENERIC, "object id out of range (" ++ toString num ++ " 0 R)"⟩) →
      (∀ s len c2 c3, rd.read_all s len c2 ≠
        (.error ⟨.FZ_ERROR_GENERIC, "object id out of range (" ++ toString num ++ " 0 R)"⟩,
          c3)) →
      (∀ o c2 c3, doc0.load_globals_stream o c2 ≠
        (.error ⟨.FZ_ERROR_GENERIC, "object id out of range (" ++ toString num ++ " 0 R)"⟩,
          c3)) →
      ((∃ c1, pdf_open_stream_number doc num c =
          (.error ⟨.FZ_ERROR_GENERIC, "object id out of range (" ++ toString num ++ " 0 R)"⟩,
            c1)) ↔
        (num ≤ 0 ∨ num ≥ pdf_xref_len doc))) ∧
    (0 < num → num < pdf_xref_len doc →
      (∀ e, doc.cache_object num = .error e →
        pdf_open_raw_stream_number doc num c = (.error e, c) ∧
        pdf_open_stream_number doc num c = (.error e, c)) ∧
      (∀ x, doc.cache_object num = .ok x →
        (x.stm_ofs = 0 → x.stm_buf = none →
          pdf_open_stream_number doc num c =
            (.error ⟨.FZ_ERROR_GENERIC, "object is not a stream"⟩, c)) ∧
        (¬ (x.stm_ofs = 0 ∧ x.stm_buf = none) →
          pdf_open_stream_number doc num c =
            match pdf_open_filter doc doc.file x.obj num x.stm_ofs none c with
            | (.ok r, c1) => (.ok r.1, c1)
            | (.error e, c1) => (.error e, c1)) ∧
        (x.stm_ofs = 0 →
          pdf_open_raw_stream_number doc num c =
            (.error ⟨.FZ_ERROR_GENERIC, "object is not a stream"⟩, c)) ∧
        (x.stm_ofs ≠ 0 →
          pdf_open_raw_stream_number doc num c =
            match pdf_open_raw_filter doc.file doc x.obj num x.stm_ofs c with
            | (.ok r, c1) => (.ok r.1, c1)
            | (.error e, c1) => (.error e, c1)))) := by
  have hcases := pdf_open_by_number_cases doc num c
  have hcache_eq : doc.cache_object = doc0.cache_object := by
    rw [hdoc]
    exact (pdf_bind_loader_fields rd doc0 k).2.2.2.1
  refine ⟨hcases.1, ?_, ?_, hcases.2⟩
  · intro hc
    constructor
    · rintro ⟨c1, h⟩
      by_contra hr
      have h0 : 0 < num := by omega
      have h1 : num < pdf_xref_len doc := by omega
      exact pdf_open_raw_stream_number_throws
        (fun e => e ≠ ⟨.FZ_ERROR_GENERIC, "object id out of range (" ++ toString num ++ " 0 R)"⟩)
        doc num (fun e he => by
          intro heq
          rw [hcache_eq, heq] at he
          exact hc he)
        (not_a_stream_ne_out_of_range num) c c1 _ h0 h1 h rfl
    · intro hr
      exact ⟨c, (hcases.1 hr).1⟩
  · intro hc hread hbase
    constructor
    · rintro ⟨c1, h⟩
      by_contra hr
      have h0 : 0 < num := by omega
      have h1 : num < pdf_xref_len doc := by omega
      have hcache : ∀ n e, doc0.cache_object n = .error e →
          e ≠ ⟨.FZ_ERROR_GENERIC, "object id out of range (" ++ toString num ++ " 0 R)"⟩ := by
        intro n e he heq
        rw [heq] at he
        exact hc n he
      have hld := pdf_bind_loader_throws
        (fun e => e ≠ ⟨.FZ_ERROR_GENERIC, "object id out of range (" ++ toString num ++ " 0 R)"⟩)
        rd doc0
        (fun o c2 e c3 he heq => by
          rw [heq] at he
          exact hbase o c2 c3 he)
        hcache
        (fun s len c2 e c3 he heq => by
          rw [heq] at he
          exact hread s len c2 c3 he)
        (not_a_stream_ne_out_of_range num) k
      rw [← hdoc] at hld
      exact pdf_open_stream_number_throws
        (fun e => e ≠ ⟨.FZ_ERROR_GENERIC, "object id out of range (" ++ toString num ++ " 0 R)"⟩)
        doc hld (by rw [hcache_eq]; exact hcache) (not_a_stream_ne_out_of_range num) num c c1 _
        h0 h1 h rfl
    · intro hr
      exact ⟨c, (hcases.1 hr).2⟩

theorem reader_file_read_all_error (bytes : List Nat) (pos : Int) (s : fz_stream) (len : Int)
    (c c1 : fz_context) (e : fz_error)
    (h : (reader_file bytes pos).read_all s len c = (.error e, c1)) :
    e = ⟨.FZ_ERROR_GENERIC, "cannot read"⟩ := by
  cases s with
  | null ch l o =>
    cases ch <;> simp [reader_file, fz_throw] at h <;> exact h.1.symm
  | _ => simp [reader_file, fz_throw] at h <;> exact h.1.symm

/-- Witness of the amended C25. In `doc_jbig2` (objects 1..4, nested loads
bound one level deep): number 9 is out of range and both halves of the
equivalence give the error; object 3 is in range and does not fail with
"object id out of range (3 0 R)". In `doc_plain`: number 0 is out of range,
object 3 cannot be fetched, object 2 is fetched and is no stream. -/
theorem object_id_out_of_range_witness :
    pdf_open_stream_number doc_jbig2 9 ctx_empty =
      (.error ⟨.FZ_ERROR_GENERIC, "object id out of range (9 0 R)"⟩, ctx_empty) ∧
    (∃ c1, pdf_open_stream_number doc_jbig2 9 ctx_empty =
      (.error ⟨.FZ_ERROR_GENERIC, "object id out of range (" ++ toString (9 : Int) ++ " 0 R)"⟩, c1)) ∧
    ¬ (∃ c1, pdf_open_stream_number doc_jbig2 3 ctx_empty =
      (.error ⟨.FZ_ERROR_GENERIC, "object id out of range (" ++ toString (3 : Int) ++ " 0 R)"⟩, c1)) ∧
    ¬ (∃ c1, pdf_open_raw_stream_number doc_jbig2 3 ctx_empty =
      (.error ⟨.FZ_ERROR_GENERIC, "object id out of range (" ++ toString (3 : Int) ++ " 0 R)"⟩, c1)) ∧
    pdf_open_raw_stream_number doc_plain 0 ctx_empty =
      (.error ⟨.FZ_ERROR_GENERIC, "object id out of range (0 0 R)"⟩, ctx_empty) ∧
    pdf_open_stream_number doc_plain 3 ctx_empty = (.error err_cannot_load, ctx_empty) ∧
    pdf_open_stream_number doc_plain 2 ctx_empty =
      (.error ⟨.FZ_ERROR_GENERIC, "object is not a stream"⟩, ctx_empty) :=
  ⟨(((object_id_out_of_range (reader_file [] 0) doc_jbig2_base doc_jbig2 1 9 ctx_empty rfl).1
      (Or.inr (by decide))).2).trans rfl,
   ((object_id_out_of_range (reader_file [] 0) doc_jbig2_base doc_jbig2 1 9 ctx_empty
      rfl).2.2.1
      (fun n h => by simp [doc_jbig2_base] at h)
      (fun s len c2 c3 h => by
        have := reader_file_read_all_error [] 0 s len c2 c3 _ h
        simp only [fz_error.mk.injEq, true_and] at this
        exact absurd this (by decide))
      (fun o c2 c3 h => by
        simp only [doc_jbig2_base, fz_throw, Prod.mk.injEq, Except.error.injEq,
          fz_error.mk.injEq, true_and] at h
        exact absurd h.1 (by decide))).mpr (Or.inr (by decide)),
   fun hex =>
     absurd
       (((object_id_out_of_range (reader_file [] 0) doc_jbig2_base doc_jbig2 1 3 ctx_empty
          rfl).2.2.1
          (fun n h => by simp [doc_jbig2_base] at h)
          (fun s len c2 c3 h => by
            have := reader_file_read_all_error [] 0 s len c2 c3 _ h
            simp only [fz_error.mk.injEq, true_and] at this
            exact absurd this (by decide))
          (fun o c2 c3 h => by
        simp only [doc_jbig2_base, fz_throw, Prod.mk.injEq, Except.error.injEq,
          fz_error.mk.injEq, true_and] at h
        exact absurd h.1 (by decide))).mp hex)
       (by decide),
   fun hex =>
     absurd
       (((object_id_out_of_range (reader_file [] 0) doc_jbig2_base doc_jbig2 1 3 ctx_empty
          rfl).2.1
          (fun h => by simp [doc_jbig2_base] at h)).mp hex)
       (by decide),
   (((object_id_out_of_range (reader_file [] 0) doc_plain doc_plain 0 0 ctx_empty rfl).1
      (Or.inl (by decide))).1).trans rfl,
   (((object_id_out_of_range (reader_file [] 0) doc_plain doc_plain 0 3 ctx_empty
      rfl).2.2.2 (by decide) (by decide)).1 err_cannot_load rfl).2,
   (((object_id_out_of_range (reader_file [] 0) doc_plain doc_plain 0 2 ctx_empty
      rfl).2.2.2 (by decide) (by decide)).2 ⟨2, 0, 0, none, some .null⟩ rfl).1 rfl rfl⟩

/-! ## Two-digit years in the form-field date parser -/

/-- On a number the window of `AFMakeDate` is the intended one: 2000 is added
below 50, 1900 from 50 to 99, nothing from 100 on. -/
theorem AFMakeDate_year_number (n : Int) (h : 0 ≤ n) :
    AFMakeDate_year (.number n) =
      .number (if n < 50 then n + 2000 else if n < 100 then n + 1900 else n) := by
  by_cases h50 : n < 50
  · have h2 : ¬ (n + 2000 < 100) := by omega
    simp [AFMakeDate_year, js_lt, js_add, js_ToNumber, h50, h2]
  · by_cases h100 : n < 100
    · simp [AFMakeDate_year, js_lt, js_add, js_ToNumber, h50, h100]
    · simp [AFMakeDate_year, js_lt, js_add, js_ToNumber, h50, h100]

/-- On the digit group of a year from 0 to 99 the window of `AFMakeDate`
appends the digits of 2000 (below 50) or of 1900 (from 50 on) to the group. -/
theorem AFMakeDate_year_digit_group :
    ∀ yy : Fin 100, AFMakeDate_year (.string (toString yy.val)) =
      .string (toString yy.val ++ (if yy.val < 50 then "2000" else "1900")) := by
  decide

/-- The order `AFParseDateOrder` derives: each of `y`, `m`, `d` once, in order
of first occurrence in the format, the missing ones appended in the order
`m`, `d`, `y`. -/
theorem AFParseDateOrder_samples :
    AFParseDateOrder "m/d/yy" = "mdy" ∧ AFParseDateOrder "yy-mm-dd" = "ymd" ∧
    AFParseDateOrder "dd-mm-yy" = "dmy" ∧ AFParseDateOrder "yyyy" = "ymd" ∧
    AFParseDateOrder "d" = "dmy" ∧ AFParseDateOrder "" = "mdy" ∧
    AFParseDateOrder "HH:MM" = "mdy" := by
  decide

/-- C31. Two-digit years are not windowed: the digit groups `AFExtractNums`
gives are strings, so in `AFMakeDate` the test `year < 50` compares the group
as a number but `year += 2000` appends the digits. For `1/2/12` with format
`m/d/yy` `AFParseDateEx` returns 2 January of the year 122000, not 2012; for
`1/2/75` the year would be 751900, beyond the range of a date, and the result
is `null`; a four-digit year is taken as it is, and on numbers the window
gives 2012 and 1975. -/
theorem two_digit_year_concatenated :
    AFExtractNums "1/2/12" = some ["1", "2", "12"] ∧
    AFParseDateOrder "m/d/yy" = "mdy" ∧
    AFMakeDate_year (.string "12") = .string "122000" ∧
    (AFParseDateEx clock_2012 "1/2/12" "m/d/yy").map
        (fun d => (js_getFullYear clock_2012 d, js_getMonth clock_2012 d,
          js_getDate clock_2012 d)) =
      some (.number 122000, .number 0, .number 2) ∧
    AFMakeDate_year (.string "75") = .string "751900" ∧
    AFParseDateEx clock_2012 "1/2/75" "m/d/yy" = none ∧
    (AFParseDateEx clock_2012 "1/2/2012" "m/d/yy").map
        (fun d => (js_getFullYear clock_2012 d, js_getMonth clock_2012 d,
          js_getDate clock_2012 d)) =
      some (.number 2012, .number 0, .number 2) ∧
    AFMakeDate_year (.number 12) = .number 2012 ∧
    AFMakeDate_year (.number 75) = .number 1975 := by
  decide

set_option maxRecDepth 100000 in
/-- For every two-digit year `yy` the text `1/2/yy` with format `m/d/yy`
parses to 2 January of the year `yy * 10000 + 2000` when `yy` is below 28,
and to `null` from 28 on, where the year with the digits appended is beyond
the range of a date. -/
theorem AFParseDateEx_two_digit_years :
    ∀ yy : Fin 100,
      (AFParseDateEx clock_2012 ("1/2/" ++ toString yy.val) "m/d/yy").map
          (fun d => (js_getFullYear clock_2012 d, js_getMonth clock_2012 d,
            js_getDate clock_2012 d)) =
        if yy.val < 28 then
          some (.number ((yy.val : Int) * 10000 + 2000), .number 0, .number 2)
        else none := by
  decide

/-- The path of `AFParseDateEx` directed by the format, for a text as long as
the format with one digit group: `20121005` and `2012105.` with `yyyymmdd`
both give 5 October 2012, the day text `5.` being the number 5. -/
theorem AFParseDateEx_fixed_width_samples :
    (AFParseDateEx clock_2012 "20121005" "yyyymmdd").map
        (fun d => (js_getFullYear clock_2012 d, js_getMonth clock_2012 d,
          js_getDate clock_2012 d)) =
      some (.number 2012, .number 9, .number 5) ∧
    (AFParseDateEx clock_2012 "2012105." "yyyymmdd").map
        (fun d => (js_getFullYear clock_2012 d, js_getMonth clock_2012 d,
          js_getDate clock_2012 d)) =
      some (.number 2012, .number 9, .number 5) ∧
    js_string_to_number "5." = some 5 ∧ js_string_to_number " 0x1F " = some 31 ∧
    js_string_to_number "1.5e1" = some 15 ∧ js_string_to_number "12a" = none := by
  decide

end MuPDF
